import Mathlib

/-!
# lightBLUE: HCI framer, event dispatch, command exchange and GATT operations

A shallow embedding of the lightBLUE library (`src/src/commands.c`,
`src/src/hci.c`, `src/src/ti_hci.c`, `src/src/st_aci.c`, `src/src/utils.c`,
`src/src/controller.c`, `src/src/lb_priv.h`, `src/inc/hci.h`).

Bytes are natural numbers (values below 256).  A C array is a list, a pointer
into an array is the list of the bytes from that address on, and a failed
`assert`, a read through a null pointer and a loop that does not end are the
result `none`.
-/

namespace LightBlue

/-! ## Data model -/

/-- The accumulator of `struct LB_Controller` (`lb_priv.h`): `uint8_t buffer[128]`
and `uint32_t length`.  These are the only fields `processBuffer` and
`io_on_dataReceived` read or write themselves; the device table, the vendor
adapter and the command table are reached through the event handlers only. -/
structure LB_Controller where
  buffer : List Nat
  length : Nat
deriving DecidableEq

/-- The value `HCI_PACKET_EVENT` of `enum HCI_PacketType`. -/
def HCI_PACKET_EVENT : Nat := 4

/-- The value of `sizeof(struct HCI_EventHeader)`: three `uint8_t` fields. -/
def sizeofEventHeader : Nat := 3

/-- The value of `sizeof(controller->buffer)`. -/
def sizeofBuffer : Nat := 128

/-- The state `lb_connect` leaves the accumulator in: `memset(controller, 0, ...)`. -/
def lb_connect : LB_Controller :=
  { buffer := List.replicate sizeofBuffer 0, length := 0 }

/-- The C call `memcpy(dst + pos, src, src.length)` on the array `dst`. -/
def memcpyAt (dst : List Nat) (pos : Nat) (src : List Nat) : List Nat :=
  dst.take pos ++ src ++ dst.drop (pos + src.length)

/-- The C call `memmove(dst, dst + off, n)` on the array `dst`. -/
def memmoveToStart (dst : List Nat) (off n : Nat) : List Nat :=
  (dst.drop off).take n ++ dst.drop n

/-! ## Framer -/

/-- The `while` loop of `processBuffer`.  `off` is the distance of the local
pointer `buffer` from `controller->buffer`, `length` the local `length`.
`dispatch s opcode ptr len` stands for the `switch (header->opcode)`: it gets
the event opcode, the memory from `ptr` on and `header->length`, and returns
`none` when a handler does not return.  The result is the array, the value
stored in `controller->length`, and the handlers' state.  Every iteration
that continues takes at least three bytes off `length`, so `length + 1`
iterations are never used up (`processLoop_fuel`). -/
def processLoop {σ : Type} (dispatch : σ → Nat → List Nat → Nat → Option σ) :
    Nat → List Nat → Nat → Nat → σ → Option (List Nat × Nat × σ)
  | 0, _, _, _, _ => none
  | fuel + 1, cbuf, off, length, s =>
    if sizeofEventHeader ≤ length then
      if HCI_PACKET_EVENT = cbuf.getD off 0 then
        let eventLength := sizeofEventHeader + cbuf.getD (off + 2) 0
        if eventLength ≤ length then
          match dispatch s (cbuf.getD (off + 1) 0) (cbuf.drop (off + sizeofEventHeader))
              (cbuf.getD (off + 2) 0) with
          | none => none
          | some s1 => processLoop dispatch fuel cbuf (off + eventLength) (length - eventLength) s1
        else
          some (memmoveToStart cbuf off length, length, s)
      else
        some (List.replicate sizeofBuffer 0, 0, s)
    else
      some (cbuf, length, s)

/-- The function `processBuffer` of `commands.c`. -/
def processBuffer {σ : Type} (dispatch : σ → Nat → List Nat → Nat → Option σ)
    (controller : LB_Controller) (s : σ) : Option (LB_Controller × σ) :=
  match processLoop dispatch (controller.length + 1) controller.buffer 0 controller.length s with
  | none => none
  | some (cbuf, length, s1) => some ({ buffer := cbuf, length := length }, s1)

/-- The function `io_on_dataReceived` of `commands.c`; `chunk` is the received
bytes, `chunk.length` the `uint32_t length` argument. -/
def io_on_dataReceived {σ : Type} (dispatch : σ → Nat → List Nat → Nat → Option σ)
    (controller : LB_Controller) (chunk : List Nat) (s : σ) : Option (LB_Controller × σ) :=
  if (chunk.length + controller.length) % 4294967296 < sizeofBuffer then
    processBuffer dispatch
      { buffer := memcpyAt controller.buffer controller.length chunk,
        length := (controller.length + chunk.length) % 4294967296 } s
  else
    none

/-- A dispatched event: the opcode and the parameter bytes the handler is given. -/
abbrev Dispatched := Nat × List Nat

/-- The dispatcher that only records each invocation, in order. -/
def recordDispatch (log : List Dispatched) (opcode : Nat) (ptr : List Nat) (len : Nat) :
    Option (List Dispatched) :=
  some (log ++ [(opcode, ptr.take len)])

/-- Feeds the chunks one by one to `io_on_dataReceived`. -/
def feedChunks {σ : Type} (dispatch : σ → Nat → List Nat → Nat → Option σ) :
    LB_Controller → List (List Nat) → σ → Option (LB_Controller × σ)
  | controller, [], s => some (controller, s)
  | controller, chunk :: rest, s =>
    match io_on_dataReceived dispatch controller chunk s with
    | none => none
    | some (c1, s1) => feedChunks dispatch c1 rest s1

/-- The bytes of one event packet on the wire: `04, opcode, len, params[len]`. -/
def eventPacket (p : Dispatched) : List Nat :=
  HCI_PACKET_EVENT :: p.1 :: p.2.length :: p.2

/-- The wire bytes of a stream of event packets. -/
def eventStream (ps : List Dispatched) : List Nat :=
  (ps.map eventPacket).flatten

/-- Spec side: the handlers' state after the `switch` of `processBuffer` has run
once for each of the event packets `ps`, in order.  The handler of a packet is
given the packet's opcode, the memory from its first parameter byte on (its
parameters, then the packets that follow it and `tail`, the memory behind
them) and its parameter length; a handler that does not return ends the run. -/
def dispatchEach {σ : Type} (dispatch : σ → Nat → List Nat → Nat → Option σ) :
    σ → List Dispatched → List Nat → Option σ
  | s, [], _ => some s
  | s, p :: ps, tail =>
    match dispatch s p.1 (p.2 ++ (eventStream ps ++ tail)) p.2.length with
    | none => none
    | some s1 => dispatchEach dispatch s1 ps tail

/-! ## Command correlator (`hci.c`) -/

/-- One entry of `pendingCommands` (`struct hci_condition`).  `handle` is
whether the entry's condition is signalled; `buffer` is the caller's memory
that the pointer `buffer` refers to. -/
structure hci_condition where
  handle : Bool
  opcode : Nat
  capacity : Nat
  buffer : List Nat
  status : Nat
  length : Nat
deriving DecidableEq

/-- The number of entries of `pendingCommands`. -/
def pendingCommandsCount : Nat := 4

/-- The table `hci_initialize` leaves: `memset(pendingCommands, 0, ...)`, with a
fresh (unsignalled) condition in every entry and null buffer pointers. -/
def hci_initialize : List hci_condition :=
  List.replicate pendingCommandsCount
    { handle := false, opcode := 0, capacity := 0, buffer := [], status := 0, length := 0 }

/-- The value `sizeof(struct HCI_EVENT_Command_Complete)`: four `uint8_t` fields
(`numberHCICommands`, `opcode.lo`, `opcode.hi`, `status`). -/
def sizeofCommandComplete : Nat := 4

/-- The function `uint16Value` of `hci.h` on the two bytes of a
`struct BigEndianUnsigned16`; the result is a `uint16_t`. -/
def uint16Value (lo hi : Nat) : Nat :=
  ((hi <<< 8) ||| lo) % 65536

/-- The scan `while (4 > ii) { if (opcode == pendingCommands[ii].opcode) break; else ii ++; }`
of `signalCondition` and `releaseCondition` (and of `allocateCondition`, with
opcode 0) over the entries it is given: the index of the first entry bearing
`opcode`, or the number of entries when there is none. -/
def scanOpcode (opcode : Nat) : List hci_condition → Nat
  | [] => 0
  | cond :: rest => if opcode = cond.opcode then 0 else scanOpcode opcode rest + 1

/-- The function `signalCondition` of `hci.c` on the table `pendingCommands`.
`result` is the memory the pointer `result` refers to (empty for `NULL`),
`length` the `uint8_t length` argument; `none` is the failed `assert(false)`. -/
def signalCondition (table : List hci_condition) (opcode status : Nat) (result : List Nat)
    (length : Nat) : Option (List hci_condition) :=
  let ii := scanOpcode opcode (table.take pendingCommandsCount)
  if pendingCommandsCount ≠ ii then
    match table.get? ii with
    | none => none
    | some cond =>
      let length1 := if length > cond.capacity then cond.capacity else length
      let buffer1 := if length1 ≠ 0 then memcpyAt cond.buffer 0 (result.take length1) else cond.buffer
      some (table.set ii
        { cond with buffer := buffer1, length := length1, status := status, handle := true })
  else
    none

/-- The function `hci_on_eventCommandComplete` of `hci.c`.  `event` is the
memory from the event parameters on (`struct HCI_EVENT_Command_Complete`:
`opcode` at offsets 1 and 2, `status` at offset 3), `length` the `uint8_t`
parameter length; `length - sizeof(...)` is truncated to `uint8_t`. -/
def hci_on_eventCommandComplete (table : List hci_condition) (event : List Nat) (length : Nat) :
    Option (List hci_condition) :=
  signalCondition table (uint16Value (event.getD 1 0) (event.getD 2 0)) (event.getD 3 0)
    (event.drop sizeofCommandComplete) ((length + (256 - sizeofCommandComplete)) % 256)

/-- The function `hci_on_eventCommandStatus` of `hci.c`.  `event` is the memory
from the event parameters on (`struct HCI_EVENT_Command_Status`: `status` at
offset 0, `opcode` at offsets 2 and 3); the payload pointer is `NULL`. -/
def hci_on_eventCommandStatus (table : List hci_condition) (event : List Nat) (_length : Nat) :
    Option (List hci_condition) :=
  signalCondition table (uint16Value (event.getD 2 0) (event.getD 3 0)) (event.getD 0 0) [] 0

/-! ## Command correlator: allocate, release, wait (`hci.c`) -/

/-- The value `HCI_STATUS_SUCCESS` of `enum HCI_StatusCode`. -/
def HCI_STATUS_SUCCESS : Nat := 0x00

/-- The value `HCI_HOST_TIMEOUT` of `enum HCI_StatusCode`. -/
def HCI_HOST_TIMEOUT : Nat := 0x10

/-- The value `HCI_CONTROLLER_BUSY` of `enum HCI_StatusCode`. -/
def HCI_CONTROLLER_BUSY : Nat := 0x3A

/-- The function `allocateCondition` of `hci.c` on the table `pendingCommands`
(4 entries).  The result is the table and the returned pointer: the index of
the claimed entry, or `none` for `NULL`.  `os_resetCondition` clears `handle`;
`result` is the caller's memory behind the pointer `result`. -/
def allocateCondition (table : List hci_condition) (opcode : Nat) (result : List Nat)
    (capacity : Nat) : List hci_condition × Option Nat :=
  let ii := scanOpcode 0 (table.take pendingCommandsCount)
  if pendingCommandsCount = ii then
    (table, none)
  else
    (table.set ii
      { handle := false, opcode := opcode, capacity := capacity, buffer := result,
        status := HCI_CONTROLLER_BUSY, length := 0 }, some ii)

/-- The function `releaseCondition` of `hci.c`; `none` is the failed
`assert(4 != ii)`. -/
def releaseCondition (table : List hci_condition) (opcode : Nat) : Option (List hci_condition) :=
  let ii := scanOpcode opcode (table.take pendingCommandsCount)
  if pendingCommandsCount ≠ ii then
    match table.get? ii with
    | none => none
    | some cond => some (table.set ii { cond with opcode := 0 })
  else
    none

/-- The function `waitForCondition` of `hci.c`.  `cond` is the pointer it is
given (an index into the table, `none` for `NULL`), `length` the value behind
the out-pointer `length` before the call.  `os_waitForCondition` returns true
exactly when the entry's condition is signalled in `table`, the state of the
table when the wait ends (an event is set until it is reset).  The result is
the table, the returned status and the value behind `length` afterwards;
`none` is the read through a null or invalid pointer. -/
def waitForCondition (table : List hci_condition) (cond : Option Nat) (length : Nat) :
    Option (List hci_condition × Nat × Nat) :=
  match cond with
  | none => none
  | some ii =>
    match table.get? ii with
    | none => none
    | some c =>
      if c.handle then
        some (table.set ii { c with opcode := 0 }, c.status, c.length)
      else
        some (table, HCI_CONTROLLER_BUSY, length)

/-- A call of one of the four functions that work on `pendingCommands`. -/
inductive CorrelatorCall where
  | allocate (opcode : Nat) (result : List Nat) (capacity : Nat)
  | signal (opcode status : Nat) (result : List Nat) (length : Nat)
  | wait (cond : Nat)
  | release (opcode : Nat)

/-- The table after one call; `none` when the call does not return. -/
def runCall (table : List hci_condition) : CorrelatorCall → Option (List hci_condition)
  | .allocate opcode result capacity => some (allocateCondition table opcode result capacity).1
  | .signal opcode status result length => signalCondition table opcode status result length
  | .wait cond => (waitForCondition table (some cond) 0).map (fun r => r.1)
  | .release opcode => releaseCondition table opcode

/-- The table after a sequence of calls. -/
def runCalls : List hci_condition → List CorrelatorCall → Option (List hci_condition)
  | table, [] => some table
  | table, call :: rest =>
    match runCall table call with
    | none => none
    | some table1 => runCalls table1 rest

/-- The non-zero opcodes of the entries are pairwise distinct. -/
def distinctOpcodes (table : List hci_condition) : Prop :=
  ((table.map (fun c => c.opcode)).filter (fun x => x ≠ 0)).Nodup

instance (table : List hci_condition) : Decidable (distinctOpcodes table) := by
  unfold distinctOpcodes
  infer_instance

/-- The call is not an `allocateCondition` with a non-zero opcode that some
entry already bears. -/
def freshCall (table : List hci_condition) : CorrelatorCall → Bool
  | .allocate opcode _ _ => opcode == 0 || table.all (fun c => c.opcode != opcode)
  | _ => true

/-- Every `allocateCondition` call of the sequence is made with opcode 0 or
with an opcode that no entry bears at that moment. -/
def freshAllocations : List hci_condition → List CorrelatorCall → Bool
  | _, [] => true
  | table, call :: rest =>
    freshCall table call
    && (match runCall table call with
      | none => true
      | some table1 => freshAllocations table1 rest)

/-! ## Session state (`lb_priv.h`, `osal_core.h`) -/

/-- The type `enum LB_STATUS` of `commands.h`. -/
inductive LB_STATUS where
  | LB_OK
  | LB_FAILURE
  | LB_UNKNOWN_VENDOR
  | LB_CONTROLLER_NOT_CONNECTED
  | LB_DEVICE_NOT_CONNECTED
  | LB_OPERATION_TIMEOUT
deriving DecidableEq

/-- The table `controller->vendorFunctions` points to: `lb_vendorFunctions_TI`
or `lb_vendorFunctions_ST`, the only two values `lb_initializeHCI` assigns. -/
inductive Adapter where
  | TI
  | ST
deriving DecidableEq

/-- The `void*` an `os_condition` carries: an integer cast to a pointer
(`value 0` is `NULL`) or the address of an entry of `controller->device`. -/
inductive CondStatus where
  | value (v : Nat)
  | device (index : Nat)
deriving DecidableEq

/-- The type `struct os_condition`: a manual-reset event and the carried
status. -/
structure os_condition where
  signalled : Bool
  status : CondStatus
deriving DecidableEq

/-- The function `os_createCondition`: a fresh, unsignalled condition. -/
def os_createCondition : os_condition :=
  { signalled := false, status := CondStatus.value 0 }

/-- The function `os_resetCondition`. -/
def os_resetCondition (_cond : os_condition) : os_condition :=
  { signalled := false, status := CondStatus.value 0 }

/-- The function `os_signalCondition`. -/
def os_signalCondition (_cond : os_condition) (status : CondStatus) : os_condition :=
  { signalled := true, status := status }

/-- The function `os_waitForCondition` on the state of the condition when the
wait ends: the carried status when it is signalled, `none` for a timeout. -/
def os_waitForCondition (cond : os_condition) : Option CondStatus :=
  if cond.signalled then some cond.status else none

/-- The value `INVALID_CONNECTION_HANDLE`. -/
def INVALID_CONNECTION_HANDLE : Nat := 0xffff

/-- The value `PO_IDLE` of `enum PendingOperation`. -/
def PO_IDLE : Nat := 0

/-- The value `PO_DISCOVER` of `enum PendingOperation`. -/
def PO_DISCOVER : Nat := 1

/-- The value `PO_READ` of `enum PendingOperation`. -/
def PO_READ : Nat := 2

/-- The value `PO_WRITE` of `enum PendingOperation`. -/
def PO_WRITE : Nat := 3

/-- The member `pendingOperation` of `struct LB_Device`. -/
structure PendingOperation where
  type : Nat
  attributeHandle : Nat
deriving DecidableEq

/-- The member `pendingRead` of `struct LB_Device`; `attributeValue` is the
caller's memory behind the pointer. -/
structure PendingRead where
  attributeValue : List Nat
  attributeCapacity : Nat
  attributeLength : Nat
deriving DecidableEq

/-- The type `struct LB_Device`.  `controller` is whether the back pointer is
non-null (there is one controller); the lock is not represented. -/
structure LB_Device where
  controller : Bool
  connectionHandle : Nat
  operationComplete : os_condition
  pendingOperation : PendingOperation
  pendingRead : PendingRead
deriving DecidableEq

/-- The number of entries of `controller->device`. -/
def deviceCount : Nat := 8

/-- An entry of `controller->device` as `lb_connect` leaves it. -/
def freeDevice : LB_Device :=
  { controller := false, connectionHandle := INVALID_CONNECTION_HANDLE,
    operationComplete := os_createCondition,
    pendingOperation := { type := 0, attributeHandle := 0 },
    pendingRead := { attributeValue := [], attributeCapacity := 0, attributeLength := 0 } }

/-- A call of one of the application's `lb_on_...` functions (`commands.h`),
with the device given as its index in `controller->device`. -/
inductive AppCallback where
  | observedDeviceAdvertisment (address : List Nat) (rssi : Nat) (data : List Nat)
  | deviceDiscoveryComplete
  | disconnectedFromDevice (device : Nat) (reason : Nat)
  | discoveredPrimaryService (device : Nat) (attributeHandle groupEndHandle : Nat)
      (uuid : List Nat)
  | receivedNotification (device : Nat) (attributeHandle status : Nat)
      (attributeValue : List Nat)
deriving DecidableEq

/-- What the I/O thread's event handlers read and write: the table
`pendingCommands` of `hci.c`, the members `device` and `operationComplete` of
`struct LB_Controller`, and the calls made to the application. -/
structure Shared where
  pendingCommands : List hci_condition
  device : List LB_Device
  operationComplete : os_condition
  callbacks : List AppCallback
deriving DecidableEq

/-- The session as the application thread sees it: the shared part, the
members `vendorFunctions` and `manufacturerId` of `struct LB_Controller`
(written by `lb_initializeHCI` only), and the command buffers handed to
`io_sendData`, oldest first. -/
structure Host where
  shared : Shared
  vendorFunctions : Option Adapter
  manufacturerId : Nat
  wire : List (List Nat)
deriving DecidableEq

/-- The session after `lb_initialize` and `lb_connect`. -/
def sessionStart : Host :=
  { shared :=
      { pendingCommands := hci_initialize,
        device := List.replicate deviceCount freeDevice,
        operationComplete := os_createCondition,
        callbacks := [] },
    vendorFunctions := none,
    manufacturerId := 0,
    wire := [] }

/-- What the I/O thread does while the application thread waits on a
condition: given the session at that moment (the commands sent so far
included) the shared part when the wait ends, or `none` when a handler on the
I/O thread does not return. -/
abbrev IoThread := Host → Option Shared

/-! ## Device table and event dispatch (`lb_priv.h`, `commands.c`, `st_aci.c`) -/

/-- The function `isDeviceConnected` of `lb_priv.h`. -/
def isDeviceConnected (device : LB_Device) : Bool :=
  INVALID_CONNECTION_HANDLE != device.connectionHandle

/-- The loop of `getDevice` (`lb_priv.h`), which never advances `ii`; `none`
is a loop that is still running when the fuel is used up, or a failed
`assert(device)`. -/
def getDeviceLoop (device : List LB_Device) (connectionHandle : Nat) : Nat → Nat → Option Nat
  | 0, _ => none
  | fuel + 1, ii =>
    if ii < deviceCount then
      match device.get? ii with
      | none => none
      | some d =>
        if d.connectionHandle = connectionHandle then some ii
        else getDeviceLoop device connectionHandle fuel ii
    else
      none

/-- The function `getDevice` of `lb_priv.h`: the index of the entry found. -/
def getDevice (device : List LB_Device) (connectionHandle : Nat) : Option Nat :=
  getDeviceLoop device connectionHandle (deviceCount + 1) 0

/-- The loop of `on_connectedToDevice` (`commands.c`), which never advances
`ii` either. -/
def freeDeviceLoop (device : List LB_Device) : Nat → Nat → Option Nat
  | 0, _ => none
  | fuel + 1, ii =>
    if ii < deviceCount then
      match device.get? ii with
      | none => none
      | some d =>
        if INVALID_CONNECTION_HANDLE = d.connectionHandle then some ii
        else freeDeviceLoop device fuel ii
    else
      none

/-- The function `on_connectedToDevice` of `commands.c`. -/
def on_connectedToDevice (s : Shared) (_address : List Nat) (handle : Nat) : Option Shared :=
  match freeDeviceLoop s.device (deviceCount + 1) 0 with
  | none => none
  | some ii =>
    match s.device.get? ii with
    | none => none
    | some d =>
      some { s with
        device := s.device.set ii
          { d with controller := true, connectionHandle := handle,
                   operationComplete := os_createCondition },
        operationComplete := os_signalCondition s.operationComplete (CondStatus.device ii) }

/-- The function `on_disconnectedFromDevice` of `commands.c`. -/
def on_disconnectedFromDevice (s : Shared) (connectionHandle reason : Nat) : Option Shared :=
  match getDevice s.device connectionHandle with
  | none => none
  | some ii =>
    some { s with
      callbacks := s.callbacks ++ [AppCallback.disconnectedFromDevice ii reason],
      operationComplete := os_signalCondition s.operationComplete (CondStatus.value reason) }

/-- The function `hci_on_vendorSpecificEvent` of `hci.c`: it only prints. -/
def hci_on_vendorSpecificEvent (s : Shared) (_event : List Nat) (_length : Nat) :
    Option Shared :=
  some s

/-- The function `lb_on_metaEvent_ST` of `st_aci.c`.  After the sub-event code
comes a `struct Event_HCI_LE_CONNECTION_COMPLETE` (18 bytes: `connectionHandle`
at offsets 1 and 2, `peerAddress` at offset 5). -/
def lb_on_metaEvent_ST (s : Shared) (event : List Nat) (length : Nat) : Option Shared :=
  if length = 0 then
    none
  else if event.getD 0 0 = 0x01 then
    if 18 + 1 = length then
      on_connectedToDevice s ((event.drop 6).take 6)
        (uint16Value (event.getD 2 0) (event.getD 3 0))
    else
      none
  else
    some s

/-- The member `on_metaEvent` of the adapter's table: `NULL` in
`lb_vendorFunctions_TI` (`ti_hci.c`), `lb_on_metaEvent_ST` in
`lb_vendorFunctions_ST` (`st_aci.c`). -/
def on_metaEvent : Adapter → Option (Shared → List Nat → Nat → Option Shared)
  | Adapter.TI => none
  | Adapter.ST => some lb_on_metaEvent_ST

/-- The `switch (header->opcode)` of `processBuffer` (`commands.c`).
`vendorEvent` is the member `on_vendorSpecificEvent` of each adapter's table,
`vendorFunctions` the pointer `controller->vendorFunctions`; `ptr` is the
memory from the event parameters on and `len` is `header->length`.  A call
through a null function pointer does not return. -/
def dispatchEvent (vendorEvent : Adapter → Shared → List Nat → Nat → Option Shared)
    (vendorFunctions : Option Adapter) (s : Shared) (opcode : Nat) (ptr : List Nat)
    (len : Nat) : Option Shared :=
  if opcode = 0x05 then
    if 4 = len then
      on_disconnectedFromDevice s (uint16Value (ptr.getD 1 0) (ptr.getD 2 0)) (ptr.getD 3 0)
    else
      none
  else if opcode = 0x0E then
    (hci_on_eventCommandComplete s.pendingCommands ptr len).map
      (fun table => { s with pendingCommands := table })
  else if opcode = 0x0F then
    (hci_on_eventCommandStatus s.pendingCommands ptr len).map
      (fun table => { s with pendingCommands := table })
  else if opcode = 0x3E then
    match vendorFunctions with
    | none => some s
    | some adapter =>
      match on_metaEvent adapter with
      | none => none
      | some handler => handler s ptr len
  else if opcode = 0xFF then
    match vendorFunctions with
    | some adapter => vendorEvent adapter s ptr len
    | none => hci_on_vendorSpecificEvent s ptr len
  else
    some s

/-! ## Command exchange and initialization (`commands.c`, `hci.h`, `st_aci.c`, `ti_hci.c`) -/

/-- The value `HCI_PACKET_COMMAND` of `enum HCI_PacketType`. -/
def HCI_PACKET_COMMAND : Nat := 1

/-- The bytes of the `struct HCI_CommandHeader` named `CMD_X` that the macro
`MAKE_HCI_COMMAND(X)` gives for the opcode `HCI_X`: packet type, `lo`, `hi`,
length 0. -/
def MAKE_HCI_COMMAND (opcode : Nat) : List Nat :=
  [HCI_PACKET_COMMAND, (opcode &&& 0xFF) % 256, (opcode >>> 8) % 256, 0]

/-- The value `HCI_READ_LOCAL_VERSION_INFORMATION` of `enum HCI_CommandOpcode`. -/
def HCI_READ_LOCAL_VERSION_INFORMATION : Nat := 0x1001

/-- The value `HCI_RESET` of `enum HCI_CommandOpcode`. -/
def HCI_RESET : Nat := 0x0C03

/-- The constant `CMD_READ_LOCAL_VERSION_INFORMATION` of `commands.c`. -/
def CMD_READ_LOCAL_VERSION_INFORMATION : List Nat :=
  MAKE_HCI_COMMAND HCI_READ_LOCAL_VERSION_INFORMATION

/-- The constant `CMD_RESET` of `commands.c`. -/
def CMD_RESET : List Nat :=
  MAKE_HCI_COMMAND HCI_RESET

/-- The function `lb_executeCommand` of `commands.c`.  `command` is the memory
behind the pointer `command`, `response` the caller's memory behind `response`
(empty for `NULL`).  The result is the session, the returned status and the
caller's response memory at the return.  `none`: the failed
`assert(4 <= commandLength)`, a handler on the I/O thread that does not return,
or `waitForCondition` reading through the null pointer that
`allocateCondition` returned. -/
def lb_executeCommand (io : IoThread) (s : Host) (command : List Nat) (commandLength : Nat)
    (response : List Nat) (maxResponseLength : Nat) : Option (Host × LB_STATUS × List Nat) :=
  if 4 ≤ commandLength then
    let opcode := (((command.getD 2 0) <<< 8) ||| command.getD 1 0) % 65536
    let allocated := allocateCondition s.shared.pendingCommands opcode response maxResponseLength
    let s1 : Host :=
      { s with
        shared := { s.shared with pendingCommands := allocated.1 },
        wire := s.wire ++ [command.take commandLength] }
    match io s1 with
    | none => none
    | some shared2 =>
      match waitForCondition shared2.pendingCommands allocated.2 0 with
      | none => none
      | some (table3, status, _) =>
        some ({ s1 with shared := { shared2 with pendingCommands := table3 } },
              if HCI_STATUS_SUCCESS = status then LB_STATUS.LB_OK else LB_STATUS.LB_FAILURE,
              match allocated.2.bind (fun ii => table3.get? ii) with
              | some cond => cond.buffer
              | none => response)
  else
    none

/-- The function `lb_readLocalVersionInformation` of `commands.c`; `version` is
the caller's `struct HCI_RESPONSE_Read_Local_Version_Information` (8 bytes,
`manufacturerId` at offsets 4 and 5) before the call, the third component of
the result is that memory afterwards. -/
def lb_readLocalVersionInformation (io : IoThread) (s : Host) (version : List Nat) :
    Option (Host × LB_STATUS × List Nat) :=
  lb_executeCommand io s CMD_READ_LOCAL_VERSION_INFORMATION 4 version 8

/-- The function `lb_resetHCI` of `commands.c`. -/
def lb_resetHCI (io : IoThread) (s : Host) : Option (Host × LB_STATUS) :=
  (lb_executeCommand io s CMD_RESET 4 [] 0).map (fun r => (r.1, r.2.1))

/-- The constant `CMD_ACI_SET_DATA_MODE` of `st_aci.c`. -/
def CMD_ACI_SET_DATA_MODE : List Nat :=
  [HCI_PACKET_COMMAND, 0xFC0C &&& 0xFF, 0xFC0C >>> 8, 3, 0x2D, 1, 2]

/-- The constant `CMD_ACI_GATT_INIT` of `st_aci.c`. -/
def CMD_ACI_GATT_INIT : List Nat :=
  [HCI_PACKET_COMMAND, 0xFD01 &&& 0xFF, 0xFD01 >>> 8, 0]

/-- The function `lb_performVendorSpecificInitialization_ST` of `st_aci.c`. -/
def lb_performVendorSpecificInitialization_ST (io : IoThread) (s : Host) :
    Option (Host × LB_STATUS) :=
  match lb_resetHCI io s with
  | none => none
  | some (s1, status1) =>
    if LB_STATUS.LB_OK = status1 then
      match lb_executeCommand io s1 CMD_ACI_SET_DATA_MODE 7 [] 0 with
      | none => none
      | some (s2, status2, _) =>
        if LB_STATUS.LB_OK = status2 then
          match lb_executeCommand io s2 CMD_ACI_GATT_INIT 4 [] 0 with
          | none => none
          | some (s3, status3, _) => some (s3, status3)
        else
          some (s2, status2)
    else
      some (s1, status1)

/-- The function `lb_performVendorSpecificInitialization_TI` of `ti_hci.c`. -/
def lb_performVendorSpecificInitialization_TI (_io : IoThread) (s : Host) :
    Option (Host × LB_STATUS) :=
  some (s, LB_STATUS.LB_OK)

/-- The member `initializeHCI` of the adapter's table. -/
def initializeHCI : Adapter → IoThread → Host → Option (Host × LB_STATUS)
  | Adapter.TI => lb_performVendorSpecificInitialization_TI
  | Adapter.ST => lb_performVendorSpecificInitialization_ST

/-- The function `lb_initializeHCI` of `commands.c`; `version` is the content
of its local variable `version` before the version read. -/
def lb_initializeHCI (io : IoThread) (s : Host) (version : List Nat) :
    Option (Host × LB_STATUS) :=
  match lb_resetHCI io s with
  | none => none
  | some (s1, status1) =>
    let afterRead : Option Host :=
      if LB_STATUS.LB_OK = status1 then
        match lb_readLocalVersionInformation io s1 version with
        | none => none
        | some (s2, status2, version2) =>
          if LB_STATUS.LB_OK = status2 then
            some { s2 with
              manufacturerId := uint16Value (version2.getD 4 0) (version2.getD 5 0) }
          else
            some s2
      else
        some s1
    match afterRead with
    | none => none
    | some s3 =>
      let s4 : Host :=
        if s3.manufacturerId = 0x0D then { s3 with vendorFunctions := some Adapter.TI }
        else if s3.manufacturerId = 0x30 then { s3 with vendorFunctions := some Adapter.ST }
        else s3
      match s4.vendorFunctions with
      | some adapter => initializeHCI adapter io s4
      | none => some (s4, LB_STATUS.LB_UNKNOWN_VENDOR)

/-! ## GATT operations (`commands.c`, `ti_hci.c`, `st_aci.c`) -/

/-- The function `lb_startServiceDiscovery_TI` of `ti_hci.c`
(`GATT_DiscAllPrimaryServices = 0xFD90`). -/
def lb_startServiceDiscovery_TI (io : IoThread) (s : Host) (device : LB_Device) :
    Option (Host × LB_STATUS) :=
  (lb_executeCommand io s
    [HCI_PACKET_COMMAND, 0xFD90 &&& 0xFF, 0xFD90 >>> 8, 2,
     device.connectionHandle &&& 0xFF, (device.connectionHandle >>> 8) % 256]
    6 [] 0).map (fun r => (r.1, r.2.1))

/-- The function `lb_startServiceDiscovery_ST` of `st_aci.c`
(`ACI_GATT_DISC_ALL_PRIMARY_SERVICES = 0xFD12`). -/
def lb_startServiceDiscovery_ST (io : IoThread) (s : Host) (device : LB_Device) :
    Option (Host × LB_STATUS) :=
  (lb_executeCommand io s
    [HCI_PACKET_COMMAND, 0xFD12 &&& 0xFF, 0xFD12 >>> 8, 2,
     device.connectionHandle &&& 0xFF, (device.connectionHandle >>> 8) % 256]
    6 [] 0).map (fun r => (r.1, r.2.1))

/-- The function `lb_writeCharValue_TI` of `ti_hci.c` (`GATT_WriteCharValue =
0xFD92`).  `cmd` has 64 bytes in C and `attributeLength` is not checked: with
more than 56 bytes the `memcpy` writes past the array, which is the result
`none`. -/
def lb_writeCharValue_TI (io : IoThread) (s : Host) (device : LB_Device)
    (attributeHandle : Nat) (attributeValue : List Nat) (attributeLength : Nat) :
    Option (Host × LB_STATUS) :=
  if 8 + attributeLength ≤ 64 then
    (lb_executeCommand io s
      ([HCI_PACKET_COMMAND, 0xFD92 &&& 0xFF, 0xFD92 >>> 8, (4 + attributeLength) % 256,
        device.connectionHandle &&& 0xFF, (device.connectionHandle >>> 8) % 256,
        attributeHandle &&& 0xFF, (attributeHandle >>> 8) % 256]
        ++ attributeValue.take attributeLength)
      ((8 + attributeLength) % 256) [] 0).map (fun r => (r.1, r.2.1))
  else
    none

/-- The function `lb_writeCharValue_ST` of `st_aci.c` (`ACI_GATT_WRITE_CHAR_VALUE
= 0xFD1C`).  `cmd` has 64 bytes in C and `attributeLength` is not checked: with
more than 55 bytes the `memcpy` writes past the array, which is the result
`none`. -/
def lb_writeCharValue_ST (io : IoThread) (s : Host) (device : LB_Device)
    (attributeHandle : Nat) (attributeValue : List Nat) (attributeLength : Nat) :
    Option (Host × LB_STATUS) :=
  if 9 + attributeLength ≤ 64 then
    (lb_executeCommand io s
      ([HCI_PACKET_COMMAND, 0xFD1C &&& 0xFF, 0xFD1C >>> 8, (5 + attributeLength) % 256,
        device.connectionHandle &&& 0xFF, (device.connectionHandle >>> 8) % 256,
        attributeHandle &&& 0xFF, (attributeHandle >>> 8) % 256, attributeLength]
        ++ attributeValue.take attributeLength)
      ((9 + attributeLength) % 256) [] 0).map (fun r => (r.1, r.2.1))
  else
    none

/-- The function `lb_requestCharValue_TI` of `ti_hci.c` (`GATT_ReadCharValue =
0xFD8A`). -/
def lb_requestCharValue_TI (io : IoThread) (s : Host) (device : LB_Device)
    (attributeHandle : Nat) : Option (Host × LB_STATUS) :=
  (lb_executeCommand io s
    [HCI_PACKET_COMMAND, 0xFD8A &&& 0xFF, 0xFD8A >>> 8, 4,
     device.connectionHandle &&& 0xFF, (device.connectionHandle >>> 8) % 256,
     attributeHandle &&& 0xFF, (attributeHandle >>> 8) % 256]
    8 [] 0).map (fun r => (r.1, r.2.1))

/-- The function `lb_requestCharValue_ST` of `st_aci.c`
(`ACI_GATT_READ_CHAR_VALUE = 0xFD18`). -/
def lb_requestCharValue_ST (io : IoThread) (s : Host) (device : LB_Device)
    (attributeHandle : Nat) : Option (Host × LB_STATUS) :=
  (lb_executeCommand io s
    [HCI_PACKET_COMMAND, 0xFD18 &&& 0xFF, 0xFD18 >>> 8, 4,
     device.connectionHandle &&& 0xFF, (device.connectionHandle >>> 8) % 256,
     attributeHandle &&& 0xFF, (attributeHandle >>> 8) % 256]
    8 [] 0).map (fun r => (r.1, r.2.1))

/-- The member `startServiceDiscovery` of the adapter's table. -/
def startServiceDiscovery : Adapter → IoThread → Host → LB_Device → Option (Host × LB_STATUS)
  | Adapter.TI => lb_startServiceDiscovery_TI
  | Adapter.ST => lb_startServiceDiscovery_ST

/-- The member `writeCharValue` of the adapter's table. -/
def writeCharValue :
    Adapter → IoThread → Host → LB_Device → Nat → List Nat → Nat → Option (Host × LB_STATUS)
  | Adapter.TI => lb_writeCharValue_TI
  | Adapter.ST => lb_writeCharValue_ST

/-- The member `requestCharValue` of the adapter's table. -/
def requestCharValue : Adapter → IoThread → Host → LB_Device → Nat → Option (Host × LB_STATUS)
  | Adapter.TI => lb_requestCharValue_TI
  | Adapter.ST => lb_requestCharValue_ST

/-- The session with the entry `dev` of `controller->device` replaced. -/
def setDevice (s : Host) (dev : Nat) (device : LB_Device) : Host :=
  { s with shared := { s.shared with device := s.shared.device.set dev device } }

/-- The function `lb_startServiceDiscovery` of `commands.c`; `dev` is the index
of `device` in `controller->device`.  `none`: an invalid or null pointer is
read, an assertion fails, or a handler does not return. -/
def lb_startServiceDiscovery (io : IoThread) (s : Host) (dev : Nat) : Option (Host × LB_STATUS) :=
  match s.shared.device.get? dev with
  | none => none
  | some device =>
    if ! isDeviceConnected device then
      some (s, LB_STATUS.LB_DEVICE_NOT_CONNECTED)
    else if ! device.controller then
      none
    else
      match s.vendorFunctions with
      | none => some (s, LB_STATUS.LB_UNKNOWN_VENDOR)
      | some adapter =>
        if 0 = device.pendingOperation.attributeHandle ∧ PO_IDLE = device.pendingOperation.type then
          let device1 : LB_Device :=
            { device with
              pendingOperation := { device.pendingOperation with type := PO_DISCOVER },
              operationComplete := os_resetCondition device.operationComplete }
          match startServiceDiscovery adapter io (setDevice s dev device1) device1 with
          | none => none
          | some (s2, commandStatus) =>
            let waited : Option (Host × Nat) :=
              if LB_STATUS.LB_OK ≠ commandStatus then
                some (s2, HCI_HOST_TIMEOUT)
              else
                match io s2 with
                | none => none
                | some shared3 =>
                  match shared3.device.get? dev with
                  | none => none
                  | some d3 =>
                    match os_waitForCondition d3.operationComplete with
                    | none => some ({ s2 with shared := shared3 }, HCI_HOST_TIMEOUT)
                    | some operationStatus =>
                      some ({ s2 with shared := shared3 },
                            if operationStatus = CondStatus.value 0 then HCI_STATUS_SUCCESS
                            else HCI_HOST_TIMEOUT)
            match waited with
            | none => none
            | some (s3, status) =>
              match s3.shared.device.get? dev with
              | none => none
              | some d =>
                some (setDevice s3 dev
                        { d with pendingOperation := { type := PO_IDLE, attributeHandle := 0 } },
                      if HCI_STATUS_SUCCESS = status then LB_STATUS.LB_OK
                      else LB_STATUS.LB_FAILURE)
        else
          none

/-- The function `lb_writeCharValue` of `commands.c`. -/
def lb_writeCharValue (io : IoThread) (s : Host) (dev : Nat) (attributeHandle : Nat)
    (attributeValue : List Nat) (attributeLength : Nat) : Option (Host × LB_STATUS) :=
  match s.shared.device.get? dev with
  | none => none
  | some device =>
    if ! isDeviceConnected device then
      some (s, LB_STATUS.LB_DEVICE_NOT_CONNECTED)
    else if ! device.controller then
      none
    else
      match s.vendorFunctions with
      | none => some (s, LB_STATUS.LB_UNKNOWN_VENDOR)
      | some adapter =>
        if 0 = device.pendingOperation.attributeHandle ∧ PO_IDLE = device.pendingOperation.type then
          let device1 : LB_Device :=
            { device with
              pendingOperation := { type := PO_WRITE, attributeHandle := attributeHandle },
              operationComplete := os_resetCondition device.operationComplete }
          match writeCharValue adapter io (setDevice s dev device1) device1 attributeHandle
              attributeValue attributeLength with
          | none => none
          | some (s2, commandStatus) =>
            let waited : Option (Host × Nat) :=
              if LB_STATUS.LB_OK ≠ commandStatus then
                some (s2, HCI_HOST_TIMEOUT)
              else
                match io s2 with
                | none => none
                | some shared3 =>
                  match shared3.device.get? dev with
                  | none => none
                  | some d3 =>
                    match os_waitForCondition d3.operationComplete with
                    | none => some ({ s2 with shared := shared3 }, HCI_HOST_TIMEOUT)
                    | some operationStatus =>
                      some ({ s2 with shared := shared3 },
                            if operationStatus = CondStatus.value 0 then HCI_STATUS_SUCCESS
                            else HCI_HOST_TIMEOUT)
            match waited with
            | none => none
            | some (s3, status) =>
              match s3.shared.device.get? dev with
              | none => none
              | some d =>
                some (setDevice s3 dev
                        { d with pendingOperation := { type := PO_IDLE, attributeHandle := 0 } },
                      if HCI_STATUS_SUCCESS = status then LB_STATUS.LB_OK
                      else LB_STATUS.LB_FAILURE)
        else
          none

/-- The function `lb_readCharValue` of `commands.c`.  `attributeValue` is the
caller's buffer before the call and `attributeLength` the value behind the
out-pointer before the call; the result holds the session, the status, the
caller's buffer and the value behind the out-pointer afterwards. -/
def lb_readCharValue (io : IoThread) (s : Host) (dev : Nat) (attributeHandle : Nat)
    (attributeValue : List Nat) (attributeCapacity : Nat) (attributeLength : Nat) :
    Option (Host × LB_STATUS × List Nat × Nat) :=
  match s.shared.device.get? dev with
  | none => none
  | some device =>
    if ! isDeviceConnected device then
      some (s, LB_STATUS.LB_DEVICE_NOT_CONNECTED, attributeValue, attributeLength)
    else if ! device.controller then
      none
    else
      match s.vendorFunctions with
      | none => some (s, LB_STATUS.LB_UNKNOWN_VENDOR, attributeValue, attributeLength)
      | some adapter =>
        if 0 = device.pendingOperation.attributeHandle ∧ PO_IDLE = device.pendingOperation.type then
          let device1 : LB_Device :=
            { device with
              pendingOperation := { type := PO_READ, attributeHandle := attributeHandle },
              pendingRead := { attributeValue := attributeValue, attributeLength := 0,
                               attributeCapacity := attributeCapacity },
              operationComplete := os_resetCondition device.operationComplete }
          match requestCharValue adapter io (setDevice s dev device1) device1 attributeHandle with
          | none => none
          | some (s2, commandStatus) =>
            let waited : Option (Host × Nat × Nat) :=
              if LB_STATUS.LB_OK ≠ commandStatus then
                some (s2, HCI_HOST_TIMEOUT, attributeLength)
              else
                match io s2 with
                | none => none
                | some shared3 =>
                  match shared3.device.get? dev with
                  | none => none
                  | some d3 =>
                    match os_waitForCondition d3.operationComplete with
                    | none => some ({ s2 with shared := shared3 }, HCI_HOST_TIMEOUT, attributeLength)
                    | some operationStatus =>
                      some ({ s2 with shared := shared3 },
                            if operationStatus = CondStatus.value 0 then HCI_STATUS_SUCCESS
                            else HCI_HOST_TIMEOUT,
                            d3.pendingRead.attributeLength)
            match waited with
            | none => none
            | some (s3, status, attributeLength1) =>
              match s3.shared.device.get? dev with
              | none => none
              | some d =>
                some (setDevice s3 dev
                        { d with pendingOperation := { type := PO_IDLE, attributeHandle := 0 } },
                      if HCI_STATUS_SUCCESS = status then LB_STATUS.LB_OK
                      else LB_STATUS.LB_FAILURE,
                      d.pendingRead.attributeValue, attributeLength1)
        else
          none

/-- The I/O thread when no event arrives during a wait. -/
def ioSilent : IoThread :=
  fun h => some h.shared

/-- The I/O thread when, during a wait, exactly one Command Complete event with
the parameter bytes `params` arrives (case `HCI_EVENTID_Command_Complete` of
the dispatcher). -/
def ioCommandComplete (params : List Nat) : IoThread :=
  fun h =>
    (hci_on_eventCommandComplete h.shared.pendingCommands params params.length).map
      (fun table => { h.shared with pendingCommands := table })

/-- The I/O thread when the controller answers the command sent last with a
Command Complete event of status 0 and the return bytes `payload`. -/
def ioAcknowledge (payload : List Nat) : IoThread :=
  fun h =>
    match h.wire.getLast? with
    | none => some h.shared
    | some command =>
      ioCommandComplete ([1, command.getD 1 0, command.getD 2 0, 0] ++ payload) h

/-! ## Vendor events (`commands.c`, `hci.c`, `ti_hci.c`, `st_aci.c`) -/

/-- The call `os_signalCondition(device->operationComplete, status)` on the
entry `ii` of `controller->device`.  The pointer `operationComplete` is null
after `lb_connect` and dangling after `lb_closeDeviceConnection`: it refers to a
condition exactly while `controller` is set (`on_connectedToDevice` sets both,
`lb_closeDeviceConnection` clears both), and `os_signalCondition` asserts it. -/
def signalDevice (s : Shared) (ii : Nat) (status : CondStatus) : Option Shared :=
  match s.device.get? ii with
  | none => none
  | some d =>
    if d.controller then
      some { s with
        device := s.device.set ii
          { d with operationComplete := os_signalCondition d.operationComplete status } }
    else
      none

/-- The function `on_serviceDiscoveryComplete` of `commands.c`. -/
def on_serviceDiscoveryComplete (s : Shared) (connectionHandle : Nat) : Option Shared :=
  match getDevice s.device connectionHandle with
  | none => none
  | some ii => signalDevice s ii (CondStatus.value 0)

/-- The `while (attributeValueEnd > attributeValue)` loop of
`hci_on_ATT_READ_BY_GROUP_TYPE_RESP_EVENT` (`hci.c`); `pos` is the distance of
`attributeValue` from `buffer`.  The last argument of the call of
`lb_on_discoveredPrimaryService` is `attributeDataLength - 4` as a `uint8_t`. -/
def primaryServiceLoop (connectionHandle attributeDataLength : Nat) (buffer : List Nat)
    (length : Nat) : Nat → Nat → Shared → Option Shared
  | 0, _, _ => none
  | fuel + 1, pos, s =>
    if length > pos then
      let attributeHandle := (buffer.getD pos 0 ||| ((buffer.getD (pos + 1) 0) <<< 8)) % 65536
      let endGroupHandle :=
        (buffer.getD (pos + 2) 0 ||| ((buffer.getD (pos + 3) 0) <<< 8)) % 65536
      match getDevice s.device connectionHandle with
      | none => none
      | some ii =>
        primaryServiceLoop connectionHandle attributeDataLength buffer length fuel
          (pos + attributeDataLength)
          { s with
            callbacks := s.callbacks ++
              [AppCallback.discoveredPrimaryService ii attributeHandle endGroupHandle
                ((buffer.drop (pos + 4)).take ((attributeDataLength + 252) % 256))] }
    else
      some s

/-- The function `hci_on_ATT_READ_BY_GROUP_TYPE_RESP_EVENT` of `hci.c`.
`buffer` holds a `struct Event_ATT_READ_BY_GROUP_TYPE_RESP` (4 bytes:
`connectionHandle`, `eventDataLength`, `attributeDataLength`).  The assertions
are evaluated in `int`: for `eventDataLength = 0` the value of
`(eventDataLength - 1) % attributeDataLength` is -1. -/
def hci_on_ATT_READ_BY_GROUP_TYPE_RESP_EVENT (s : Shared) (buffer : List Nat) (length : Nat) :
    Option Shared :=
  if 4 ≤ length then
    let connectionHandle := uint16Value (buffer.getD 0 0) (buffer.getD 1 0)
    let eventDataLength := buffer.getD 2 0
    let attributeDataLength := buffer.getD 3 0
    if 0x06 = attributeDataLength ∨ 0x14 = attributeDataLength then
      if 0 < eventDataLength ∧ 0 = (eventDataLength - 1) % attributeDataLength then
        if 4 + eventDataLength - 1 = length then
          primaryServiceLoop connectionHandle attributeDataLength buffer length (length + 1) 4 s
        else
          none
      else
        none
    else
      none
  else
    none

/-- The body shared by the cases `ATT_ReadRsp` of `lb_on_vendorSpecificEvent_TI`
and `EVT_BLUE_ATT_READ_RESP` of `lb_on_vendorSpecificEvent_ST` after the device
lookup: the two assertions on the pending operation, the assertion
`(attributeLength + header) == length`, the clamp, the `memcpy` into the
caller's buffer and the store of the length.  `value` is the memory from the
first value byte on. -/
def storeReadResponse (s : Shared) (ii : Nat) (attributeLength header length : Nat)
    (value : List Nat) : Option Shared :=
  match s.device.get? ii with
  | none => none
  | some d =>
    if d.pendingOperation.attributeHandle ≠ 0 ∧ PO_READ = d.pendingOperation.type then
      if attributeLength + header = length then
        let attributeLength1 :=
          if attributeLength < d.pendingRead.attributeCapacity then
            d.pendingRead.attributeCapacity
          else
            attributeLength
        some { s with
          device := s.device.set ii
            { d with
              pendingRead :=
                { d.pendingRead with
                  attributeValue :=
                    memcpyAt d.pendingRead.attributeValue 0 (value.take attributeLength1),
                  attributeLength := attributeLength1 } } }
      else
        none
    else
      none

/-- The function `lb_on_vendorSpecificEvent_TI` of `ti_hci.c`, with
`lbDebugLevel` at its initial value 0 (no printing branch is taken).  `event`
is the memory from the event parameters on, `length` the parameter length. -/
def lb_on_vendorSpecificEvent_TI (s : Shared) (event : List Nat) (length : Nat) :
    Option Shared :=
  let eventCode := (event.getD 0 0 ||| ((event.getD 1 0) <<< 8)) % 65536
  let connectionHandle := (event.getD 3 0 ||| ((event.getD 4 0) <<< 8)) % 65536
  if eventCode = 0x0600 then
    if 42 + 2 = length then some s else none
  else if eventCode = 0x0605 then
    if 18 + 2 = length then
      on_connectedToDevice s ((event.drop 4).take 6)
        (uint16Value (event.getD 10 0) (event.getD 11 0))
    else
      none
  else if eventCode = 0x0606 then
    if 4 + 2 = length then
      on_disconnectedFromDevice s (uint16Value (event.getD 3 0) (event.getD 4 0))
        (event.getD 5 0)
    else
      none
  else if eventCode = 0x060D then
    if 11 + 2 ≤ length then
      if 4 ≥ event.getD 3 0 then
        some { s with
          callbacks := s.callbacks ++
            [AppCallback.observedDeviceAdvertisment ((event.drop 5).take 6) (event.getD 11 0)
              ((event.drop 13).take (event.getD 12 0))] }
      else
        none
    else
      none
  else if eventCode = 0x0601 then
    if 2 + 2 ≤ length then
      some { s with callbacks := s.callbacks ++ [AppCallback.deviceDiscoveryComplete] }
    else
      none
  else if eventCode = 0x067F then
    if 4 + 2 ≤ length then
      (signalCondition s.pendingCommands (uint16Value (event.getD 3 0) (event.getD 4 0))
        (event.getD 2 0) (if 0 = event.getD 5 0 then [] else event.drop 6)
        (event.getD 5 0)).map (fun table => { s with pendingCommands := table })
    else
      none
  else if eventCode = 0x0511 then
    if 0x00 = event.getD 2 0 then
      hci_on_ATT_READ_BY_GROUP_TYPE_RESP_EVENT s (event.drop 3) ((length + 253) % 256)
    else if 0x1A = event.getD 2 0 then
      on_serviceDiscoveryComplete s connectionHandle
    else
      none
  else if eventCode = 0x0501 then
    match getDevice s.device connectionHandle with
    | none => none
    | some ii =>
      match s.device.get? ii with
      | none => none
      | some d =>
        if PO_READ = d.pendingOperation.type ∨ PO_WRITE = d.pendingOperation.type then
          if (event.getD 7 0 ||| ((event.getD 8 0) <<< 8)) % 65536
              = d.pendingOperation.attributeHandle then
            signalDevice s ii (CondStatus.value (event.getD 9 0))
          else
            none
        else
          some s
  else if eventCode = 0x0513 then
    match getDevice s.device connectionHandle with
    | none => none
    | some ii =>
      match s.device.get? ii with
      | none => none
      | some d =>
        if d.pendingOperation.attributeHandle ≠ 0 ∧ PO_WRITE = d.pendingOperation.type then
          signalDevice s ii (CondStatus.value (event.getD 2 0))
        else
          none
  else if eventCode = 0x050B then
    match getDevice s.device connectionHandle with
    | none => none
    | some ii =>
      match storeReadResponse s ii (event.getD 5 0) 6 length (event.drop 6) with
      | none => none
      | some s1 => signalDevice s1 ii (CondStatus.value (event.getD 2 0))
  else if eventCode = 0x051B then
    match getDevice s.device connectionHandle with
    | none => none
    | some ii =>
      some { s with
        callbacks := s.callbacks ++
          [AppCallback.receivedNotification ii
            ((event.getD 6 0 ||| ((event.getD 7 0) <<< 8)) % 65536) (event.getD 2 0)
            ((event.drop 8).take (event.getD 5 0))] }
  else
    some s

/-- The function `lb_on_vendorSpecificEvent_ST` of `st_aci.c`, with
`lbDebugLevel` at its initial value 0.  `event` is the memory from the event
parameters on, `length` the parameter length. -/
def lb_on_vendorSpecificEvent_ST (s : Shared) (event : List Nat) (length : Nat) :
    Option Shared :=
  let eventCode := (event.getD 0 0 ||| ((event.getD 1 0) <<< 8)) % 65536
  let connectionHandle := (event.getD 2 0 ||| ((event.getD 3 0) <<< 8)) % 65536
  if eventCode = 0x0001 then
    some s
  else if eventCode = 0x0406 then
    if 4 ≥ event.getD 2 0 then
      some { s with
        callbacks := s.callbacks ++
          [AppCallback.observedDeviceAdvertisment ((event.drop 4).take 6)
            (event.getD (11 + event.getD 10 0) 0) ((event.drop 11).take (event.getD 10 0))] }
    else
      none
  else if eventCode = 0x0407 then
    if event.getD 2 0 = 0x02 then
      some { s with callbacks := s.callbacks ++ [AppCallback.deviceDiscoveryComplete] }
    else
      some s
  else if eventCode = 0x0C0A then
    hci_on_ATT_READ_BY_GROUP_TYPE_RESP_EVENT s (event.drop 2) ((length + 254) % 256)
  else if eventCode = 0x0C0F then
    match getDevice s.device connectionHandle with
    | none => none
    | some ii =>
      some { s with
        callbacks := s.callbacks ++
          [AppCallback.receivedNotification ii
            ((event.getD 5 0 ||| ((event.getD 6 0) <<< 8)) % 65536) 0
            ((event.drop 7).take (event.getD 4 0))] }
  else if eventCode = 0x0C10 then
    match getDevice s.device connectionHandle with
    | none => none
    | some ii =>
      match s.device.get? ii with
      | none => none
      | some d =>
        if PO_DISCOVER = d.pendingOperation.type then
          on_serviceDiscoveryComplete s connectionHandle
        else if (PO_READ = d.pendingOperation.type ∨ PO_WRITE = d.pendingOperation.type)
            ∧ d.pendingOperation.attributeHandle ≠ 0 then
          signalDevice s ii (CondStatus.value (event.getD 5 0))
        else
          none
  else if eventCode = 0x0C07 then
    match getDevice s.device connectionHandle with
    | none => none
    | some ii => storeReadResponse s ii (event.getD 4 0) 5 length (event.drop 5)
  else if eventCode = 0x0C11 then
    some s
  else
    some s

/-- The member `on_vendorSpecificEvent` of the adapter's table. -/
def on_vendorSpecificEvent : Adapter → Shared → List Nat → Nat → Option Shared
  | Adapter.TI => lb_on_vendorSpecificEvent_TI
  | Adapter.ST => lb_on_vendorSpecificEvent_ST

/-- The `switch (header->opcode)` of `processBuffer` with the two adapters'
tables as they are defined in `ti_hci.c` and `st_aci.c`. -/
def processEvent (vendorFunctions : Option Adapter) (s : Shared) (opcode : Nat)
    (ptr : List Nat) (len : Nat) : Option Shared :=
  dispatchEvent on_vendorSpecificEvent vendorFunctions s opcode ptr len

/-! ## Connections (`commands.c`, `ti_hci.c`, `st_aci.c`) -/

/-- The constant `TI_GAP_Device_Init` of `ti_hci.c` (42 bytes). -/
def TI_GAP_Device_Init : List Nat :=
  [HCI_PACKET_COMMAND, 0xFE00 &&& 0xFF, 0xFE00 >>> 8, 0x26, 0x08, 0x05]
    ++ List.replicate 16 0 ++ List.replicate 16 0 ++ [0x01, 0x00, 0x00, 0x00]

/-- The constant `TI_START_DISCOVERY_CMD` of `ti_hci.c`. -/
def TI_START_DISCOVERY_CMD : List Nat :=
  [HCI_PACKET_COMMAND, 0xFE04 &&& 0xFF, 0xFE04 >>> 8, 3, 0x03, 1, 0]

/-- The constant `TI_STOP_DISCOVERY_CMD` of `ti_hci.c`. -/
def TI_STOP_DISCOVERY_CMD : List Nat :=
  [HCI_PACKET_COMMAND, 0xFE05 &&& 0xFF, 0xFE05 >>> 8, 0]

/-- The constant `TI_OPEN_CONNECTION_CMD` of `ti_hci.c` (7 bytes). -/
def TI_OPEN_CONNECTION_CMD : List Nat :=
  [HCI_PACKET_COMMAND, 0xFE09 &&& 0xFF, 0xFE09 >>> 8, 9, 0, 0, 0]

/-- The constant `ACI_SET_ROLE_CENTRAL` of `st_aci.c`. -/
def ACI_SET_ROLE_CENTRAL : List Nat :=
  [HCI_PACKET_COMMAND, 0xFC8A &&& 0xFF, 0xFC8A >>> 8, 1, 0x03]

/-- The constant `ACI_START_DISCOVERY` of `st_aci.c`
(`DEFAULT_SCAN_INTERVAL = DEFAULT_SCAN_WINDOW = 2000`). -/
def ACI_START_DISCOVERY : List Nat :=
  [HCI_PACKET_COMMAND, 0xFC97 &&& 0xFF, 0xFC97 >>> 8, 6,
   2000 &&& 0xFF, 2000 >>> 8, 2000 &&& 0xFF, 2000 >>> 8, 0x01, 0x01]

/-- The constant `ACI_STOP_DISCOVERY` of `st_aci.c`. -/
def ACI_STOP_DISCOVERY : List Nat :=
  [HCI_PACKET_COMMAND, 0xFC9D &&& 0xFF, 0xFC9D >>> 8, 1, 0x02]

/-- The constant `ACI_OPEN_CONNECTION_CMD` of `st_aci.c` (28 bytes). -/
def ACI_OPEN_CONNECTION_CMD : List Nat :=
  [HCI_PACKET_COMMAND, 0xFC9C &&& 0xFF, 0xFC9C >>> 8, 0x18,
   0xD0, 0x07, 0xD0, 0x07, 0x00, 0x00, 0x00, 0x00, 0x00, 0x00, 0x00, 0x00,
   0x14, 0x00, 0x28, 0x00, 0x00, 0x00, 0x64, 0x00, 0x02, 0x00, 0x02, 0x00]

/-- The constant `ACI_TERMINATE_CONNECTION_CMD` of `st_aci.c`
(`HCI_ERROR_CODE_REMOTE_USER_TERM_CONN = 0x13`). -/
def ACI_TERMINATE_CONNECTION_CMD : List Nat :=
  [HCI_PACKET_COMMAND, 0xFC93 &&& 0xFF, 0xFC93 >>> 8, 3, 0, 0, 0x13]

/-- The function `lb_configureAsCentral_TI` of `ti_hci.c`. -/
def lb_configureAsCentral_TI (io : IoThread) (s : Host) : Option (Host × LB_STATUS) :=
  (lb_executeCommand io s TI_GAP_Device_Init 42 [] 0).map (fun r => (r.1, r.2.1))

/-- The function `lb_startDeviceDiscovery_TI` of `ti_hci.c`. -/
def lb_startDeviceDiscovery_TI (io : IoThread) (s : Host) : Option (Host × LB_STATUS) :=
  (lb_executeCommand io s TI_START_DISCOVERY_CMD 7 [] 0).map (fun r => (r.1, r.2.1))

/-- The function `lb_stopDeviceDiscovery_TI` of `ti_hci.c`. -/
def lb_stopDeviceDiscovery_TI (io : IoThread) (s : Host) : Option (Host × LB_STATUS) :=
  (lb_executeCommand io s TI_STOP_DISCOVERY_CMD 4 [] 0).map (fun r => (r.1, r.2.1))

/-- The function `lb_openDeviceConnection_TI` of `ti_hci.c`.  `cmd` is the
content of the local array `cmd` (13 bytes) before the two `memcpy`, `address`
the memory behind the pointer `address`. -/
def lb_openDeviceConnection_TI (io : IoThread) (s : Host) (address cmd : List Nat) :
    Option (Host × LB_STATUS) :=
  (lb_executeCommand io s
    (memcpyAt (memcpyAt cmd 0 TI_OPEN_CONNECTION_CMD) 7 (address.take 6))
    (7 + 6) [] 0).map (fun r => (r.1, r.2.1))

/-- The function `lb_closeDeviceConnection_TI` of `ti_hci.c`
(`GAP_TerminateLinkReq = 0xFE0A`). -/
def lb_closeDeviceConnection_TI (io : IoThread) (s : Host) (device : LB_Device) :
    Option (Host × LB_STATUS) :=
  (lb_executeCommand io s
    [HCI_PACKET_COMMAND, 0xFE0A &&& 0xFF, 0xFE0A >>> 8, 3,
     device.connectionHandle &&& 0xFF, (device.connectionHandle >>> 8) % 256, 0x13]
    7 [] 0).map (fun r => (r.1, r.2.1))

/-- The function `lb_configureAsCentral_ST` of `st_aci.c`. -/
def lb_configureAsCentral_ST (io : IoThread) (s : Host) : Option (Host × LB_STATUS) :=
  (lb_executeCommand io s ACI_SET_ROLE_CENTRAL 5 [] 0).map (fun r => (r.1, r.2.1))

/-- The function `lb_startDeviceDiscovery_ST` of `st_aci.c`. -/
def lb_startDeviceDiscovery_ST (io : IoThread) (s : Host) : Option (Host × LB_STATUS) :=
  (lb_executeCommand io s ACI_START_DISCOVERY 10 [] 0).map (fun r => (r.1, r.2.1))

/-- The function `lb_stopDeviceDiscovery_ST` of `st_aci.c`. -/
def lb_stopDeviceDiscovery_ST (io : IoThread) (s : Host) : Option (Host × LB_STATUS) :=
  (lb_executeCommand io s ACI_STOP_DISCOVERY 5 [] 0).map (fun r => (r.1, r.2.1))

/-- The function `lb_openDeviceConnection_ST` of `st_aci.c`.  `cmd` is the
content of the local array `cmd`, declared with
`sizeof(ACI_OPEN_CONNECTION_CMD) + 6 = 34` bytes, before the two `memcpy`; the
second `memcpy` writes the address at offset 9, and `sizeof(cmd)` is the
length handed to `lb_executeCommand`. -/
def lb_openDeviceConnection_ST (io : IoThread) (s : Host) (address cmd : List Nat) :
    Option (Host × LB_STATUS) :=
  (lb_executeCommand io s
    (memcpyAt (memcpyAt cmd 0 ACI_OPEN_CONNECTION_CMD) 9 (address.take 6))
    (28 + 6) [] 0).map (fun r => (r.1, r.2.1))

/-- The function `lb_closeDeviceConnection_ST` of `st_aci.c`. -/
def lb_closeDeviceConnection_ST (io : IoThread) (s : Host) (device : LB_Device) :
    Option (Host × LB_STATUS) :=
  (lb_executeCommand io s
    (((ACI_TERMINATE_CONNECTION_CMD.set 4 (device.connectionHandle &&& 0xFF)).set 5
      ((device.connectionHandle >>> 8) % 256)))
    7 [] 0).map (fun r => (r.1, r.2.1))

/-- The member `configureAsCentral` of the adapter's table. -/
def configureAsCentral : Adapter → IoThread → Host → Option (Host × LB_STATUS)
  | Adapter.TI => lb_configureAsCentral_TI
  | Adapter.ST => lb_configureAsCentral_ST

/-- The member `startDeviceDiscovery` of the adapter's table. -/
def startDeviceDiscovery : Adapter → IoThread → Host → Option (Host × LB_STATUS)
  | Adapter.TI => lb_startDeviceDiscovery_TI
  | Adapter.ST => lb_startDeviceDiscovery_ST

/-- The member `stopDeviceDiscovery` of the adapter's table. -/
def stopDeviceDiscovery : Adapter → IoThread → Host → Option (Host × LB_STATUS)
  | Adapter.TI => lb_stopDeviceDiscovery_TI
  | Adapter.ST => lb_stopDeviceDiscovery_ST

/-- The member `openDeviceConnection` of the adapter's table. -/
def openDeviceConnection :
    Adapter → IoThread → Host → List Nat → List Nat → Option (Host × LB_STATUS)
  | Adapter.TI => lb_openDeviceConnection_TI
  | Adapter.ST => lb_openDeviceConnection_ST

/-- The member `closeDeviceConnection` of the adapter's table. -/
def closeDeviceConnection : Adapter → IoThread → Host → LB_Device → Option (Host × LB_STATUS)
  | Adapter.TI => lb_closeDeviceConnection_TI
  | Adapter.ST => lb_closeDeviceConnection_ST

/-- The function `lb_configureAsCentral` of `commands.c`. -/
def lb_configureAsCentral (io : IoThread) (s : Host) : Option (Host × LB_STATUS) :=
  match s.vendorFunctions with
  | some adapter => configureAsCentral adapter io s
  | none => some (s, LB_STATUS.LB_UNKNOWN_VENDOR)

/-- The function `lb_startDeviceDiscovery` of `commands.c`. -/
def lb_startDeviceDiscovery (io : IoThread) (s : Host) : Option (Host × LB_STATUS) :=
  match s.vendorFunctions with
  | some adapter => startDeviceDiscovery adapter io s
  | none => some (s, LB_STATUS.LB_UNKNOWN_VENDOR)

/-- The function `lb_stopDeviceDiscovery` of `commands.c`. -/
def lb_stopDeviceDiscovery (io : IoThread) (s : Host) : Option (Host × LB_STATUS) :=
  match s.vendorFunctions with
  | some adapter => stopDeviceDiscovery adapter io s
  | none => some (s, LB_STATUS.LB_UNKNOWN_VENDOR)

/-- The session with `os_resetCondition(controller->operationComplete)` done. -/
def resetSession (s : Host) : Host :=
  { s with
    shared := { s.shared with operationComplete := os_resetCondition s.shared.operationComplete } }

/-- The function `lb_openDeviceConnection` of `commands.c`.  `cmd` is the
content of the adapter's local array before it is written.  The third component
of the result is the pointer stored in `*device` (`CondStatus.value 0` is
`NULL`, `CondStatus.device ii` the address of `controller->device[ii]`); the
status the adapter returns is overwritten on both paths. -/
def lb_openDeviceConnection (io : IoThread) (s : Host) (address cmd : List Nat) :
    Option (Host × LB_STATUS × CondStatus) :=
  let s0 := resetSession s
  let commanded : Option Host :=
    match s0.vendorFunctions with
    | some adapter => (openDeviceConnection adapter io s0 address cmd).map (fun r => r.1)
    | none => some s0
  match commanded with
  | none => none
  | some s1 =>
    match io s1 with
    | none => none
    | some shared2 =>
      match os_waitForCondition shared2.operationComplete with
      | none =>
        some ({ s1 with shared := shared2 }, LB_STATUS.LB_OPERATION_TIMEOUT, CondStatus.value 0)
      | some arg => some ({ s1 with shared := shared2 }, LB_STATUS.LB_OK, arg)

/-- The function `lb_closeDeviceConnection` of `commands.c`; `dev` is the index
of `device` in `controller->device`.  `none`: the pointer is not a device
(`assert(device)`), `device->controller` is null where it is dereferenced, or a
handler does not return.  The destroyed condition stays in the entry as the
dangling pointer it is in C. -/
def lb_closeDeviceConnection (io : IoThread) (s : Host) (dev : Nat) :
    Option (Host × LB_STATUS) :=
  match s.shared.device.get? dev with
  | none => none
  | some device =>
    if ! device.controller then
      none
    else
      let s0 := resetSession s
      let commanded : Option Host :=
        match s0.vendorFunctions with
        | some adapter => (closeDeviceConnection adapter io s0 device).map (fun r => r.1)
        | none => some s0
      match commanded with
      | none => none
      | some s1 =>
        match io s1 with
        | none => none
        | some shared2 =>
          match shared2.device.get? dev with
          | none => none
          | some d =>
            some (setDevice { s1 with shared := shared2 } dev
                    { d with controller := false,
                             connectionHandle := INVALID_CONNECTION_HANDLE },
                  match os_waitForCondition shared2.operationComplete with
                  | none => LB_STATUS.LB_OPERATION_TIMEOUT
                  | some _ => LB_STATUS.LB_OK)

/-! ## Address text (`utils.c`) -/

/-- One pass through the `switch ((bufferLen + 1) % 3)` of `utl_parseAddress`
for the character `byte` at `bufferLen`: the new `inputIsValid`, `nibble` and
`address`.  `nibble` is a `uint8_t`. -/
def parseAddressStep (byte bufferLen nibble : Nat) (address : List Nat) :
    Bool × Nat × List Nat :=
  if (bufferLen + 1) % 3 = 0 then
    if 58 ≠ byte then (false, nibble, address) else (true, nibble, address)
  else if (bufferLen + 1) % 3 = 1 then
    if 48 ≤ byte ∧ byte ≤ 57 then (true, ((byte - 48) <<< 4) % 256, address)
    else if 97 ≤ byte ∧ byte ≤ 102 then (true, ((byte - 97 + 10) <<< 4) % 256, address)
    else if 65 ≤ byte ∧ byte ≤ 70 then (true, ((byte - 65 + 10) <<< 4) % 256, address)
    else (false, nibble, address)
  else
    if 48 ≤ byte ∧ byte ≤ 57 then
      (true, 0, address.set (5 - bufferLen / 3) ((nibble ||| (byte - 48)) % 256))
    else if 97 ≤ byte ∧ byte ≤ 102 then
      (true, 0, address.set (5 - bufferLen / 3) ((nibble ||| (byte - 97 + 10)) % 256))
    else if 65 ≤ byte ∧ byte ≤ 70 then
      (true, 0, address.set (5 - bufferLen / 3) ((nibble ||| (byte - 65 + 10)) % 256))
    else (false, nibble, address)

/-- The `while (inputIsValid && (bufferLen < 18))` loop of `utl_parseAddress`
entered with `inputIsValid` true; the result is `inputIsValid`, `bufferLen` and
`address` when the loop is left.  `buffer` is the memory behind the pointer:
the characters of the string, then its terminating 0. -/
def parseAddressLoop (buffer : List Nat) : Nat → Nat → Nat → List Nat →
    Option (Bool × Nat × List Nat)
  | 0, _, _, _ => none
  | fuel + 1, bufferLen, nibble, address =>
    if bufferLen < 18 then
      if 0 = buffer.getD bufferLen 0 then
        some (true, bufferLen, address)
      else
        match parseAddressStep (buffer.getD bufferLen 0) bufferLen nibble address with
        | (false, _, address1) => some (false, bufferLen + 1, address1)
        | (true, nibble1, address1) =>
          parseAddressLoop buffer fuel (bufferLen + 1) nibble1 address1
    else
      some (true, bufferLen, address)

/-- The function `utl_parseAddress` of `utils.c`: the returned `bool` and the 6
bytes behind `address` at the return.  `text` is the characters of the
0-terminated string `buffer` points to. -/
def utl_parseAddress (text : List Nat) : Option (Bool × List Nat) :=
  match parseAddressLoop (text ++ [0]) 19 0 0 (List.replicate 6 0) with
  | none => none
  | some (inputIsValid, bufferLen, address) =>
    if ! inputIsValid then some (false, address)
    else if 17 ≠ bufferLen then some (false, address)
    else some (true, address)

/-- The character `printf` writes for the hexadecimal digit `n` under `%x`:
`0`-`9`, then `a`-`f`. -/
def hexChar (n : Nat) : Nat :=
  if n < 10 then 48 + n else 87 + n

/-- The characters `printf("%02x", v)` writes for a `uint8_t` `v`. -/
def printHex02 (v : Nat) : List Nat :=
  [hexChar (v / 16), hexChar (v % 16)]

/-- The `for (ii = 0; ii < 6; ii ++)` loop of `utl_printAddress` from `ii` on,
with `n` iterations left: the characters written. -/
def printAddressLoop (buffer : List Nat) : Nat → Nat → List Nat
  | 0, _ => []
  | n + 1, ii =>
    (if ii ≠ 0 then [58] else []) ++ printHex02 (buffer.getD (5 - ii) 0)
      ++ printAddressLoop buffer n (ii + 1)

/-- The function `utl_printAddress` of `utils.c`: the characters it writes to
`stdout`. -/
def utl_printAddress (buffer : List Nat) : List Nat :=
  printAddressLoop buffer 6 0

/-! ## Sessions and controllers used in the examples -/

/-- An event as the framer hands it to the dispatcher: the opcode, the memory
from the parameters on (it may go on past the event, as the accumulator does)
and the parameter length. -/
abbrev Event := Nat × List Nat × Nat

/-- Hands the events, oldest first, to the `switch` of `processBuffer`. -/
def deliverEvents (vendorFunctions : Option Adapter) : Shared → List Event → Option Shared
  | s, [] => some s
  | s, (opcode, ptr, len) :: rest =>
    match processEvent vendorFunctions s opcode ptr len with
    | none => none
    | some s1 => deliverEvents vendorFunctions s1 rest

/-- Whether a command is waiting for its acknowledgement: an entry of
`pendingCommands` is allocated and not signalled. -/
def commandPending (h : Host) : Bool :=
  h.shared.pendingCommands.any (fun c => c.opcode != 0 && ! c.handle)

/-- The I/O thread of a controller that sends the events `ack` while a command
waits for its acknowledgement and the events `completion` during any other
wait. -/
def ioController (ack completion : List Event) : IoThread :=
  fun h => deliverEvents h.vendorFunctions h.shared (if commandPending h then ack else completion)

/-- The entry of `controller->device` as `lb_writeCharValue` leaves it before
it calls the adapter: the write recorded, the condition reset. -/
def writeRecorded (device : LB_Device) (attributeHandle : Nat) : LB_Device :=
  { device with
    pendingOperation := { type := PO_WRITE, attributeHandle := attributeHandle },
    operationComplete := os_resetCondition device.operationComplete }

/-- The entry of `controller->device` as `lb_readCharValue` leaves it before it
calls the adapter: the read and the caller's buffer recorded, the condition
reset. -/
def readRecorded (device : LB_Device) (attributeHandle : Nat) (attributeValue : List Nat)
    (attributeCapacity : Nat) : LB_Device :=
  { device with
    pendingOperation := { type := PO_READ, attributeHandle := attributeHandle },
    pendingRead := { attributeValue := attributeValue, attributeLength := 0,
                     attributeCapacity := attributeCapacity },
    operationComplete := os_resetCondition device.operationComplete }

/-- The entry of `controller->device` as `lb_startServiceDiscovery` leaves it
before it calls the adapter: the discovery recorded, the condition reset. -/
def discoveryRecorded (device : LB_Device) : LB_Device :=
  { device with
    pendingOperation := { device.pendingOperation with type := PO_DISCOVER },
    operationComplete := os_resetCondition device.operationComplete }

/-- Only entry 0 of `controller->device` can bear a connection: every later
entry has the handle `INVALID_CONNECTION_HANDLE`.  The table `lb_connect`
leaves has this form, and `on_connectedToDevice`, the only function that
stores another handle, finds its entry with a loop that never leaves entry 0. -/
def laterSlotsFree (device : List LB_Device) : Prop :=
  ∀ d ∈ device.drop 1, d.connectionHandle = INVALID_CONNECTION_HANDLE

instance (device : List LB_Device) : Decidable (laterSlotsFree device) := by
  unfold laterSlotsFree
  infer_instance

/-- Every entry of `controller->device` after entry 0 has the same connection
handle in `s1` as in `s`. -/
def sameLaterHandles (s s1 : Shared) : Prop :=
  ∀ j, 0 < j → (s1.device.get? j).map (fun d => d.connectionHandle)
    = (s.device.get? j).map (fun d => d.connectionHandle)

/-- The shared state of the session after `lb_connect` with the commands of
the opcodes `opcodes` sent and not yet acknowledged: the table after one
`allocateCondition` (no response buffer) for each. -/
def sharedPending (opcodes : List Nat) : Shared :=
  { sessionStart.shared with
    pendingCommands :=
      opcodes.foldl (fun table opcode => (allocateCondition table opcode [] 0).1)
        hci_initialize }

/-- The I/O thread when exactly the event `e` arrives during a wait. -/
def ioEvent (e : Event) : IoThread :=
  fun h => processEvent h.vendorFunctions h.shared e.1 e.2.1 e.2.2

/-- The I/O thread of a controller that answers each of the first `n` commands
with a Command Complete event of status 0 and the return bytes `payload`, and is
silent afterwards. -/
def ioAcknowledgeFirst (n : Nat) (payload : List Nat) : IoThread :=
  fun h => if h.wire.length ≤ n then ioAcknowledge payload h else some h.shared

/-- The session after `lb_initializeHCI` has resolved the adapter. -/
def sessionResolved (adapter : Adapter) : Host :=
  { sessionStart with
    vendorFunctions := some adapter,
    manufacturerId := match adapter with
      | Adapter.TI => 0x0D
      | Adapter.ST => 0x30 }

/-- A device entry as `on_connectedToDevice` fills it for the handle. -/
def connectedDevice (handle : Nat) : LB_Device :=
  { freeDevice with controller := true, connectionHandle := handle }

/-- The session with the adapter resolved and one connection, handle `0x0040`,
in entry 0 of `controller->device`. -/
def sessionConnected (adapter : Adapter) : Host :=
  setDevice (sessionResolved adapter) 0 (connectedDevice 0x0040)

/-- A device table with two connections: `0x0041` in entry 0 and `0x0040` in
entry 1, on an otherwise fresh session. -/
def twoConnections : Shared :=
  { sessionStart.shared with
    device := [connectedDevice 0x0041, connectedDevice 0x0040] ++ List.replicate 6 freeDevice }

/-- The TI vendor event `CommandStatus` (`0x067F`) with status 0 and no data for
the opcode `lo`, `hi`. -/
def eventCommandStatus_TI (lo hi : Nat) : Event :=
  (0xFF, [0x7F, 0x06, 0x00, lo, hi, 0x00], 6)

/-- The HCI Command Status event (`0x0F`) with status 0 for the opcode `lo`, `hi`. -/
def eventCommandStatus (lo hi : Nat) : Event :=
  (0x0F, [0x00, 0x01, lo, hi], 4)

/-- The pending-operation record of entry `dev` of `controller->device`. -/
def pendingRecord (dev : Nat) (h : Host) : Option PendingOperation :=
  (h.shared.device.get? dev).map (fun d => d.pendingOperation)

/-- Every entry of `controller->device` has the same pending-operation record
in `s1` as in `s`. -/
def sameRecords (s s1 : Shared) : Prop :=
  ∀ dev, (s1.device.get? dev).map (fun d => d.pendingOperation)
    = (s.device.get? dev).map (fun d => d.pendingOperation)

/-- The record as the code keeps it on entry `dev`: the attribute handle is 0
while the type is idle or discover, and not 0 while it is read or write. -/
def pendingRecordInvariant (dev : Nat) (h : Host) : Bool :=
  match pendingRecord dev h with
  | none => false
  | some p =>
    decide ((p.type = PO_IDLE ∨ p.type = PO_DISCOVER → p.attributeHandle = 0)
      ∧ (p.type = PO_READ ∨ p.type = PO_WRITE → p.attributeHandle ≠ 0))

/-- The record as the code keeps it: the attribute handle is 0 while the type
is idle or discover, and not 0 while it is read or write. -/
def recordKept (p : PendingOperation) : Bool :=
  decide ((p.type = PO_IDLE ∨ p.type = PO_DISCOVER → p.attributeHandle = 0)
    ∧ (p.type = PO_READ ∨ p.type = PO_WRITE → p.attributeHandle ≠ 0))

/-- The command packet is well formed: its first byte is `HCI_PACKET_COMMAND`
and the length byte at offset 3 counts the bytes that follow it. -/
def wellFormedCommand (c : List Nat) : Prop :=
  c.getD 0 0 = HCI_PACKET_COMMAND ∧ c.getD 3 0 + 4 = c.length

/-- The value of a hexadecimal digit character, of either case. -/
def hexDigitValue (c : Nat) : Option Nat :=
  if 48 ≤ c ∧ c ≤ 57 then some (c - 48)
  else if 97 ≤ c ∧ c ≤ 102 then some (c - 97 + 10)
  else if 65 ≤ c ∧ c ≤ 70 then some (c - 65 + 10)
  else none

/-- The character `c` may stand at place `i` of `XX:XX:XX:XX:XX:XX`: a colon
(58) at every third place, a hexadecimal digit at every other place. -/
def addressChar (i c : Nat) : Prop :=
  if (i + 1) % 3 = 0 then c = 58 else (hexDigitValue c).isSome = true

/-- The text has the form `XX:XX:XX:XX:XX:XX`: exactly 17 characters, each one
allowed at its place. -/
def addressForm (text : List Nat) : Prop :=
  text.length = 17 ∧ ∀ i, i < 17 → addressChar i (text.getD i 0)

/-- The value of the `i`-th two-digit group of the text. -/
def groupValue (text : List Nat) (i : Nat) : Nat :=
  16 * (hexDigitValue (text.getD (3 * i) 0)).getD 0
    + (hexDigitValue (text.getD (3 * i + 1) 0)).getD 0

/-- The character with a hexadecimal digit `A`-`F` lower-cased. -/
def lowerHex (c : Nat) : Nat :=
  if 65 ≤ c ∧ c ≤ 70 then c + 32 else c

/-- The characters of `"AA:BB:CC:DD:EE:FF"`. -/
def textAABBCCDDEEFF : List Nat :=
  [65, 65, 58, 66, 66, 58, 67, 67, 58, 68, 68, 58, 69, 69, 58, 70, 70]

/-! ## Framer: the loop always returns -/

theorem processLoop_fuel {σ : Type} (d : σ → Nat → List Nat → Nat → Option σ) :
    ∀ (f1 f2 : Nat) (cbuf : List Nat) (off length : Nat) (s : σ),
      length < f1 → length < f2 →
      processLoop d f1 cbuf off length s = processLoop d f2 cbuf off length s := by
  intro f1
  induction f1 with
  | zero => intro f2 cbuf off length s h1; omega
  | succ n ih =>
    intro f2 cbuf off length s h1 h2
    cases f2 with
    | zero => omega
    | succ m =>
      simp only [processLoop]
      split_ifs with h3 h4 h5
      · cases hd : d s (cbuf.getD (off + 1) 0) (List.drop (off + sizeofEventHeader) cbuf)
            (cbuf.getD (off + 2) 0) with
        | none => rfl
        | some s1 =>
          simp only [sizeofEventHeader] at h3 h5 ⊢
          exact ih m cbuf _ _ s1 (by omega) (by omega)
      · rfl
      · rfl
      · rfl

theorem processLoop_length_le {σ : Type} (d : σ → Nat → List Nat → Nat → Option σ) :
    ∀ (fuel : Nat) (cbuf : List Nat) (off length : Nat) (s : σ) (r : List Nat × Nat × σ),
      processLoop d fuel cbuf off length s = some r → r.2.1 ≤ length := by
  intro fuel
  induction fuel with
  | zero => intro cbuf off length s r h; simp [processLoop] at h
  | succ n ih =>
    intro cbuf off length s r h
    simp only [processLoop] at h
    split_ifs at h with h3 h4 h5
    · split at h
      · simp at h
      · have := ih cbuf _ _ _ r h
        omega
    · cases h; simp
    · cases h; simp
    · cases h; simp

theorem processLoop_returns {σ : Type} (d : σ → Nat → List Nat → Nat → Option σ)
    (hd : ∀ s opcode ptr len, ∃ s1, d s opcode ptr len = some s1) :
    ∀ (fuel : Nat) (cbuf : List Nat) (off length : Nat) (s : σ),
      length < fuel → ∃ r, processLoop d fuel cbuf off length s = some r := by
  intro fuel
  induction fuel with
  | zero => intro cbuf off length s h; omega
  | succ n ih =>
    intro cbuf off length s h
    simp only [processLoop]
    split_ifs with h3 h4 h5
    · split
      · rename_i heq
        obtain ⟨s1, hs1⟩ := hd s (cbuf.getD (off + 1) 0) (List.drop (off + sizeofEventHeader) cbuf)
          (cbuf.getD (off + 2) 0)
        rw [hs1] at heq
        simp at heq
      · simp only [sizeofEventHeader] at h3 h5 ⊢
        exact ih cbuf _ _ _ (by omega)
    · exact ⟨_, rfl⟩
    · exact ⟨_, rfl⟩
    · exact ⟨_, rfl⟩

/-! ## Framer: complete packets are dispatched in order -/

theorem getD_append_offset (pre l : List Nat) (k d : Nat) :
    (pre ++ l).getD (pre.length + k) d = l.getD k d := by
  induction pre with
  | nil => simp
  | cons a pre ih =>
    have e : (a :: pre).length + k = (pre.length + k) + 1 := by simp; omega
    rw [e, List.cons_append, List.getD_cons_succ]
    exact ih

theorem eventPacket_length (p : Dispatched) : (eventPacket p).length = 3 + p.2.length := by
  simp [eventPacket]; omega

theorem eventStream_cons (p : Dispatched) (ps : List Dispatched) :
    eventStream (p :: ps) = eventPacket p ++ eventStream ps := by
  simp [eventStream]

theorem processLoop_packet {σ : Type} (d : σ → Nat → List Nat → Nat → Option σ)
    (p : Dispatched) (pre tail : List Nat) (rest fuel : Nat) (s : σ) :
    processLoop d (fuel + 1) (pre ++ eventPacket p ++ tail) pre.length
        ((eventPacket p).length + rest) s
      = (d s p.1 (p.2 ++ tail) p.2.length).bind (fun s1 =>
          processLoop d fuel (pre ++ eventPacket p ++ tail)
            (pre.length + (eventPacket p).length) rest s1) := by
  obtain ⟨op, params⟩ := p
  have h0 : (pre ++ eventPacket (op, params) ++ tail).getD pre.length 0 = 4 := by
    have := getD_append_offset pre (eventPacket (op, params) ++ tail) 0 0
    rw [List.append_assoc]
    simpa [eventPacket, HCI_PACKET_EVENT] using this
  have h1 : (pre ++ eventPacket (op, params) ++ tail).getD (pre.length + 1) 0 = op := by
    have := getD_append_offset pre (eventPacket (op, params) ++ tail) 1 0
    rw [List.append_assoc]
    simpa [eventPacket] using this
  have h2 : (pre ++ eventPacket (op, params) ++ tail).getD (pre.length + 2) 0 = params.length := by
    have := getD_append_offset pre (eventPacket (op, params) ++ tail) 2 0
    rw [List.append_assoc]
    simpa [eventPacket] using this
  have h3 : (pre ++ eventPacket (op, params) ++ tail).drop (pre.length + 3)
      = params ++ tail := by
    simp [eventPacket, List.append_assoc, List.drop_append]
  rw [processLoop]
  simp only [h0, h1, h2, eventPacket_length, sizeofEventHeader, HCI_PACKET_EVENT, h3]
  have e1 : 3 ≤ 3 + params.length + rest := by omega
  have e2 : 3 + params.length ≤ 3 + params.length + rest := by omega
  have e3 : 3 + params.length + rest - (3 + params.length) = rest := by omega
  rw [if_pos e1, if_pos trivial, if_pos e2, e3]
  cases d s op (params ++ tail) params.length <;> rfl

theorem processLoop_stream {σ : Type} (d : σ → Nat → List Nat → Nat → Option σ)
    (ps : List Dispatched) :
    ∀ (pre tail : List Nat) (rest fuel : Nat) (s : σ),
      (eventStream ps).length + rest < fuel →
      processLoop d fuel (pre ++ eventStream ps ++ tail) pre.length
          ((eventStream ps).length + rest) s
        = (dispatchEach d s ps tail).bind (fun s1 =>
            processLoop d (rest + 1) (pre ++ eventStream ps ++ tail)
              (pre.length + (eventStream ps).length) rest s1) := by
  induction ps with
  | nil =>
    intro pre tail rest fuel s h
    simp only [eventStream, List.map_nil, List.flatten_nil, List.length_nil, Nat.zero_add,
      Nat.add_zero, List.append_nil, dispatchEach, Option.some_bind] at h ⊢
    exact processLoop_fuel _ _ _ _ _ _ _ h (by omega)
  | cons p ps ih =>
    intro pre tail rest fuel s h
    rw [eventStream_cons, List.length_append] at h
    cases fuel with
    | zero => omega
    | succ f =>
      have e1 : pre ++ eventStream (p :: ps) ++ tail
          = pre ++ eventPacket p ++ (eventStream ps ++ tail) := by
        simp [eventStream_cons]
      have e2 : pre ++ eventPacket p ++ (eventStream ps ++ tail)
          = (pre ++ eventPacket p) ++ eventStream ps ++ tail := by
        simp
      have e3 : (eventStream (p :: ps)).length + rest
          = (eventPacket p).length + ((eventStream ps).length + rest) := by
        rw [eventStream_cons, List.length_append]; omega
      have hp := eventPacket_length p
      rw [e3, e1, processLoop_packet, dispatchEach]
      cases d s p.1 (p.2 ++ (eventStream ps ++ tail)) p.2.length with
      | none => rfl
      | some s1 =>
        simp only [Option.some_bind]
        rw [e2]
        have := ih (pre ++ eventPacket p) tail rest f s1 (by omega)
        rw [List.length_append] at this
        rw [this, eventStream_cons, List.length_append]
        simp [Nat.add_assoc]

theorem processLoop_short {σ : Type} (d : σ → Nat → List Nat → Nat → Option σ)
    (fuel : Nat) (cbuf : List Nat) (off length : Nat) (s : σ) (h : length < 3) :
    processLoop d (fuel + 1) cbuf off length s = some (cbuf, length, s) := by
  rw [processLoop]
  simp only [sizeofEventHeader]
  rw [if_neg (by omega)]

theorem io_on_dataReceived_fit {σ : Type} (d : σ → Nat → List Nat → Nat → Option σ)
    (c : LB_Controller) (chunk : List Nat) (s : σ)
    (h : c.length + chunk.length < sizeofBuffer) :
    io_on_dataReceived d c chunk s
      = processBuffer d { buffer := memcpyAt c.buffer c.length chunk,
                          length := c.length + chunk.length } s := by
  simp only [sizeofBuffer] at h
  have e1 : (chunk.length + c.length) % 4294967296 = chunk.length + c.length :=
    Nat.mod_eq_of_lt (by omega)
  have e2 : (c.length + chunk.length) % 4294967296 = c.length + chunk.length :=
    Nat.mod_eq_of_lt (by omega)
  rw [io_on_dataReceived, e1, e2, if_pos (by simp only [sizeofBuffer]; omega)]

/-! ## Framer: the claims -/

/-- C6 as stated fails: on the accumulator `lb_connect` leaves, the single
corrupt byte `05` is kept (`controller->length` becomes 1, not 0), because the
loop of `processBuffer` is entered only with three bytes or more; and with
that byte held, a chunk of 127 bytes fails the overflow assertion, so the
accumulator is not cleared either. -/
theorem corrupt_byte_kept_below_three :
    io_on_dataReceived (processEvent none) lb_connect [5] sessionStart.shared
        = some ({ buffer := 5 :: List.replicate 127 0, length := 1 }, sessionStart.shared)
      ∧ ([5] : List Nat).getD 0 0 ≠ HCI_PACKET_EVENT
      ∧ io_on_dataReceived (processEvent none)
          { buffer := 5 :: List.replicate 127 0, length := 1 } (List.replicate 127 0)
          sessionStart.shared = none := by
  refine ⟨?_, ?_, ?_⟩
  · decide
  · decide
  · simp [io_on_dataReceived, sizeofBuffer]

/-- C6, amended: when the bytes still to be consumed (after the complete
packets `ps` at the start of the accumulator) are three or more and do not
start with 4, `io_on_dataReceived` runs the `switch` for the packets `ps` only,
zeroes the accumulator and sets `controller->length = 0`, whatever the
handlers are; with no complete packet before the corrupt bytes no handler runs
at all. -/
theorem corrupt_stream_recovery {σ : Type} (d : σ → Nat → List Nat → Nat → Option σ)
    (c : LB_Controller) (chunk : List Nat)
    (ps : List Dispatched) (corrupt : List Nat) (s : σ)
    (hvalid : c.length ≤ c.buffer.length)
    (hfit : c.length + chunk.length < sizeofBuffer)
    (hdata : c.buffer.take c.length ++ chunk = eventStream ps ++ corrupt)
    (hthree : 3 ≤ corrupt.length) (hbad : corrupt.getD 0 0 ≠ HCI_PACKET_EVENT) :
    io_on_dataReceived d c chunk s
        = (dispatchEach d s ps (corrupt ++ c.buffer.drop (c.length + chunk.length))).map
            (fun s1 => ({ buffer := List.replicate sizeofBuffer 0, length := 0 }, s1))
      ∧ (ps = [] →
          io_on_dataReceived d c chunk s
            = some ({ buffer := List.replicate sizeofBuffer 0, length := 0 }, s)) := by
  have hlen : c.length + chunk.length = (eventStream ps).length + corrupt.length := by
    have := congrArg List.length hdata
    simp only [List.length_append, List.length_take] at this
    omega
  have hmain : io_on_dataReceived d c chunk s
      = (dispatchEach d s ps (corrupt ++ c.buffer.drop (c.length + chunk.length))).map
          (fun s1 => ({ buffer := List.replicate sizeofBuffer 0, length := 0 }, s1)) := by
    rw [io_on_dataReceived_fit _ _ _ _ hfit, processBuffer]
    simp only [memcpyAt, hdata, hlen]
    have h := processLoop_stream d ps [] (corrupt ++ c.buffer.drop ((eventStream ps).length
      + corrupt.length)) corrupt.length ((eventStream ps).length + corrupt.length + 1) s
      (by omega)
    simp only [List.nil_append, List.length_nil, Nat.zero_add, ← List.append_assoc] at h
    rw [h]
    cases dispatchEach d s ps (corrupt ++ c.buffer.drop ((eventStream ps).length
        + corrupt.length)) with
    | none => rfl
    | some s1 =>
      simp only [Option.some_bind, Option.map_some']
      rw [processLoop]
      have hb : (eventStream ps ++ corrupt ++ c.buffer.drop ((eventStream ps).length
          + corrupt.length)).getD (eventStream ps).length 0 = corrupt.getD 0 0 := by
        have := getD_append_offset (eventStream ps)
          (corrupt ++ c.buffer.drop ((eventStream ps).length + corrupt.length)) 0 0
        rw [List.append_assoc]
        simp only [Nat.add_zero] at this
        rw [this]
        cases corrupt with
        | nil => simp at hthree
        | cons x xs => simp
      simp only [sizeofEventHeader, hb]
      rw [if_pos hthree, if_neg (fun e => hbad e.symm)]
  refine ⟨hmain, ?_⟩
  intro hps
  rw [hmain, hps]
  rfl

/-- Witness of C6 amended: on the session with the command `0x0C03` pending,
the accumulator holds `04 0E` and the chunk `04 01 03 0C 00 FF FF FF` arrives:
the Command Complete event is dispatched (the entry is signalled), the three
corrupt bytes are dropped and the accumulator is zeroed.  The same corrupt
bytes on the accumulator `lb_connect` leaves run no handler. -/
theorem corrupt_stream_recovery_witness :
    (io_on_dataReceived (processEvent none)
        { buffer := 4 :: 0x0E :: List.replicate 126 0, length := 2 }
        [4, 1, 3, 0x0C, 0, 0xFF, 0xFF, 0xFF] (sharedPending [0x0C03])).map
        (fun r => (r.1, r.2.pendingCommands.map (fun e => (e.opcode, e.handle, e.status))))
      = some ({ buffer := List.replicate sizeofBuffer 0, length := 0 },
          [(0x0C03, true, 0), (0, false, 0), (0, false, 0), (0, false, 0)])
    ∧ io_on_dataReceived (processEvent none) lb_connect [0xFF, 0xFF, 0xFF]
        sessionStart.shared
      = some ({ buffer := List.replicate sizeofBuffer 0, length := 0 }, sessionStart.shared) := by
  constructor
  · rw [(corrupt_stream_recovery (processEvent none)
      { buffer := 4 :: 0x0E :: List.replicate 126 0, length := 2 }
      [4, 1, 3, 0x0C, 0, 0xFF, 0xFF, 0xFF] [(0x0E, [1, 3, 0x0C, 0])] [0xFF, 0xFF, 0xFF]
      (sharedPending [0x0C03]) (by simp) (by decide) rfl (by decide) (by decide)).1]
    decide
  · exact (corrupt_stream_recovery (processEvent none) lb_connect [0xFF, 0xFF, 0xFF] []
      [0xFF, 0xFF, 0xFF] sessionStart.shared (by simp [lb_connect]) (by decide) rfl
      (by decide) (by decide)).2 rfl

/-- C5: an accumulator that starts with byte 4 and holds at least 3 bytes but
fewer than `3 + buffer[2]` is left as it is by `processBuffer`, whatever the
handlers are: no handler runs, and the bytes and `controller->length` stay. -/
theorem incomplete_event_left_unconsumed {σ : Type}
    (d : σ → Nat → List Nat → Nat → Option σ) (c : LB_Controller) (s : σ)
    (hfirst : c.buffer.getD 0 0 = HCI_PACKET_EVENT)
    (hheader : 3 ≤ c.length)
    (hshort : c.length < 3 + c.buffer.getD 2 0) :
    processBuffer d c s = some (c, s) := by
  rw [processBuffer, processLoop]
  simp only [sizeofEventHeader, Nat.zero_add]
  rw [if_pos hheader, if_pos hfirst.symm, if_neg (by omega)]
  simp [memmoveToStart]

/-- Witness of C5: the header `04 0E 04` with one of its four parameter bytes. -/
theorem incomplete_event_left_unconsumed_witness :
    processBuffer recordDispatch
        { buffer := 4 :: 0x0E :: 4 :: 1 :: List.replicate 124 0, length := 4 } []
      = some ({ buffer := 4 :: 0x0E :: 4 :: 1 :: List.replicate 124 0, length := 4 }, []) :=
  incomplete_event_left_unconsumed recordDispatch
    { buffer := 4 :: 0x0E :: 4 :: 1 :: List.replicate 124 0, length := 4 } []
    (by decide) (by decide) (by decide)

theorem processBuffer_incomplete_packet {σ : Type}
    (d : σ → Nat → List Nat → Nat → Option σ) (c : LB_Controller) (p : Dispatched)
    (a b : List Nat) (s : σ) (hempty : c.length = 0) (hsplit : a ++ b = eventPacket p)
    (hb : b ≠ []) :
    processBuffer d
        { buffer := memcpyAt c.buffer c.length a, length := c.length + a.length } s
      = some ({ buffer := memcpyAt c.buffer 0 a, length := a.length }, s) := by
  obtain ⟨op, params⟩ := p
  have hblen : 0 < b.length := List.length_pos.mpr hb
  rw [hempty, processBuffer]
  simp only [Nat.zero_add]
  by_cases h3 : a.length < 3
  · rw [processLoop_short _ _ _ _ _ _ h3]
  · match a, hsplit, h3 with
    | x :: y :: z :: rest, hsplit, _ =>
      simp only [eventPacket, List.cons_append, List.cons.injEq] at hsplit
      obtain ⟨hx, _, hz, hrest⟩ := hsplit
      have hplen : params.length = rest.length + b.length := by
        rw [← hrest, List.length_append]
      rw [processLoop]
      simp only [memcpyAt, List.take_zero, List.nil_append, Nat.zero_add, List.cons_append,
        List.getD_cons_zero, List.getD_cons_succ, sizeofEventHeader, List.length_cons,
        hx, hz, hplen]
      have hn : ¬ (3 + (rest.length + b.length) ≤ rest.length + 1 + 1 + 1) := by omega
      simp [hn, memmoveToStart]
    | [], _, h3 => simp at h3
    | [_], _, h3 => simp at h3
    | [_, _], _, h3 => simp at h3

/-- C3 as stated fails for an event as long as the accumulator: the 128-byte
packet `04 3E 7D 00 ... 00` split after its second byte.  The first chunk is
kept with no dispatch; the chunk that completes the event fails the overflow
assertion, so nothing is dispatched. -/
theorem split_event_too_long_rejected :
    [4, 0x3E] ++ (125 :: List.replicate 125 0) = eventPacket (0x3E, List.replicate 125 0)
      ∧ io_on_dataReceived (processEvent none) lb_connect [4, 0x3E] sessionStart.shared
          = some ({ buffer := 4 :: 0x3E :: List.replicate 126 0, length := 2 },
              sessionStart.shared)
      ∧ io_on_dataReceived (processEvent none)
            { buffer := 4 :: 0x3E :: List.replicate 126 0, length := 2 }
            (125 :: List.replicate 125 0) sessionStart.shared = none := by
  refine ⟨?_, ?_, ?_⟩
  · simp [eventPacket, HCI_PACKET_EVENT]
  · decide
  · simp [io_on_dataReceived, sizeofBuffer]

/-- C3, amended: on an empty accumulator, a chunk `a` that ends inside the event
packet `p` (anywhere before its last byte, the header included) is kept and no
handler runs; the chunk `b` that completes the packet then runs the `switch`
exactly once, with the opcode, the parameter memory and the parameter length
of `p`, provided the whole packet is shorter than the accumulator (128
bytes).  This holds whatever the handlers are; the event is consumed
(`controller->length` is 0 when the handler returns). -/
theorem split_event_dispatched_once {σ : Type} (d : σ → Nat → List Nat → Nat → Option σ)
    (c : LB_Controller) (p : Dispatched) (a b : List Nat) (s : σ)
    (hempty : c.length = 0) (hsplit : a ++ b = eventPacket p)
    (hb : b ≠ []) (hfit : (eventPacket p).length < sizeofBuffer) :
    ∃ c1 c2,
      io_on_dataReceived d c a s = some (c1, s)
        ∧ c1.length = a.length ∧ c1.buffer.take c1.length = a
        ∧ io_on_dataReceived d c1 b s
          = (d s p.1 (p.2 ++ c.buffer.drop (eventPacket p).length) p.2.length).map
              (fun s1 => (c2, s1))
        ∧ c2.length = 0 := by
  have hlen : a.length + b.length = (eventPacket p).length := by
    rw [← hsplit, List.length_append]
  refine ⟨{ buffer := memcpyAt c.buffer 0 a, length := a.length },
    { buffer := memcpyAt (memcpyAt c.buffer 0 a) a.length b, length := 0 }, ?_, rfl, ?_, ?_, rfl⟩
  · rw [io_on_dataReceived_fit _ _ _ _ (by rw [hempty]; omega)]
    exact processBuffer_incomplete_packet d c p a b s hempty hsplit hb
  · simp [memcpyAt]
  · rw [io_on_dataReceived_fit _ _ _ _ (by simp only; omega), processBuffer]
    have hbuf : memcpyAt (memcpyAt c.buffer 0 a) a.length b
        = [] ++ eventStream [p] ++ c.buffer.drop (eventPacket p).length := by
      simp [memcpyAt, eventStream, ← hsplit, Nat.add_comm]
    have hl : a.length + b.length = (eventStream [p]).length + 0 := by
      simp [eventStream, hlen]
    simp only [hbuf, hl]
    have h := processLoop_stream d [p] [] (c.buffer.drop (eventPacket p).length) 0
      ((eventStream [p]).length + 0 + 1) s (by omega)
    simp only [List.length_nil] at h
    rw [h]
    simp only [dispatchEach, eventStream, List.map_nil, List.flatten_nil, List.nil_append]
    cases d s p.1 (p.2 ++ c.buffer.drop (eventPacket p).length) p.2.length with
    | none => rfl
    | some s1 =>
      simp only [Option.some_bind, Option.map_some']
      rw [processLoop_short _ _ _ _ _ _ (by omega)]

/-- Witness of C3 amended: on the session with the command `0x0010` pending,
the chunk `04 0E` runs no handler and the chunk `04 01 10 00 00` then runs the
dispatcher of `processBuffer` once, with opcode `0x0E` and the parameters
`01 10 00 00`: the entry of `0x0010` is signalled with status 0. -/
theorem split_event_dispatched_once_witness :
    (∃ c1 c2,
      io_on_dataReceived (processEvent none) lb_connect [4, 0x0E] (sharedPending [0x0010])
          = some (c1, sharedPending [0x0010])
        ∧ c1.length = 2 ∧ c1.buffer.take c1.length = [4, 0x0E]
        ∧ io_on_dataReceived (processEvent none) c1 [4, 1, 0x10, 0, 0] (sharedPending [0x0010])
          = (processEvent none (sharedPending [0x0010]) 0x0E
              ([1, 0x10, 0, 0] ++ lb_connect.buffer.drop 7) 4).map (fun s1 => (c2, s1))
        ∧ c2.length = 0)
      ∧ (processEvent none (sharedPending [0x0010]) 0x0E
            ([1, 0x10, 0, 0] ++ lb_connect.buffer.drop 7) 4).map
          (fun s1 => s1.pendingCommands.map (fun e => (e.opcode, e.handle, e.status)))
        = some [(0x0010, true, 0), (0, false, 0), (0, false, 0), (0, false, 0)]
      ∧ recordDispatch [] 0x0E ([1, 0x10, 0, 0] ++ lb_connect.buffer.drop 7) 4
        = some [(0x0E, [1, 0x10, 0, 0])] :=
  ⟨split_event_dispatched_once (processEvent none) lb_connect (0x0E, [1, 0x10, 0, 0])
      [4, 0x0E] [4, 1, 0x10, 0, 0] (sharedPending [0x0010]) rfl rfl (by decide) (by decide),
   by decide, by decide⟩

theorem processBuffer_length_le {σ : Type} (d : σ → Nat → List Nat → Nat → Option σ)
    (c : LB_Controller) (s : σ) (c1 : LB_Controller) (s1 : σ)
    (h : processBuffer d c s = some (c1, s1)) : c1.length ≤ c.length := by
  rw [processBuffer] at h
  split at h
  · simp at h
  · rename_i cbuf length s2 heq
    have := processLoop_length_le d _ _ _ _ _ _ heq
    simp only [Option.some.injEq, Prod.mk.injEq] at h
    rw [← h.1]
    exact this

theorem io_on_dataReceived_length_lt {σ : Type} (d : σ → Nat → List Nat → Nat → Option σ)
    (c : LB_Controller) (chunk : List Nat) (s : σ) (c1 : LB_Controller) (s1 : σ)
    (h : io_on_dataReceived d c chunk s = some (c1, s1)) : c1.length < sizeofBuffer := by
  rw [io_on_dataReceived] at h
  split_ifs at h with hlt
  have := processBuffer_length_le d _ _ _ _ h
  simp only at this
  rw [Nat.add_comm] at hlt
  omega

theorem feedChunks_length_le {σ : Type} (d : σ → Nat → List Nat → Nat → Option σ) :
    ∀ (chunks : List (List Nat)) (c0 : LB_Controller) (s : σ) (c : LB_Controller) (s1 : σ),
      c0.length ≤ sizeofBuffer → feedChunks d c0 chunks s = some (c, s1) →
      c.length ≤ sizeofBuffer := by
  intro chunks
  induction chunks with
  | nil =>
    intro c0 s c s1 h0 h
    simp only [feedChunks, Option.some.injEq, Prod.mk.injEq] at h
    rw [← h.1]
    exact h0
  | cons chunk rest ih =>
    intro c0 s c s1 _ h
    rw [feedChunks] at h
    split at h
    · simp at h
    · rename_i c2 s2 heq
      exact ih c2 s2 c s1 (Nat.le_of_lt (io_on_dataReceived_length_lt d _ _ _ _ _ heq)) h

/-- C7: every accumulator reached from `lb_connect` by `io_on_dataReceived`
calls that pass the overflow assertion has `controller->length <= 128`, and
`processBuffer` never increases `controller->length`, whatever the handlers. -/
theorem accumulator_length_invariant {σ : Type} (d : σ → Nat → List Nat → Nat → Option σ)
    (chunks : List (List Nat)) (s : σ) (c : LB_Controller) (s1 : σ)
    (h : feedChunks d lb_connect chunks s = some (c, s1)) :
    c.length ≤ sizeofBuffer
      ∧ ∀ (c0 : LB_Controller) (s0 : σ) (c1 : LB_Controller) (s2 : σ),
          processBuffer d c0 s0 = some (c1, s2) → c1.length ≤ c0.length :=
  ⟨feedChunks_length_le d chunks lb_connect s c s1 (by decide) h,
   fun c0 s0 c1 s2 h1 => processBuffer_length_le d c0 s0 c1 s2 h1⟩

/-- Witness of C7: the accumulator after the chunks `04 0E 04 01` and `10`. -/
theorem accumulator_length_invariant_witness :
    ({ buffer := 4 :: 0x0E :: 4 :: 1 :: 0x10 :: List.replicate 123 0, length := 5 }
        : LB_Controller).length ≤ sizeofBuffer
      ∧ ∀ (c0 : LB_Controller) (s0 : List Dispatched) (c1 : LB_Controller)
          (s2 : List Dispatched),
          processBuffer recordDispatch c0 s0 = some (c1, s2) → c1.length ≤ c0.length :=
  accumulator_length_invariant recordDispatch [[4, 0x0E, 4, 1], [0x10]] []
    { buffer := 4 :: 0x0E :: 4 :: 1 :: 0x10 :: List.replicate 123 0, length := 5 } [] rfl

/-- C8 as stated fails: a chunk of 128 bytes on the empty accumulator fills
it exactly (0 + 128 is not above 128), and `io_on_dataReceived` fails its
assertion.  A call can also abort below the capacity: on the session
`lb_connect` leaves, the 7-byte chunk `04 0E 04 01 03 0C 00` (a Command
Complete for a command nobody sent) passes the overflow assertion, and the
handler it is dispatched to fails `assert(false)` in `signalCondition`. -/
theorem exact_fill_rejected :
    io_on_dataReceived (processEvent none) lb_connect (List.replicate 128 0)
        sessionStart.shared = none
      ∧ ¬ (lb_connect.length + (List.replicate 128 0).length > 128)
      ∧ io_on_dataReceived (processEvent none) lb_connect [4, 0x0E, 4, 1, 3, 0x0C, 0]
          sessionStart.shared = none
      ∧ ¬ (sizeofBuffer ≤ lb_connect.length + [4, 0x0E, 4, 1, 3, 0x0C, 0].length) := by
  refine ⟨?_, ?_, ?_, ?_⟩
  · simp [io_on_dataReceived, lb_connect, sizeofBuffer]
  · simp [lb_connect]
  · decide
  · decide

/-- C8, amended: whatever the handlers are, `io_on_dataReceived` fails its
overflow assertion (before a byte is copied or a handler runs) exactly when
`controller->length` plus the chunk length is 128 or more (the sum taken
without `uint32_t` wrap-around), so a chunk that exactly fills the accumulator
is rejected; below that the chunk is appended and `processBuffer` runs, and
the call aborts only when a handler does not return: with handlers that
always return it aborts exactly when the sum is 128 or more. -/
theorem overflow_assertion {σ : Type} (d : σ → Nat → List Nat → Nat → Option σ)
    (c : LB_Controller) (chunk : List Nat) (s : σ)
    (hword : chunk.length + c.length < 4294967296) :
    (sizeofBuffer ≤ c.length + chunk.length → io_on_dataReceived d c chunk s = none)
      ∧ (c.length + chunk.length < sizeofBuffer →
          io_on_dataReceived d c chunk s
            = processBuffer d
                { buffer := memcpyAt c.buffer c.length chunk,
                  length := c.length + chunk.length } s)
      ∧ ((∀ s0 opcode ptr len, ∃ s1, d s0 opcode ptr len = some s1) →
          (io_on_dataReceived d c chunk s = none
            ↔ sizeofBuffer ≤ c.length + chunk.length)) := by
  have hfail : sizeofBuffer ≤ c.length + chunk.length →
      io_on_dataReceived d c chunk s = none := by
    intro h
    rw [io_on_dataReceived, Nat.mod_eq_of_lt hword, if_neg (by omega)]
  refine ⟨hfail, fun h => io_on_dataReceived_fit d c chunk s h, ?_⟩
  intro hd
  constructor
  · intro h
    by_contra hlt
    rw [io_on_dataReceived_fit d c chunk s (by omega), processBuffer] at h
    obtain ⟨r, hr⟩ := processLoop_returns d hd (c.length + chunk.length + 1)
      (memcpyAt c.buffer c.length chunk) 0 (c.length + chunk.length) s (by omega)
    simp only [hr] at h
    simp at h
  · exact hfail

/-- Witness of C8 amended: with 100 bytes held a chunk of 28 bytes fails the
assertion in the dispatcher of `processBuffer`; on the session with the command
`0x0C03` pending the 7-byte chunk `04 0E 04 01 03 0C 00` is accepted and its
event dispatched. -/
theorem overflow_assertion_witness :
    io_on_dataReceived (processEvent none) { buffer := List.replicate 128 0, length := 100 }
        (List.replicate 28 0) sessionStart.shared = none
      ∧ (io_on_dataReceived (processEvent none) lb_connect [4, 0x0E, 4, 1, 3, 0x0C, 0]
          (sharedPending [0x0C03])).map
          (fun r => (r.1.length,
            r.2.pendingCommands.map (fun e => (e.opcode, e.handle, e.status))))
        = some (0, [(0x0C03, true, 0), (0, false, 0), (0, false, 0), (0, false, 0)])
      ∧ (io_on_dataReceived recordDispatch { buffer := List.replicate 128 0, length := 100 }
            (List.replicate 28 0) [] = none
          ↔ sizeofBuffer ≤ 100 + (List.replicate 28 0).length) :=
  ⟨(overflow_assertion (processEvent none) { buffer := List.replicate 128 0, length := 100 }
      (List.replicate 28 0) sessionStart.shared (by decide)).1 (by decide),
   by decide,
   (overflow_assertion recordDispatch { buffer := List.replicate 128 0, length := 100 }
      (List.replicate 28 0) [] (by decide)).2.2 (fun _ _ _ _ => ⟨_, rfl⟩)⟩

/-- C1 at the failing input: the stream of the two packets
`04 13 05 01 40 00 01 00` and `04 10 01 2A` (opcodes the dispatcher ignores),
cut after its tenth byte.  The first chunk leaves the two bytes `04 10` after
a dispatched packet; they are not moved to the start of the accumulator, so
the second chunk is appended to the stale bytes `04 13` and the dispatcher
runs with opcode `0x13` again instead of `0x10`. -/
theorem two_byte_remainder_wrong_dispatch :
    [4, 0x13, 5, 1, 0x40, 0, 1, 0, 4, 0x10] ++ [1, 0x2A]
        = eventStream [(0x13, [1, 0x40, 0, 1, 0]), (0x10, [0x2A])]
      ∧ (feedChunks recordDispatch lb_connect
            [[4, 0x13, 5, 1, 0x40, 0, 1, 0, 4, 0x10], [1, 0x2A]] []).map Prod.snd
          = some [(0x13, [1, 0x40, 0, 1, 0]), (0x13, [0x2A])] := by
  constructor
  · rfl
  · rfl

/-- C2 at the failing input: after the chunk `04 13 05 01 40 00 01 00 04 10` on
the empty accumulator the first packet (8 bytes) is consumed and the two bytes
`04 10` are left, `controller->length` is 2, but the first two bytes of the
accumulator are still `04 13`. -/
theorem two_byte_remainder_not_moved :
    io_on_dataReceived recordDispatch lb_connect [4, 0x13, 5, 1, 0x40, 0, 1, 0, 4, 0x10] []
        = some ({ buffer := [4, 0x13, 5, 1, 0x40, 0, 1, 0, 4, 0x10] ++ List.replicate 118 0,
                  length := 2 },
                [(0x13, [1, 0x40, 0, 1, 0])])
      ∧ ([4, 0x13, 5, 1, 0x40, 0, 1, 0, 4, 0x10] ++ List.replicate 118 0).take 2 = [4, 0x13]
      ∧ ([4, 0x13, 5, 1, 0x40, 0, 1, 0, 4, 0x10] : List Nat).drop
          (eventPacket (0x13, [1, 0x40, 0, 1, 0])).length = [4, 0x10] := by
  refine ⟨?_, ?_, ?_⟩
  · rfl
  · rfl
  · rfl

/-! ## Dispatcher: Command Complete and Command Status -/

theorem uint16Value_bytes (lo hi : Nat) (hlo : lo < 256) (hhi : hi < 256) :
    uint16Value lo hi = lo ||| (hi <<< 8) := by
  have h1 : hi <<< 8 < 2 ^ 16 := by
    rw [Nat.shiftLeft_eq]
    omega
  have h2 : lo < 2 ^ 16 := by omega
  have h3 : (hi <<< 8) ||| lo < 2 ^ 16 := Nat.or_lt_two_pow h1 h2
  have h4 : (hi <<< 8) ||| lo < 65536 := h3
  rw [uint16Value, Nat.mod_eq_of_lt h4, Nat.lor_comm]

theorem getD_lt_of_forall_lt (l : List Nat) (k : Nat) (h : ∀ b ∈ l, b < 256) :
    l.getD k 0 < 256 := by
  induction l generalizing k with
  | nil => simp
  | cons a l ih =>
    cases k with
    | zero => simpa using h a (List.mem_cons_self a l)
    | succ k =>
      rw [List.getD_cons_succ]
      exact ih k (fun b hb => h b (List.mem_cons_of_mem a hb))

theorem signalCondition_congr (table : List hci_condition) (opcode status : Nat)
    (r1 r2 : List Nat) (length : Nat) (h : ∀ k, k ≤ length → r1.take k = r2.take k) :
    signalCondition table opcode status r1 length
      = signalCondition table opcode status r2 length := by
  simp only [signalCondition]
  split_ifs with hfound
  · cases hget : table.get? (scanOpcode opcode (table.take pendingCommandsCount)) with
    | none => rfl
    | some cond =>
      have hk : (if length > cond.capacity then cond.capacity else length) ≤ length := by
        split_ifs <;> omega
      simp only [h _ hk]
  · rfl

theorem map_buffer_set (table : List hci_condition) (ii : Nat) (cond new : hci_condition)
    (hget : table.get? ii = some cond) (hbuf : new.buffer = cond.buffer) :
    (table.set ii new).map (fun x => x.buffer) = table.map (fun x => x.buffer) := by
  induction table generalizing ii with
  | nil => simp
  | cons a rest ih =>
    cases ii with
    | zero =>
      simp only [List.get?_cons_zero, Option.some.injEq] at hget
      simp [hbuf, hget]
    | succ n =>
      simp only [List.get?_cons_succ] at hget
      simp only [List.set_cons_succ, List.map_cons, List.cons.injEq, true_and]
      exact ih n hget

/-- C9: for a Command Complete event with the parameter bytes `params` (at
least 4 of them, `beyond` being the accumulator bytes after the event),
`signalCondition` is called with opcode `params[1] | params[2] << 8`, status
`params[3]`, payload `params[4..]` and payload length `len - 4`. -/
theorem command_complete_signal (table : List hci_condition) (params beyond : List Nat)
    (hfour : 4 ≤ params.length) (hlen : params.length < 256)
    (hbytes : ∀ b ∈ params, b < 256) :
    hci_on_eventCommandComplete table (params ++ beyond) params.length
      = signalCondition table (params.getD 1 0 ||| (params.getD 2 0 <<< 8)) (params.getD 3 0)
          (params.drop 4) (params.length - 4) := by
  have hg : ∀ k, k < 4 → (params ++ beyond).getD k 0 = params.getD k 0 := by
    intro k hk
    exact List.getD_append params beyond 0 k (by omega)
  have hl : (params.length + (256 - sizeofCommandComplete)) % 256 = params.length - 4 := by
    simp only [sizeofCommandComplete]
    omega
  rw [hci_on_eventCommandComplete, hg 1 (by omega), hg 2 (by omega), hg 3 (by omega), hl,
    uint16Value_bytes _ _ (getD_lt_of_forall_lt params 1 hbytes)
      (getD_lt_of_forall_lt params 2 hbytes)]
  apply signalCondition_congr
  intro k hk
  simp only [sizeofCommandComplete]
  rw [List.drop_append_of_le_length hfour, List.take_append_of_le_length]
  rw [List.length_drop]
  exact hk

/-- Witness of C9: the Command Complete of `Read_Local_Version_Information`
(opcode `0x1001`, status 0, 8 return bytes) with a pending entry for it. -/
theorem command_complete_signal_witness :
    hci_on_eventCommandComplete
        ({ handle := false, opcode := 0x1001, capacity := 8, buffer := List.replicate 8 0,
           status := 0x3A, length := 0 } :: hci_initialize.tail)
        ([1, 1, 0x10, 0, 6, 0, 0, 6, 0x0D, 0, 0, 0] ++ [])
        ([1, 1, 0x10, 0, 6, 0, 0, 6, 0x0D, 0, 0, 0] : List Nat).length
      = signalCondition
          ({ handle := false, opcode := 0x1001, capacity := 8, buffer := List.replicate 8 0,
             status := 0x3A, length := 0 } :: hci_initialize.tail)
          (([1, 1, 0x10, 0, 6, 0, 0, 6, 0x0D, 0, 0, 0] : List Nat).getD 1 0
            ||| (([1, 1, 0x10, 0, 6, 0, 0, 6, 0x0D, 0, 0, 0] : List Nat).getD 2 0 <<< 8))
          (([1, 1, 0x10, 0, 6, 0, 0, 6, 0x0D, 0, 0, 0] : List Nat).getD 3 0)
          (([1, 1, 0x10, 0, 6, 0, 0, 6, 0x0D, 0, 0, 0] : List Nat).drop 4)
          (([1, 1, 0x10, 0, 6, 0, 0, 6, 0x0D, 0, 0, 0] : List Nat).length - 4) :=
  command_complete_signal _ [1, 1, 0x10, 0, 6, 0, 0, 6, 0x0D, 0, 0, 0] [] (by decide)
    (by decide) (by decide)

/-- C10: for a Command Status event with the parameter bytes `params` (at least
4 of them), `signalCondition` is called with opcode `params[2] | params[3] << 8`,
status `params[0]`, no payload and payload length 0, and no entry's buffer
changes. -/
theorem command_status_signal (table : List hci_condition) (params beyond : List Nat)
    (hfour : 4 ≤ params.length) (hbytes : ∀ b ∈ params, b < 256) :
    hci_on_eventCommandStatus table (params ++ beyond) params.length
        = signalCondition table (params.getD 2 0 ||| (params.getD 3 0 <<< 8)) (params.getD 0 0)
            [] 0
      ∧ ∀ table1, hci_on_eventCommandStatus table (params ++ beyond) params.length = some table1 →
          table1.map (fun x => x.buffer) = table.map (fun x => x.buffer) := by
  have hg : ∀ k, k < 4 → (params ++ beyond).getD k 0 = params.getD k 0 := by
    intro k hk
    exact List.getD_append params beyond 0 k (by omega)
  have hcall : hci_on_eventCommandStatus table (params ++ beyond) params.length
      = signalCondition table (params.getD 2 0 ||| (params.getD 3 0 <<< 8)) (params.getD 0 0)
          [] 0 := by
    rw [hci_on_eventCommandStatus, hg 0 (by omega), hg 2 (by omega), hg 3 (by omega),
      uint16Value_bytes _ _ (getD_lt_of_forall_lt params 2 hbytes)
        (getD_lt_of_forall_lt params 3 hbytes)]
  refine ⟨hcall, ?_⟩
  intro table1 h
  rw [hcall] at h
  simp only [signalCondition] at h
  split_ifs at h with hfound
  split at h
  · simp at h
  · rename_i cond hget
    simp only [Option.some.injEq] at h
    rw [← h]
    exact map_buffer_set table _ cond _ hget (by simp)

/-- Witness of C10: a Command Status (status 0, opcode `0xFE09`) with a pending
entry for that opcode. -/
theorem command_status_signal_witness :
    hci_on_eventCommandStatus
          ({ handle := false, opcode := 0xFE09, capacity := 2, buffer := [7, 7],
             status := 0x3A, length := 0 } :: hci_initialize.tail)
          ([0, 1, 9, 0xFE] ++ [4, 0xFF]) ([0, 1, 9, 0xFE] : List Nat).length
        = signalCondition
            ({ handle := false, opcode := 0xFE09, capacity := 2, buffer := [7, 7],
               status := 0x3A, length := 0 } :: hci_initialize.tail)
            (([0, 1, 9, 0xFE] : List Nat).getD 2 0 ||| (([0, 1, 9, 0xFE] : List Nat).getD 3 0 <<< 8))
            (([0, 1, 9, 0xFE] : List Nat).getD 0 0) [] 0
      ∧ ∀ table1,
          hci_on_eventCommandStatus
              ({ handle := false, opcode := 0xFE09, capacity := 2, buffer := [7, 7],
                 status := 0x3A, length := 0 } :: hci_initialize.tail)
              ([0, 1, 9, 0xFE] ++ [4, 0xFF]) ([0, 1, 9, 0xFE] : List Nat).length = some table1 →
            table1.map (fun x => x.buffer)
              = (({ handle := false, opcode := 0xFE09, capacity := 2, buffer := [7, 7],
                    status := 0x3A, length := 0 } : hci_condition)
                  :: hci_initialize.tail).map (fun x => x.buffer) :=
  command_status_signal _ [0, 1, 9, 0xFE] [4, 0xFF] (by decide) (by decide)

/-! ## Command correlator: the scan -/

theorem scanOpcode_of_first (opcode : Nat) :
    ∀ (l : List hci_condition) (ii : Nat) (c : hci_condition),
      l[ii]? = some c → c.opcode = opcode →
      (∀ j c1, j < ii → l[j]? = some c1 → c1.opcode ≠ opcode) →
      scanOpcode opcode l = ii := by
  intro l
  induction l with
  | nil => intro ii c h; simp at h
  | cons a l ih =>
    intro ii c hget hop hfirst
    cases ii with
    | zero =>
      simp only [List.getElem?_cons_zero, Option.some.injEq] at hget
      simp [scanOpcode, hget, hop]
    | succ n =>
      simp only [List.getElem?_cons_succ] at hget
      have ha : ¬ opcode = a.opcode := fun e => hfirst 0 a (by omega) (by simp) e.symm
      simp only [scanOpcode, if_neg ha, Nat.add_right_cancel_iff]
      exact ih n c hget hop (fun j c1 hj hc1 => hfirst (j + 1) c1 (by omega) (by simpa using hc1))

theorem scanOpcode_of_none (opcode : Nat) (l : List hci_condition)
    (h : ∀ c ∈ l, c.opcode ≠ opcode) : scanOpcode opcode l = l.length := by
  induction l with
  | nil => rfl
  | cons a l ih =>
    have ha : ¬ opcode = a.opcode := fun e => h a (List.mem_cons_self a l) e.symm
    simp only [scanOpcode, if_neg ha, List.length_cons, Nat.add_right_cancel_iff]
    exact ih (fun c hc => h c (List.mem_cons_of_mem a hc))

theorem scanOpcode_eq_length (opcode : Nat) (l : List hci_condition)
    (h : scanOpcode opcode l = l.length) : ∀ c ∈ l, c.opcode ≠ opcode := by
  induction l with
  | nil => intro c hc; simp at hc
  | cons a l ih =>
    by_cases ha : opcode = a.opcode
    · simp [scanOpcode, ha] at h
    · rw [scanOpcode, if_neg ha, List.length_cons] at h
      intro c hc
      rcases List.mem_cons.mp hc with rfl | hmem
      · exact fun e => ha e.symm
      · exact ih (by omega) c hmem

theorem scanOpcode_le (opcode : Nat) (l : List hci_condition) :
    scanOpcode opcode l ≤ l.length := by
  induction l with
  | nil => simp [scanOpcode]
  | cons a l ih =>
    simp only [scanOpcode, List.length_cons]
    split_ifs <;> omega

theorem scanOpcode_found (opcode : Nat) (l : List hci_condition)
    (h : scanOpcode opcode l ≠ l.length) :
    ∃ c, l[scanOpcode opcode l]? = some c ∧ c.opcode = opcode := by
  induction l with
  | nil => simp [scanOpcode] at h
  | cons a l ih =>
    simp only [scanOpcode] at h ⊢
    split_ifs with ha
    · exact ⟨a, by simp, ha.symm⟩
    · rw [if_neg ha] at h
      simp only [List.length_cons, ne_eq, Nat.add_right_cancel_iff] at h
      obtain ⟨c, hc, hop⟩ := ih h
      exact ⟨c, by simpa using hc, hop⟩

theorem scanOpcode_before (opcode : Nat) :
    ∀ (l : List hci_condition) (j : Nat) (c1 : hci_condition),
      j < scanOpcode opcode l → l[j]? = some c1 → c1.opcode ≠ opcode := by
  intro l
  induction l with
  | nil => intro j c1 hj; simp [scanOpcode] at hj
  | cons a l ih =>
    intro j c1 hj hget
    by_cases ha : opcode = a.opcode
    · simp [scanOpcode, ha] at hj
    · rw [scanOpcode, if_neg ha] at hj
      cases j with
      | zero =>
        simp only [List.getElem?_cons_zero, Option.some.injEq] at hget
        rw [← hget]
        exact fun e => ha e.symm
      | succ n =>
        simp only [List.getElem?_cons_succ] at hget
        exact ih n c1 (by omega) hget

theorem take_pendingCommands (table : List hci_condition)
    (hlen : table.length = pendingCommandsCount) : table.take pendingCommandsCount = table :=
  List.take_of_length_le (by omega)

/-! ## Command correlator: the claims -/

theorem allocateCondition_at (table : List hci_condition) (opcode : Nat) (buf : List Nat)
    (cap : Nat) (hlen : table.length = pendingCommandsCount) (ii : Nat) (c : hci_condition)
    (hget : table[ii]? = some c) (hzero : c.opcode = 0)
    (hfirst : ∀ j c1, j < ii → table[j]? = some c1 → c1.opcode ≠ 0) :
    allocateCondition table opcode buf cap
      = (table.set ii { handle := false, opcode := opcode, capacity := cap, buffer := buf,
                        status := HCI_CONTROLLER_BUSY, length := 0 }, some ii) := by
  have hscan := scanOpcode_of_first 0 table ii c hget hzero hfirst
  have hlt : ii < table.length := by
    rcases Nat.lt_or_ge ii table.length with h | h
    · exact h
    · rw [List.getElem?_eq_none h] at hget
      simp at hget
  rw [allocateCondition, take_pendingCommands table hlen]
  simp only [hscan]
  rw [if_neg (by omega)]

/-- C12: on the 4-entry table, `allocateCondition(opcode, buf, cap)` claims the
lowest-index entry `ii` whose opcode is 0: that entry becomes
`{opcode, buffer = buf, capacity = cap, length = 0, status = HCI_CONTROLLER_BUSY}`
with its condition reset, every other entry is unchanged and the entry is
returned; it returns `NULL` exactly when no entry has opcode 0, and then the
table is unchanged. -/
theorem allocateCondition_claims_first_free (table : List hci_condition) (opcode : Nat)
    (buf : List Nat) (cap : Nat) (hlen : table.length = pendingCommandsCount) :
    (∀ ii c, table[ii]? = some c → c.opcode = 0 →
        (∀ j c1, j < ii → table[j]? = some c1 → c1.opcode ≠ 0) →
        allocateCondition table opcode buf cap
          = (table.set ii { handle := false, opcode := opcode, capacity := cap, buffer := buf,
                            status := HCI_CONTROLLER_BUSY, length := 0 }, some ii))
      ∧ ((allocateCondition table opcode buf cap).2 = none ↔ ∀ c ∈ table, c.opcode ≠ 0)
      ∧ ((allocateCondition table opcode buf cap).2 = none →
          (allocateCondition table opcode buf cap).1 = table) := by
  refine ⟨?_, ?_, ?_⟩
  · intro ii c hget hzero hfirst
    exact allocateCondition_at table opcode buf cap hlen ii c hget hzero hfirst
  · rw [allocateCondition, take_pendingCommands table hlen]
    by_cases h : pendingCommandsCount = scanOpcode 0 table
    · rw [if_pos h]
      simp only [true_iff]
      exact scanOpcode_eq_length 0 table (by omega)
    · rw [if_neg h]
      simp only [reduceCtorEq, false_iff, not_forall]
      have hne : scanOpcode 0 table ≠ table.length := by omega
      obtain ⟨c, hc, hop⟩ := scanOpcode_found 0 table hne
      exact ⟨c, List.getElem?_mem hc, by simpa using hop⟩
  · intro h
    rw [allocateCondition] at h ⊢
    by_cases h1 : pendingCommandsCount = scanOpcode 0 (List.take pendingCommandsCount table)
    · rw [if_pos h1]
    · rw [if_neg h1] at h
      simp at h

/-- Witness of C12: the table `hci_initialize` leaves, with its first entry taken. -/
theorem allocateCondition_claims_first_free_witness :
    (∀ ii c,
        ({ handle := false, opcode := 0x0C03, capacity := 0, buffer := [],
           status := HCI_CONTROLLER_BUSY, length := 0 } :: hci_initialize.tail)[ii]? = some c →
        c.opcode = 0 →
        (∀ j c1, j < ii →
          ({ handle := false, opcode := 0x0C03, capacity := 0, buffer := [],
             status := HCI_CONTROLLER_BUSY, length := 0 } :: hci_initialize.tail)[j]? = some c1 →
          c1.opcode ≠ 0) →
        allocateCondition
            ({ handle := false, opcode := 0x0C03, capacity := 0, buffer := [],
               status := HCI_CONTROLLER_BUSY, length := 0 } :: hci_initialize.tail)
            0x1001 (List.replicate 8 0) 8
          = (({ handle := false, opcode := 0x0C03, capacity := 0, buffer := [],
                status := HCI_CONTROLLER_BUSY, length := 0 } :: hci_initialize.tail).set ii
               { handle := false, opcode := 0x1001, capacity := 8, buffer := List.replicate 8 0,
                 status := HCI_CONTROLLER_BUSY, length := 0 }, some ii))
      ∧ ((allocateCondition
            ({ handle := false, opcode := 0x0C03, capacity := 0, buffer := [],
               status := HCI_CONTROLLER_BUSY, length := 0 } :: hci_initialize.tail)
            0x1001 (List.replicate 8 0) 8).2 = none
          ↔ ∀ c ∈ ({ handle := false, opcode := 0x0C03, capacity := 0, buffer := [],
                     status := HCI_CONTROLLER_BUSY, length := 0 } :: hci_initialize.tail),
              c.opcode ≠ 0)
      ∧ ((allocateCondition
            ({ handle := false, opcode := 0x0C03, capacity := 0, buffer := [],
               status := HCI_CONTROLLER_BUSY, length := 0 } :: hci_initialize.tail)
            0x1001 (List.replicate 8 0) 8).2 = none →
          (allocateCondition
            ({ handle := false, opcode := 0x0C03, capacity := 0, buffer := [],
               status := HCI_CONTROLLER_BUSY, length := 0 } :: hci_initialize.tail)
            0x1001 (List.replicate 8 0) 8).1
            = ({ handle := false, opcode := 0x0C03, capacity := 0, buffer := [],
                 status := HCI_CONTROLLER_BUSY, length := 0 } :: hci_initialize.tail)) :=
  allocateCondition_claims_first_free _ 0x1001 (List.replicate 8 0) 8 (by decide)

theorem signalCondition_at (table : List hci_condition) (opcode status : Nat)
    (payload : List Nat) (n : Nat) (hlen : table.length = pendingCommandsCount)
    (hn : n ≤ payload.length) (ii : Nat) (c : hci_condition)
    (hget : table[ii]? = some c) (hop : c.opcode = opcode)
    (hfirst : ∀ j c1, j < ii → table[j]? = some c1 → c1.opcode ≠ opcode) :
    signalCondition table opcode status payload n
      = some (table.set ii
          { handle := true, opcode := c.opcode, capacity := c.capacity,
            buffer := payload.take (min n c.capacity) ++ c.buffer.drop (min n c.capacity),
            status := status, length := min n c.capacity }) := by
  have hscan := scanOpcode_of_first opcode table ii c hget hop hfirst
  have hlt : ii < table.length := by
    rcases Nat.lt_or_ge ii table.length with h | h
    · exact h
    · rw [List.getElem?_eq_none h] at hget
      simp at hget
  rw [signalCondition, take_pendingCommands table hlen]
  simp only [hscan, List.get?_eq_getElem?, hget]
  rw [if_pos (by omega)]
  by_cases hcap : n > c.capacity
  · have hmin : min n c.capacity = c.capacity := by omega
    simp only [if_pos hcap, hmin]
    by_cases hzero : c.capacity = 0
    · simp [hzero]
    · have htake : (payload.take c.capacity).length = c.capacity := by
        rw [List.length_take]; omega
      simp [hzero, memcpyAt, htake]
  · have hmin : min n c.capacity = n := by omega
    simp only [if_neg hcap, hmin]
    by_cases hzero : n = 0
    · simp [hzero]
    · have htake : (payload.take n).length = n := by
        rw [List.length_take]; omega
      simp [hzero, memcpyAt, htake]

/-- C14: on the 4-entry table, when `ii` is the lowest-index entry bearing the
opcode, `signalCondition(opcode, status, payload, n)` (with `n` payload bytes
present) copies the first `min(n, capacity)` payload bytes to the start of that
entry's buffer, records that length and the status, signals the entry's
condition, keeps the entry's opcode and capacity and leaves every other entry
unchanged; when no entry bears the opcode it fails its assertion. -/
theorem signalCondition_first_bearing (table : List hci_condition) (opcode status : Nat)
    (payload : List Nat) (n : Nat) (hlen : table.length = pendingCommandsCount)
    (hn : n ≤ payload.length) :
    (∀ ii c, table[ii]? = some c → c.opcode = opcode →
        (∀ j c1, j < ii → table[j]? = some c1 → c1.opcode ≠ opcode) →
        signalCondition table opcode status payload n
          = some (table.set ii
              { handle := true, opcode := c.opcode, capacity := c.capacity,
                buffer := payload.take (min n c.capacity) ++ c.buffer.drop (min n c.capacity),
                status := status, length := min n c.capacity }))
      ∧ ((∀ c ∈ table, c.opcode ≠ opcode) →
          signalCondition table opcode status payload n = none) := by
  refine ⟨?_, ?_⟩
  · intro ii c hget hop hfirst
    exact signalCondition_at table opcode status payload n hlen hn ii c hget hop hfirst
  · intro hnone
    have hscan := scanOpcode_of_none opcode table hnone
    rw [signalCondition, take_pendingCommands table hlen]
    simp only [hscan]
    rw [if_neg (by omega)]

/-- Witness of C14: 8 payload bytes for an entry of capacity 4. -/
theorem signalCondition_first_bearing_witness :
    (∀ ii c,
        ({ handle := false, opcode := 0x1001, capacity := 4, buffer := [9, 9, 9, 9, 9],
           status := HCI_CONTROLLER_BUSY, length := 0 } :: hci_initialize.tail)[ii]? = some c →
        c.opcode = 0x1001 →
        (∀ j c1, j < ii →
          ({ handle := false, opcode := 0x1001, capacity := 4, buffer := [9, 9, 9, 9, 9],
             status := HCI_CONTROLLER_BUSY, length := 0 } :: hci_initialize.tail)[j]? = some c1 →
          c1.opcode ≠ 0x1001) →
        signalCondition
            ({ handle := false, opcode := 0x1001, capacity := 4, buffer := [9, 9, 9, 9, 9],
               status := HCI_CONTROLLER_BUSY, length := 0 } :: hci_initialize.tail)
            0x1001 0 [6, 0, 0, 6, 0x0D, 0, 0, 0] 8
          = some (({ handle := false, opcode := 0x1001, capacity := 4, buffer := [9, 9, 9, 9, 9],
                     status := HCI_CONTROLLER_BUSY, length := 0 } :: hci_initialize.tail).set ii
              { handle := true, opcode := c.opcode, capacity := c.capacity,
                buffer := ([6, 0, 0, 6, 0x0D, 0, 0, 0] : List Nat).take (min 8 c.capacity)
                  ++ c.buffer.drop (min 8 c.capacity),
                status := 0, length := min 8 c.capacity }))
      ∧ ((∀ c ∈ ({ handle := false, opcode := 0x1001, capacity := 4, buffer := [9, 9, 9, 9, 9],
                   status := HCI_CONTROLLER_BUSY, length := 0 } :: hci_initialize.tail),
            c.opcode ≠ 0x1001) →
          signalCondition
            ({ handle := false, opcode := 0x1001, capacity := 4, buffer := [9, 9, 9, 9, 9],
               status := HCI_CONTROLLER_BUSY, length := 0 } :: hci_initialize.tail)
            0x1001 0 [6, 0, 0, 6, 0x0D, 0, 0, 0] 8 = none) :=
  signalCondition_first_bearing _ 0x1001 0 [6, 0, 0, 6, 0x0D, 0, 0, 0] 8 (by decide) (by decide)

/-- C15: when the entry's condition is signalled, `waitForCondition` returns
the recorded status, stores the recorded length behind the out-pointer and
sets the entry's opcode to 0, leaving the rest of the table as it is; when it
is not (the wait times out) it returns `HCI_CONTROLLER_BUSY` and leaves the
table and the value behind the out-pointer as they are. -/
theorem waitForCondition_result (table : List hci_condition) (ii : Nat) (c : hci_condition)
    (outLength : Nat) (hget : table[ii]? = some c) :
    (c.handle = true →
        waitForCondition table (some ii) outLength
          = some (table.set ii
              { handle := c.handle, opcode := 0, capacity := c.capacity, buffer := c.buffer,
                status := c.status, length := c.length }, c.status, c.length))
      ∧ (c.handle = false →
          waitForCondition table (some ii) outLength
            = some (table, HCI_CONTROLLER_BUSY, outLength)) := by
  constructor
  · intro h
    simp [waitForCondition, hget, h]
  · intro h
    simp [waitForCondition, hget, h]

/-- Witness of C15: an entry signalled with status 0 and 4 recorded bytes. -/
theorem waitForCondition_result_witness :
    ((({ handle := true, opcode := 0x1001, capacity := 4, buffer := [6, 0, 0, 6],
         status := 0, length := 4 } : hci_condition).handle = true →
        waitForCondition
            ({ handle := true, opcode := 0x1001, capacity := 4, buffer := [6, 0, 0, 6],
               status := 0, length := 4 } :: hci_initialize.tail) (some 0) 0
          = some (({ handle := true, opcode := 0x1001, capacity := 4, buffer := [6, 0, 0, 6],
                     status := 0, length := 4 } :: hci_initialize.tail).set 0
              { handle := true, opcode := 0, capacity := 4, buffer := [6, 0, 0, 6],
                status := 0, length := 4 }, 0, 4))
      ∧ (({ handle := true, opcode := 0x1001, capacity := 4, buffer := [6, 0, 0, 6],
            status := 0, length := 4 } : hci_condition).handle = false →
          waitForCondition
              ({ handle := true, opcode := 0x1001, capacity := 4, buffer := [6, 0, 0, 6],
                 status := 0, length := 4 } :: hci_initialize.tail) (some 0) 0
            = some (({ handle := true, opcode := 0x1001, capacity := 4, buffer := [6, 0, 0, 6],
                       status := 0, length := 4 } :: hci_initialize.tail),
                    HCI_CONTROLLER_BUSY, 0))) :=
  waitForCondition_result _ 0 _ 0 rfl

/-- C16 at the failing input: an entry is allocated for opcode `0x1001` with an
8-byte buffer, the wait on it times out (the entry keeps its opcode), and a
later `signalCondition` for `0x1001` does not fail its assertion: it returns,
with the payload written into that caller's buffer. -/
theorem late_signal_written_after_timeout :
    allocateCondition hci_initialize 0x1001 (List.replicate 8 0) 8
        = ({ handle := false, opcode := 0x1001, capacity := 8, buffer := List.replicate 8 0,
             status := HCI_CONTROLLER_BUSY, length := 0 } :: hci_initialize.tail, some 0)
      ∧ waitForCondition
          ({ handle := false, opcode := 0x1001, capacity := 8, buffer := List.replicate 8 0,
             status := HCI_CONTROLLER_BUSY, length := 0 } :: hci_initialize.tail) (some 0) 0
        = some ({ handle := false, opcode := 0x1001, capacity := 8, buffer := List.replicate 8 0,
                  status := HCI_CONTROLLER_BUSY, length := 0 } :: hci_initialize.tail,
                HCI_CONTROLLER_BUSY, 0)
      ∧ signalCondition
          ({ handle := false, opcode := 0x1001, capacity := 8, buffer := List.replicate 8 0,
             status := HCI_CONTROLLER_BUSY, length := 0 } :: hci_initialize.tail)
          0x1001 0 [6, 0, 0, 6, 0x0D, 0, 0, 0] 8
        = some ({ handle := true, opcode := 0x1001, capacity := 8,
                  buffer := [6, 0, 0, 6, 0x0D, 0, 0, 0], status := 0, length := 8 }
                :: hci_initialize.tail) := by
  refine ⟨?_, ?_, ?_⟩
  · rfl
  · rfl
  · rfl

/-! ## Command correlator: distinct opcodes -/

theorem filter_set_zero_sublist (l : List Nat) :
    ∀ i, ((l.set i 0).filter (fun x => x ≠ 0)).Sublist (l.filter (fun x => x ≠ 0)) := by
  induction l with
  | nil => intro i; simp
  | cons a l ih =>
    intro i
    cases i with
    | zero =>
      simp only [List.set_cons_zero]
      by_cases ha : a = 0
      · simp [ha]
      · simp [ha]
    | succ n =>
      simp only [List.set_cons_succ]
      by_cases ha : a = 0
      · simpa [ha] using ih n
      · simpa [ha] using ih n

theorem nodup_set_zero (l : List Nat) (i : Nat)
    (h : (l.filter (fun x => x ≠ 0)).Nodup) : ((l.set i 0).filter (fun x => x ≠ 0)).Nodup :=
  List.Nodup.sublist (filter_set_zero_sublist l i) h

theorem nodup_set_new (x : Nat) :
    ∀ (l : List Nat) (i : Nat), l[i]? = some 0 → x ∉ l →
      (l.filter (fun y => y ≠ 0)).Nodup → ((l.set i x).filter (fun y => y ≠ 0)).Nodup := by
  intro l
  induction l with
  | nil => intro i h; simp at h
  | cons a l ih =>
    intro i hget hx hnd
    have hxa : x ≠ a := fun e => hx (by simp [e])
    have hxl : x ∉ l := fun e => hx (List.mem_cons_of_mem a e)
    cases i with
    | zero =>
      simp only [List.getElem?_cons_zero, Option.some.injEq] at hget
      subst hget
      rw [List.filter_cons_of_neg (by simp)] at hnd
      rw [List.set_cons_zero]
      by_cases hx0 : x = 0
      · rw [List.filter_cons_of_neg (by simp [hx0])]
        exact hnd
      · rw [List.filter_cons_of_pos (by simp [hx0])]
        exact List.nodup_cons.mpr ⟨fun hmem => hxl (List.mem_of_mem_filter hmem), hnd⟩
    | succ n =>
      simp only [List.getElem?_cons_succ] at hget
      rw [List.set_cons_succ]
      by_cases ha : a = 0
      · rw [List.filter_cons_of_neg (by simp [ha])] at hnd ⊢
        exact ih n hget hxl hnd
      · rw [List.filter_cons_of_pos (by simp [ha])] at hnd ⊢
        obtain ⟨hnotin, hrest⟩ := List.nodup_cons.mp hnd
        refine List.nodup_cons.mpr ⟨?_, ih n hget hxl hrest⟩
        intro hmem
        rcases List.mem_or_eq_of_mem_set (List.mem_of_mem_filter hmem) with h1 | h1
        · exact hnotin (List.mem_filter.mpr ⟨h1, by simp [ha]⟩)
        · exact hxa h1.symm

theorem set_getElem?_same {α : Type} :
    ∀ (l : List α) (i : Nat) (v : α), l[i]? = some v → l.set i v = l := by
  intro l
  induction l with
  | nil => intro i v h; simp
  | cons a l ih =>
    intro i v h
    cases i with
    | zero =>
      simp only [List.getElem?_cons_zero, Option.some.injEq] at h
      simp [h]
    | succ n =>
      simp only [List.getElem?_cons_succ] at h
      simp [ih n v h]

theorem distinctOpcodes_set_same (table : List hci_condition) (ii : Nat) (c new : hci_condition)
    (hget : table[ii]? = some c) (hop : new.opcode = c.opcode) (h : distinctOpcodes table) :
    distinctOpcodes (table.set ii new) := by
  have hmap : (table.map (fun c => c.opcode))[ii]? = some new.opcode := by
    simp [hget, hop]
  unfold distinctOpcodes at h ⊢
  rw [List.map_set, set_getElem?_same _ _ _ hmap]
  exact h

theorem distinctOpcodes_set_zero (table : List hci_condition) (ii : Nat) (new : hci_condition)
    (hop : new.opcode = 0) (h : distinctOpcodes table) : distinctOpcodes (table.set ii new) := by
  unfold distinctOpcodes at h ⊢
  rw [List.map_set, hop]
  exact nodup_set_zero _ ii h

theorem distinctOpcodes_set_new (table : List hci_condition) (ii : Nat) (c new : hci_condition)
    (hget : table[ii]? = some c) (hzero : c.opcode = 0)
    (hfresh : ∀ c1 ∈ table, c1.opcode ≠ new.opcode) (h : distinctOpcodes table) :
    distinctOpcodes (table.set ii new) := by
  unfold distinctOpcodes at h ⊢
  rw [List.map_set]
  refine nodup_set_new new.opcode _ ii (by simp [hget, hzero]) ?_ h
  intro hmem
  obtain ⟨c1, hc1, hop⟩ := List.mem_map.mp hmem
  exact hfresh c1 hc1 hop

theorem runCall_distinct (table : List hci_condition) (call : CorrelatorCall)
    (table1 : List hci_condition) (hlen : table.length = pendingCommandsCount)
    (hd : distinctOpcodes table) (hfresh : freshCall table call = true)
    (h : runCall table call = some table1) :
    table1.length = pendingCommandsCount ∧ distinctOpcodes table1 := by
  cases call with
  | allocate opcode result capacity =>
    simp only [freshCall, Bool.or_eq_true, beq_iff_eq, List.all_eq_true, bne_iff_ne,
      ne_eq] at hfresh
    simp only [runCall, Option.some.injEq] at h
    rw [allocateCondition, take_pendingCommands table hlen] at h
    by_cases hfull : pendingCommandsCount = scanOpcode 0 table
    · rw [if_pos hfull] at h
      simp only at h
      rw [← h]
      exact ⟨hlen, hd⟩
    · rw [if_neg hfull] at h
      simp only at h
      obtain ⟨c, hc, hop⟩ := scanOpcode_found 0 table (by omega)
      rw [← h]
      refine ⟨by simpa using hlen, ?_⟩
      rcases hfresh with hz | hne
      · exact distinctOpcodes_set_zero table _ _ hz hd
      · exact distinctOpcodes_set_new table _ c _ hc hop hne hd
  | signal opcode status result length =>
    simp only [runCall, signalCondition] at h
    split_ifs at h with hfound
    split at h
    · simp at h
    · rename_i cond hget
      simp only [Option.some.injEq] at h
      rw [← h]
      exact ⟨by simpa using hlen,
        distinctOpcodes_set_same table _ cond _ (by simpa using hget) rfl hd⟩
  | wait cond =>
    simp only [runCall, waitForCondition] at h
    split at h
    · simp at h
    · rename_i c hget
      by_cases hs : c.handle = true
      · simp only [hs, if_true, Option.map_some', Option.some.injEq] at h
        rw [← h]
        exact ⟨by simpa using hlen, distinctOpcodes_set_zero table _ _ rfl hd⟩
      · simp only [hs, Bool.false_eq_true, if_false, Option.map_some', Option.some.injEq] at h
        rw [← h]
        exact ⟨hlen, hd⟩
  | release opcode =>
    simp only [runCall, releaseCondition] at h
    split_ifs at h with hfound
    split at h
    · simp at h
    · simp only [Option.some.injEq] at h
      rw [← h]
      exact ⟨by simpa using hlen, distinctOpcodes_set_zero table _ _ rfl hd⟩

theorem runCalls_distinct :
    ∀ (calls : List CorrelatorCall) (table table1 : List hci_condition),
      table.length = pendingCommandsCount → distinctOpcodes table →
      freshAllocations table calls = true → runCalls table calls = some table1 →
      distinctOpcodes table1 := by
  intro calls
  induction calls with
  | nil =>
    intro table table1 _ hd _ h
    simp only [runCalls, Option.some.injEq] at h
    rw [← h]
    exact hd
  | cons call rest ih =>
    intro table table1 hlen hd hfresh h
    rw [runCalls] at h
    rw [freshAllocations, Bool.and_eq_true] at hfresh
    cases hcall : runCall table call with
    | none => simp [hcall] at h
    | some table2 =>
      simp only [hcall] at h hfresh
      obtain ⟨hlen2, hd2⟩ := runCall_distinct table call table2 hlen hd hfresh.1 hcall
      exact ih table2 table1 hlen2 hd2 hfresh.2 h

/-- What the four functions do keep: in every table reached from
`hci_initialize` by calls of `allocateCondition`, `signalCondition`,
`waitForCondition` and `releaseCondition` in which no `allocateCondition` is
made with a non-zero opcode that an entry bears at that moment, the non-zero
opcodes of the entries are pairwise distinct.  The functions do not check this
condition on the calls themselves. -/
theorem distinct_opcodes_invariant (calls : List CorrelatorCall) (table : List hci_condition)
    (hfresh : freshAllocations hci_initialize calls = true)
    (h : runCalls hci_initialize calls = some table) : distinctOpcodes table :=
  runCalls_distinct calls hci_initialize table rfl (by decide) hfresh h

/-! ## Dispatcher: LE Meta events -/

/-- C11 at the failing input: on a session whose adapter is the TI table
(`on_metaEvent = NULL`), the dispatcher of an LE Meta event (`0x3E`) calls
through the null pointer and does not return, whatever the event bytes; with
no adapter the event is consumed and the state is unchanged, and with the ST
table the event goes to `lb_on_metaEvent_ST`. -/
theorem meta_event_calls_null_handler
    (vendorEvent : Adapter → Shared → List Nat → Nat → Option Shared) (s : Shared)
    (ptr : List Nat) (len : Nat) :
    on_metaEvent Adapter.TI = none
      ∧ dispatchEvent vendorEvent (some Adapter.TI) s 0x3E ptr len = none
      ∧ dispatchEvent vendorEvent none s 0x3E ptr len = some s
      ∧ dispatchEvent vendorEvent (some Adapter.ST) s 0x3E ptr len
          = lb_on_metaEvent_ST s ptr len := by
  refine ⟨rfl, ?_, ?_, ?_⟩
  · simp [dispatchEvent, on_metaEvent]
  · simp [dispatchEvent]
  · simp [dispatchEvent, on_metaEvent]

/-! ## GATT operations: the connection guard -/

/-- C20: for a device whose connection handle is `INVALID_CONNECTION_HANDLE`,
`lb_writeCharValue`, `lb_readCharValue` and `lb_startServiceDiscovery` return
`LB_DEVICE_NOT_CONNECTED` and leave the whole session as it is: no command is
sent, and the device's pending operation, its pending-read descriptor and the
command table are unchanged (the caller's buffer and out-length too). -/
theorem not_connected_guard (io : IoThread) (s : Host) (dev : Nat) (device : LB_Device)
    (attributeHandle : Nat) (attributeValue : List Nat)
    (attributeLength attributeCapacity outLength : Nat)
    (hdev : s.shared.device[dev]? = some device)
    (hfree : device.connectionHandle = INVALID_CONNECTION_HANDLE) :
    lb_writeCharValue io s dev attributeHandle attributeValue attributeLength
        = some (s, LB_STATUS.LB_DEVICE_NOT_CONNECTED)
      ∧ lb_readCharValue io s dev attributeHandle attributeValue attributeCapacity outLength
        = some (s, LB_STATUS.LB_DEVICE_NOT_CONNECTED, attributeValue, outLength)
      ∧ lb_startServiceDiscovery io s dev = some (s, LB_STATUS.LB_DEVICE_NOT_CONNECTED) := by
  have hconn : isDeviceConnected device = false := by
    simp [isDeviceConnected, hfree]
  refine ⟨?_, ?_, ?_⟩
  · simp [lb_writeCharValue, hdev, hconn]
  · simp [lb_readCharValue, hdev, hconn]
  · simp [lb_startServiceDiscovery, hdev, hconn]

/-- Witness of C20: the first device entry of a fresh session, with the adapter
resolved to TI. -/
theorem not_connected_guard_witness :
    lb_writeCharValue (ioAcknowledge []) { sessionStart with vendorFunctions := some Adapter.TI }
          0 0x25 [0, 0] 2
        = some ({ sessionStart with vendorFunctions := some Adapter.TI },
                LB_STATUS.LB_DEVICE_NOT_CONNECTED)
      ∧ lb_readCharValue (ioAcknowledge []) { sessionStart with vendorFunctions := some Adapter.TI }
          0 0x25 [0, 0] 2 0
        = some ({ sessionStart with vendorFunctions := some Adapter.TI },
                LB_STATUS.LB_DEVICE_NOT_CONNECTED, [0, 0], 0)
      ∧ lb_startServiceDiscovery (ioAcknowledge [])
          { sessionStart with vendorFunctions := some Adapter.TI } 0
        = some ({ sessionStart with vendorFunctions := some Adapter.TI },
                LB_STATUS.LB_DEVICE_NOT_CONNECTED) :=
  not_connected_guard (ioAcknowledge []) { sessionStart with vendorFunctions := some Adapter.TI }
    0 freeDevice 0x25 [0, 0] 2 2 0 rfl rfl

/-! ## Command exchange -/

theorem lb_executeCommand_null_slot (io : IoThread) (s : Host) (command : List Nat)
    (commandLength : Nat) (response : List Nat) (maxResponseLength : Nat)
    (hfull : (allocateCondition s.shared.pendingCommands
      ((((command.getD 2 0) <<< 8) ||| command.getD 1 0) % 65536) response
      maxResponseLength).2 = none) :
    lb_executeCommand io s command commandLength response maxResponseLength = none := by
  unfold lb_executeCommand
  split_ifs with hlen
  · simp only [hfull]
    split
    · rfl
    · simp [waitForCondition]
  · rfl

/-- C17 at the failing input: with all 4 entries held (opcodes `0xFE00`,
`0xFE04`, `0xFD8A`, `0xFD92`), `allocateCondition` returns `NULL` for a fifth
command and `lb_executeCommand` does not return `LB_FAILURE`: after sending the
command it reads through the null pointer in `waitForCondition`, whatever the
I/O thread does.  Once the first entry has been signalled and waited on, the
same command gets an entry and returns `LB_OK` when it is acknowledged. -/
theorem fifth_command_reads_null_slot :
    runCalls hci_initialize
        [CorrelatorCall.allocate 0xFE00 [] 0, CorrelatorCall.allocate 0xFE04 [] 0,
         CorrelatorCall.allocate 0xFD8A [] 0, CorrelatorCall.allocate 0xFD92 [] 0]
      = some [{ handle := false, opcode := 0xFE00, capacity := 0, buffer := [],
                status := HCI_CONTROLLER_BUSY, length := 0 },
              { handle := false, opcode := 0xFE04, capacity := 0, buffer := [],
                status := HCI_CONTROLLER_BUSY, length := 0 },
              { handle := false, opcode := 0xFD8A, capacity := 0, buffer := [],
                status := HCI_CONTROLLER_BUSY, length := 0 },
              { handle := false, opcode := 0xFD92, capacity := 0, buffer := [],
                status := HCI_CONTROLLER_BUSY, length := 0 }]
    ∧ (∀ io : IoThread,
        lb_executeCommand io
          { sessionStart with
            shared := { sessionStart.shared with
              pendingCommands :=
                [{ handle := false, opcode := 0xFE00, capacity := 0, buffer := [],
                   status := HCI_CONTROLLER_BUSY, length := 0 },
                 { handle := false, opcode := 0xFE04, capacity := 0, buffer := [],
                   status := HCI_CONTROLLER_BUSY, length := 0 },
                 { handle := false, opcode := 0xFD8A, capacity := 0, buffer := [],
                   status := HCI_CONTROLLER_BUSY, length := 0 },
                 { handle := false, opcode := 0xFD92, capacity := 0, buffer := [],
                   status := HCI_CONTROLLER_BUSY, length := 0 }] } }
          CMD_RESET 4 [] 0 = none)
    ∧ runCalls
        [{ handle := false, opcode := 0xFE00, capacity := 0, buffer := [],
           status := HCI_CONTROLLER_BUSY, length := 0 },
         { handle := false, opcode := 0xFE04, capacity := 0, buffer := [],
           status := HCI_CONTROLLER_BUSY, length := 0 },
         { handle := false, opcode := 0xFD8A, capacity := 0, buffer := [],
           status := HCI_CONTROLLER_BUSY, length := 0 },
         { handle := false, opcode := 0xFD92, capacity := 0, buffer := [],
           status := HCI_CONTROLLER_BUSY, length := 0 }]
        [CorrelatorCall.signal 0xFE00 0 [] 0, CorrelatorCall.wait 0]
      = some [{ handle := true, opcode := 0, capacity := 0, buffer := [],
                status := 0, length := 0 },
              { handle := false, opcode := 0xFE04, capacity := 0, buffer := [],
                status := HCI_CONTROLLER_BUSY, length := 0 },
              { handle := false, opcode := 0xFD8A, capacity := 0, buffer := [],
                status := HCI_CONTROLLER_BUSY, length := 0 },
              { handle := false, opcode := 0xFD92, capacity := 0, buffer := [],
                status := HCI_CONTROLLER_BUSY, length := 0 }]
    ∧ (lb_executeCommand (ioAcknowledge [])
          { sessionStart with
            shared := { sessionStart.shared with
              pendingCommands :=
                [{ handle := true, opcode := 0, capacity := 0, buffer := [],
                   status := 0, length := 0 },
                 { handle := false, opcode := 0xFE04, capacity := 0, buffer := [],
                   status := HCI_CONTROLLER_BUSY, length := 0 },
                 { handle := false, opcode := 0xFD8A, capacity := 0, buffer := [],
                   status := HCI_CONTROLLER_BUSY, length := 0 },
                 { handle := false, opcode := 0xFD92, capacity := 0, buffer := [],
                   status := HCI_CONTROLLER_BUSY, length := 0 }] } }
          CMD_RESET 4 [] 0).map (fun r => r.2.1) = some LB_STATUS.LB_OK := by
  refine ⟨rfl, ?_, rfl, rfl⟩
  intro io
  exact lb_executeCommand_null_slot io _ _ _ _ _ rfl

theorem lb_executeCommand_frame (io : IoThread) (s : Host) (command : List Nat)
    (commandLength : Nat) (response : List Nat) (maxResponseLength : Nat) (s1 : Host)
    (status : LB_STATUS) (response1 : List Nat)
    (h : lb_executeCommand io s command commandLength response maxResponseLength
      = some (s1, status, response1)) :
    s1.vendorFunctions = s.vendorFunctions ∧ s1.manufacturerId = s.manufacturerId
      ∧ s1.wire = s.wire ++ [command.take commandLength] := by
  unfold lb_executeCommand at h
  split_ifs at h with hlen
  simp only at h
  split at h
  · simp at h
  · split at h
    · simp at h
    · simp only [Option.some.injEq, Prod.mk.injEq] at h
      rw [← h.1]
      exact ⟨rfl, rfl, rfl⟩

theorem lb_executeCommand_acknowledged (s : Host) (command : List Nat) (commandLength : Nat)
    (response : List Nat) (cap numCommands : Nat) (payload : List Nat)
    (hcmd : 4 ≤ commandLength)
    (hlen : s.shared.pendingCommands.length = pendingCommandsCount)
    (hslot : ∃ c ∈ s.shared.pendingCommands, c.opcode = 0)
    (hstale : ∀ c ∈ s.shared.pendingCommands,
      c.opcode ≠ (((command.getD 2 0) <<< 8) ||| command.getD 1 0) % 65536)
    (hsize : payload.length + 4 < 256) :
    (lb_executeCommand
        (ioCommandComplete ([numCommands, command.getD 1 0, command.getD 2 0, 0] ++ payload))
        s command commandLength response cap).map (fun r => r.2)
      = some (LB_STATUS.LB_OK,
          payload.take (min payload.length cap) ++ response.drop (min payload.length cap)) := by
  obtain ⟨c0, hc0, hzero⟩ := hslot
  have hne : scanOpcode 0 s.shared.pendingCommands ≠ s.shared.pendingCommands.length :=
    fun e => scanOpcode_eq_length 0 _ e c0 hc0 hzero
  obtain ⟨c, hget, hop⟩ := scanOpcode_found 0 _ hne
  have hle := scanOpcode_le 0 s.shared.pendingCommands
  have hlt : scanOpcode 0 s.shared.pendingCommands < s.shared.pendingCommands.length := by omega
  have halloc := allocateCondition_at s.shared.pendingCommands
    ((((command.getD 2 0) <<< 8) ||| command.getD 1 0) % 65536) response cap hlen _ c hget hop
    (fun j c1 hj hc1 => scanOpcode_before 0 _ j c1 hj hc1)
  have hsig := signalCondition_at
    (s.shared.pendingCommands.set (scanOpcode 0 s.shared.pendingCommands)
      { handle := false,
        opcode := (((command.getD 2 0) <<< 8) ||| command.getD 1 0) % 65536,
        capacity := cap, buffer := response, status := HCI_CONTROLLER_BUSY, length := 0 })
    ((((command.getD 2 0) <<< 8) ||| command.getD 1 0) % 65536) 0 payload payload.length
    (by simpa using hlen) (Nat.le_refl _) (scanOpcode 0 s.shared.pendingCommands)
    { handle := false,
      opcode := (((command.getD 2 0) <<< 8) ||| command.getD 1 0) % 65536,
      capacity := cap, buffer := response, status := HCI_CONTROLLER_BUSY, length := 0 }
    (List.getElem?_set_self hlt) rfl
    (by
      intro j c1 hj hc1
      rw [List.getElem?_set_ne (by omega)] at hc1
      exact hstale c1 (List.getElem?_mem hc1))
  have hpl : (([numCommands, command.getD 1 0, command.getD 2 0, 0] ++ payload).length
      + (256 - sizeofCommandComplete)) % 256 = payload.length := by
    simp only [sizeofCommandComplete, List.length_append, List.length_cons, List.length_nil]
    omega
  unfold lb_executeCommand
  rw [if_pos hcmd]
  simp only [halloc, ioCommandComplete, hci_on_eventCommandComplete, hpl]
  simp only [List.cons_append, List.nil_append, List.getD_cons_succ, List.getD_cons_zero,
    uint16Value, sizeofCommandComplete, List.drop_succ_cons, List.drop_zero, hsig,
    Option.map_some']
  simp [waitForCondition, hlt, HCI_STATUS_SUCCESS]

theorem getD_take_append (l tail : List Nat) (m k : Nat) (hk : k < m) (hm : m ≤ l.length) :
    (l.take m ++ tail).getD k 0 = l.getD k 0 := by
  have h1 : k < (l.take m).length := by
    rw [List.length_take]
    omega
  rw [List.getD_append _ _ _ _ h1, List.getD_eq_getElem?_getD, List.getD_eq_getElem?_getD,
    List.getElem?_take_of_lt hk]

/-- C18: `lb_resetHCI` hands exactly `01 03 0C 00` to `io_sendData` and
`lb_readLocalVersionInformation` exactly `01 01 10 00`.  On a table with a free
entry and none bearing the opcode, a Command Complete for the command with
status 0 makes `lb_resetHCI` return `LB_OK`, and one for `0x1001` whose return
bytes (at least 6) are `0D 00` at offsets 4 and 5 makes
`lb_readLocalVersionInformation` return `LB_OK` with
`uint16Value(&version.manufacturerId) = 0x000D`. -/
theorem version_read (s : Host) (version payload : List Nat) (numCommands : Nat)
    (hlen : s.shared.pendingCommands.length = pendingCommandsCount)
    (hslot : ∃ c ∈ s.shared.pendingCommands, c.opcode = 0)
    (hstaleReset : ∀ c ∈ s.shared.pendingCommands, c.opcode ≠ HCI_RESET)
    (hstale : ∀ c ∈ s.shared.pendingCommands, c.opcode ≠ HCI_READ_LOCAL_VERSION_INFORMATION)
    (hsix : 6 ≤ payload.length) (hsize : payload.length + 4 < 256)
    (hlo : payload.getD 4 0 = 0x0D) (hhi : payload.getD 5 0 = 0x00) :
    (∀ (io : IoThread) (s0 s1 : Host) (status : LB_STATUS),
        lb_resetHCI io s0 = some (s1, status) → s1.wire = s0.wire ++ [[0x01, 0x03, 0x0C, 0x00]])
      ∧ (∀ (io : IoThread) (s0 : Host) (v0 : List Nat) (s1 : Host) (status : LB_STATUS)
          (v1 : List Nat),
          lb_readLocalVersionInformation io s0 v0 = some (s1, status, v1) →
          s1.wire = s0.wire ++ [[0x01, 0x01, 0x10, 0x00]])
      ∧ (lb_resetHCI (ioCommandComplete [numCommands, 0x03, 0x0C, 0x00]) s).map (fun r => r.2)
          = some LB_STATUS.LB_OK
      ∧ ∃ s1 v1,
          lb_readLocalVersionInformation
              (ioCommandComplete ([numCommands, 0x01, 0x10, 0x00] ++ payload)) s version
            = some (s1, LB_STATUS.LB_OK, v1)
          ∧ s1.wire = s.wire ++ [[0x01, 0x01, 0x10, 0x00]]
          ∧ uint16Value (v1.getD 4 0) (v1.getD 5 0) = 0x000D := by
  refine ⟨?_, ?_, ?_, ?_⟩
  · intro io s0 s1 status h
    unfold lb_resetHCI at h
    obtain ⟨r, hr, hr2⟩ := Option.map_eq_some'.mp h
    obtain ⟨r1, r2, r3⟩ := r
    simp only [Prod.mk.injEq] at hr2
    rw [← hr2.1]
    exact (lb_executeCommand_frame io s0 _ _ _ _ _ _ _ hr).2.2
  · intro io s0 v0 s1 status v1 h
    exact (lb_executeCommand_frame io s0 _ _ _ _ _ _ _ h).2.2
  · have h := lb_executeCommand_acknowledged s CMD_RESET 4 [] 0 numCommands [] (by omega) hlen
      hslot hstaleReset (by simp)
    unfold lb_resetHCI
    rw [Option.map_map]
    have h2 := congrArg (Option.map (fun r : LB_STATUS × List Nat => r.1)) h
    rw [Option.map_map] at h2
    exact h2
  · have h := lb_executeCommand_acknowledged s CMD_READ_LOCAL_VERSION_INFORMATION 4 version 8
      numCommands payload (by omega) hlen hslot hstale hsize
    obtain ⟨r, hr, hr2⟩ := Option.map_eq_some'.mp h
    obtain ⟨s1, status, v1⟩ := r
    simp only [Prod.mk.injEq] at hr2
    obtain ⟨hst, hv⟩ := hr2
    subst hst
    refine ⟨s1, v1, hr, (lb_executeCommand_frame _ s _ _ _ _ _ _ _ hr).2.2, ?_⟩
    rw [hv, getD_take_append payload _ _ 4 (by omega) (by omega),
      getD_take_append payload _ _ 5 (by omega) (by omega), hlo, hhi]
    rfl

/-- Witness of C18: a fresh session and the return bytes `06 00 00 06 0D 00 00 00`. -/
theorem version_read_witness :
    (∀ (io : IoThread) (s0 s1 : Host) (status : LB_STATUS),
        lb_resetHCI io s0 = some (s1, status) → s1.wire = s0.wire ++ [[0x01, 0x03, 0x0C, 0x00]])
      ∧ (∀ (io : IoThread) (s0 : Host) (v0 : List Nat) (s1 : Host) (status : LB_STATUS)
          (v1 : List Nat),
          lb_readLocalVersionInformation io s0 v0 = some (s1, status, v1) →
          s1.wire = s0.wire ++ [[0x01, 0x01, 0x10, 0x00]])
      ∧ (lb_resetHCI (ioCommandComplete [1, 0x03, 0x0C, 0x00]) sessionStart).map (fun r => r.2)
          = some LB_STATUS.LB_OK
      ∧ ∃ s1 v1,
          lb_readLocalVersionInformation
              (ioCommandComplete ([1, 0x01, 0x10, 0x00] ++ [6, 0, 0, 6, 0x0D, 0, 0, 0]))
              sessionStart (List.replicate 8 0)
            = some (s1, LB_STATUS.LB_OK, v1)
          ∧ s1.wire = sessionStart.wire ++ [[0x01, 0x01, 0x10, 0x00]]
          ∧ uint16Value (v1.getD 4 0) (v1.getD 5 0) = 0x000D :=
  version_read sessionStart (List.replicate 8 0) [6, 0, 0, 6, 0x0D, 0, 0, 0] 1 rfl
    (by decide) (by decide) (by decide) (by decide) (by decide) rfl rfl

/-! ## Initialization: vendor selection -/

theorem lb_resetHCI_frame (io : IoThread) (s s1 : Host) (status : LB_STATUS)
    (h : lb_resetHCI io s = some (s1, status)) :
    s1.vendorFunctions = s.vendorFunctions ∧ s1.manufacturerId = s.manufacturerId := by
  unfold lb_resetHCI at h
  obtain ⟨r, hr, hr2⟩ := Option.map_eq_some'.mp h
  obtain ⟨r1, r2, r3⟩ := r
  simp only [Prod.mk.injEq] at hr2
  rw [← hr2.1]
  have := lb_executeCommand_frame io s _ _ _ _ _ _ _ hr
  exact ⟨this.1, this.2.1⟩

theorem lb_performVendorSpecificInitialization_ST_frame (io : IoThread) (s s1 : Host)
    (status : LB_STATUS) (h : lb_performVendorSpecificInitialization_ST io s = some (s1, status)) :
    s1.vendorFunctions = s.vendorFunctions := by
  unfold lb_performVendorSpecificInitialization_ST at h
  split at h
  · simp at h
  · rename_i sa sta hreset
    have h1 := (lb_resetHCI_frame io s sa sta hreset).1
    split_ifs at h
    · split at h
      · simp at h
      · rename_i sb stb vb hb
        have h2 := (lb_executeCommand_frame io sa _ _ _ _ _ _ _ hb).1
        split_ifs at h
        · split at h
          · simp at h
          · rename_i sc stc vc hc
            have h3 := (lb_executeCommand_frame io sb _ _ _ _ _ _ _ hc).1
            simp only [Option.some.injEq, Prod.mk.injEq] at h
            rw [← h.1, h3, h2, h1]
        · simp only [Option.some.injEq, Prod.mk.injEq] at h
          rw [← h.1, h2, h1]
    · simp only [Option.some.injEq, Prod.mk.injEq] at h
      rw [← h.1, h1]

/-- C19 as stated fails on a session that already has an adapter: after a first
`lb_initializeHCI` that resolved TI (manufacturer id `0x000D`), a second one
whose reset and version read succeed with manufacturer id `0x0001` keeps the TI
adapter and returns `LB_OK`, not `LB_UNKNOWN_VENDOR`. -/
theorem vendor_kept_on_second_initialization :
    (lb_initializeHCI (ioAcknowledge [6, 0, 0, 6, 0x0D, 0, 0, 0]) sessionStart
        (List.replicate 8 0)).map (fun r => (r.1.vendorFunctions, r.1.manufacturerId, r.2))
      = some (some Adapter.TI, 0x000D, LB_STATUS.LB_OK)
    ∧ ((lb_initializeHCI (ioAcknowledge [6, 0, 0, 6, 0x0D, 0, 0, 0]) sessionStart
          (List.replicate 8 0)).bind
        (fun r => lb_initializeHCI (ioAcknowledge [6, 0, 0, 6, 0x01, 0, 0, 0]) r.1
          (List.replicate 8 0))).map (fun r => (r.1.vendorFunctions, r.1.manufacturerId, r.2))
      = some (some Adapter.TI, 0x0001, LB_STATUS.LB_OK) := by
  constructor
  · rfl
  · rfl

/-- C19, amended: on a session that has no adapter before the call (as
`lb_connect` leaves it), after a successful reset and version read
`lb_initializeHCI` resolves the TI adapter (and returns `LB_OK`) exactly when
the manufacturer id is `0x000D`, resolves the ST adapter (and runs its
initialization) exactly when it is `0x0030`, and for every other id returns
`LB_UNKNOWN_VENDOR` and leaves the session without an adapter. -/
theorem vendor_selection (io : IoThread) (s : Host) (version : List Nat) (s1 s2 : Host)
    (v : List Nat) (hfresh : s.vendorFunctions = none)
    (hreset : lb_resetHCI io s = some (s1, LB_STATUS.LB_OK))
    (hread : lb_readLocalVersionInformation io s1 version = some (s2, LB_STATUS.LB_OK, v)) :
    (uint16Value (v.getD 4 0) (v.getD 5 0) = 0x000D →
        lb_initializeHCI io s version
          = some ({ s2 with manufacturerId := 0x000D, vendorFunctions := some Adapter.TI },
                  LB_STATUS.LB_OK))
      ∧ (uint16Value (v.getD 4 0) (v.getD 5 0) = 0x0030 →
        lb_initializeHCI io s version
          = lb_performVendorSpecificInitialization_ST io
              { s2 with manufacturerId := 0x0030, vendorFunctions := some Adapter.ST })
      ∧ (uint16Value (v.getD 4 0) (v.getD 5 0) ≠ 0x000D →
         uint16Value (v.getD 4 0) (v.getD 5 0) ≠ 0x0030 →
        lb_initializeHCI io s version
          = some ({ s2 with manufacturerId := uint16Value (v.getD 4 0) (v.getD 5 0),
                            vendorFunctions := none },
                  LB_STATUS.LB_UNKNOWN_VENDOR))
      ∧ (∀ s3 status, lb_initializeHCI io s version = some (s3, status) →
          (s3.vendorFunctions = some Adapter.TI ↔ uint16Value (v.getD 4 0) (v.getD 5 0) = 0x000D)
          ∧ (s3.vendorFunctions = some Adapter.ST
              ↔ uint16Value (v.getD 4 0) (v.getD 5 0) = 0x0030)) := by
  have hv1 : s1.vendorFunctions = none := by
    rw [(lb_resetHCI_frame io s s1 _ hreset).1, hfresh]
  have hv2 : s2.vendorFunctions = none := by
    rw [(lb_executeCommand_frame io s1 _ _ _ _ _ _ _ hread).1, hv1]
  have hTI : uint16Value (v.getD 4 0) (v.getD 5 0) = 0x000D →
      lb_initializeHCI io s version
        = some ({ s2 with manufacturerId := 0x000D, vendorFunctions := some Adapter.TI },
                LB_STATUS.LB_OK) := by
    intro hid
    simp only [List.getD_eq_getElem?_getD] at hid
    simp [lb_initializeHCI, hreset, hread, hid, initializeHCI,
      lb_performVendorSpecificInitialization_TI]
  have hST : uint16Value (v.getD 4 0) (v.getD 5 0) = 0x0030 →
      lb_initializeHCI io s version
        = lb_performVendorSpecificInitialization_ST io
            { s2 with manufacturerId := 0x0030, vendorFunctions := some Adapter.ST } := by
    intro hid
    simp only [List.getD_eq_getElem?_getD] at hid
    simp [lb_initializeHCI, hreset, hread, hid, initializeHCI]
  have hother : uint16Value (v.getD 4 0) (v.getD 5 0) ≠ 0x000D →
      uint16Value (v.getD 4 0) (v.getD 5 0) ≠ 0x0030 →
      lb_initializeHCI io s version
        = some ({ s2 with manufacturerId := uint16Value (v.getD 4 0) (v.getD 5 0),
                          vendorFunctions := none },
                LB_STATUS.LB_UNKNOWN_VENDOR) := by
    intro h1 h2
    simp only [List.getD_eq_getElem?_getD] at h1 h2
    simp [lb_initializeHCI, hreset, hread, h1, h2, hv2]
  refine ⟨hTI, hST, hother, ?_⟩
  intro s3 status h
  by_cases h1 : uint16Value (v.getD 4 0) (v.getD 5 0) = 0x000D
  · rw [hTI h1] at h
    simp only [Option.some.injEq, Prod.mk.injEq] at h
    rw [← h.1, h1]
    simp
  · by_cases h2 : uint16Value (v.getD 4 0) (v.getD 5 0) = 0x0030
    · rw [hST h2] at h
      have := lb_performVendorSpecificInitialization_ST_frame io _ s3 status h
      rw [this, h2]
      simp
    · rw [hother h1 h2] at h
      simp only [Option.some.injEq, Prod.mk.injEq] at h
      rw [← h.1]
      exact ⟨⟨fun e => by simp at e, fun e => absurd e h1⟩,
        ⟨fun e => by simp at e, fun e => absurd e h2⟩⟩

/-- Witness of C19 amended: a fresh session whose controller acknowledges
every command and reports the manufacturer id `0x000D`. -/
theorem vendor_selection_witness :
    (lb_initializeHCI (ioAcknowledge [6, 0, 0, 6, 0x0D, 0, 0, 0]) sessionStart
        (List.replicate 8 0)).map (fun r => (r.1.vendorFunctions, r.1.manufacturerId, r.2))
      = some (some Adapter.TI, 0x000D, LB_STATUS.LB_OK) := by
  have h := (vendor_selection (ioAcknowledge [6, 0, 0, 6, 0x0D, 0, 0, 0]) sessionStart
    (List.replicate 8 0) _ _ _ rfl rfl rfl).1 rfl
  rw [h]
  rfl

/-! ## Device table: the two scans -/

theorem getDeviceLoop_first (device : List LB_Device) (connectionHandle : Nat) (d : LB_Device)
    (h0 : device[0]? = some d) (heq : d.connectionHandle = connectionHandle) (fuel : Nat) :
    getDeviceLoop device connectionHandle (fuel + 1) 0 = some 0 := by
  rw [getDeviceLoop]
  simp [deviceCount, h0, heq]

theorem getDevice_first (device : List LB_Device) (connectionHandle : Nat) (d : LB_Device)
    (h0 : device[0]? = some d) (heq : d.connectionHandle = connectionHandle) :
    getDevice device connectionHandle = some 0 :=
  getDeviceLoop_first device connectionHandle d h0 heq deviceCount

theorem getDeviceLoop_stuck (device : List LB_Device) (connectionHandle : Nat) (d : LB_Device)
    (h0 : device[0]? = some d) (hne : d.connectionHandle ≠ connectionHandle) (fuel : Nat) :
    getDeviceLoop device connectionHandle fuel 0 = none := by
  induction fuel with
  | zero => rfl
  | succ n ih =>
    rw [getDeviceLoop]
    simp [deviceCount, h0, hne, ih]

theorem freeDeviceLoop_stuck (device : List LB_Device) (d : LB_Device)
    (h0 : device[0]? = some d) (hne : INVALID_CONNECTION_HANDLE ≠ d.connectionHandle)
    (fuel : Nat) :
    freeDeviceLoop device fuel 0 = none := by
  induction fuel with
  | zero => rfl
  | succ n ih =>
    rw [freeDeviceLoop]
    simp [deviceCount, h0, hne, ih]

/-- C24: the loop of `getDevice` never advances `ii`.  When entry 0 of the
device table does not bear the handle the loop is still at entry 0 after any
number of iterations, whether a later entry bears the handle or none does: the
function does not return, neither the entry nor "none". -/
theorem getDevice_never_leaves_first_slot (device : List LB_Device) (connectionHandle : Nat)
    (d : LB_Device) (h0 : device[0]? = some d)
    (hne : d.connectionHandle ≠ connectionHandle) :
    (∀ fuel, getDeviceLoop device connectionHandle fuel 0 = none)
      ∧ getDevice device connectionHandle = none :=
  ⟨getDeviceLoop_stuck device connectionHandle d h0 hne,
   getDeviceLoop_stuck device connectionHandle d h0 hne _⟩

/-- Witness of C24: entry 0 bears `0x0041`, entry 1 bears `0x0040`, the other
six entries are free; the lookup of `0x0040` (borne by entry 1) does not
return. -/
theorem getDevice_never_leaves_first_slot_witness :
    (([connectedDevice 0x0041, connectedDevice 0x0040] ++ List.replicate 6 freeDevice)[1]?
        = some (connectedDevice 0x0040))
      ∧ (∀ fuel, getDeviceLoop
          ([connectedDevice 0x0041, connectedDevice 0x0040] ++ List.replicate 6 freeDevice)
          0x0040 fuel 0 = none)
      ∧ getDevice ([connectedDevice 0x0041, connectedDevice 0x0040] ++ List.replicate 6 freeDevice)
          0x0040 = none :=
  ⟨rfl, getDevice_never_leaves_first_slot
    ([connectedDevice 0x0041, connectedDevice 0x0040] ++ List.replicate 6 freeDevice) 0x0040
    (connectedDevice 0x0041) rfl (by decide)⟩

/-- C25: the loop of `on_connectedToDevice` never advances `ii` either.  When
entry 0 of the device table is taken the loop stays at entry 0, whatever free
entries follow, and `on_connectedToDevice` does not return: no entry is
filled and the session condition is not signalled. -/
theorem on_connectedToDevice_never_leaves_first_slot (s : Shared) (address : List Nat)
    (handle : Nat) (d : LB_Device) (h0 : s.device[0]? = some d)
    (htaken : INVALID_CONNECTION_HANDLE ≠ d.connectionHandle) :
    (∀ fuel, freeDeviceLoop s.device fuel 0 = none)
      ∧ on_connectedToDevice s address handle = none := by
  refine ⟨freeDeviceLoop_stuck s.device d h0 htaken, ?_⟩
  unfold on_connectedToDevice
  rw [freeDeviceLoop_stuck s.device d h0 htaken]

/-- Witness of C25: the session whose entry 0 holds the connection `0x0040` and
whose entry 1 is free; a second connection `0x0041` is never stored. -/
theorem on_connectedToDevice_never_leaves_first_slot_witness :
    (sessionConnected Adapter.TI).shared.device[1]? = some freeDevice
      ∧ (∀ fuel, freeDeviceLoop (sessionConnected Adapter.TI).shared.device fuel 0 = none)
      ∧ on_connectedToDevice (sessionConnected Adapter.TI).shared [1, 2, 3, 4, 5, 6] 0x0041
          = none :=
  ⟨rfl, on_connectedToDevice_never_leaves_first_slot (sessionConnected Adapter.TI).shared
    [1, 2, 3, 4, 5, 6] 0x0041 (connectedDevice 0x0040) rfl (by decide)⟩

/-- On a fresh session the TI event `GAP_LinkEstablished` with handle `0x0040`
fills entry 0 and signals the session condition with that entry. -/
theorem link_established_fresh_session :
    (lb_on_vendorSpecificEvent_TI sessionStart.shared
        [0x05, 0x06, 0, 0, 1, 2, 3, 4, 5, 6, 0x40, 0x00, 0, 0, 0, 0, 0, 0, 0, 0] 20).map
        (fun s => (s.device[0]?.map (fun d => (d.controller, d.connectionHandle)),
                   s.device.drop 1, s.operationComplete))
      = some (some (true, 0x0040), List.replicate 7 freeDevice,
              { signalled := true, status := CondStatus.device 0 }) := by
  decide

/-! ## Address text -/

theorem hexDigitValue_lt (c v : Nat) (h : hexDigitValue c = some v) : v < 16 := by
  unfold hexDigitValue at h
  split_ifs at h <;> simp at h <;> omega

theorem nibbles_value (v w : Nat) (hv : v < 16) (hw : w < 16) :
    (((v <<< 4) % 256) ||| w) % 256 = 16 * v + w := by
  interval_cases v <;> interval_cases w <;> rfl

theorem parseAddressStep_true (byte k nibble : Nat) (address : List Nat)
    (h : (parseAddressStep byte k nibble address).1 = true) : addressChar k byte := by
  unfold parseAddressStep at h
  unfold addressChar hexDigitValue
  split_ifs at h ⊢ <;> simp_all

theorem parseAddressStep_colon (k nibble : Nat) (address : List Nat) (hk : (k + 1) % 3 = 0) :
    parseAddressStep 58 k nibble address = (true, nibble, address) := by
  simp [parseAddressStep, hk]

theorem parseAddressStep_high (byte k nibble v : Nat) (address : List Nat)
    (hk : (k + 1) % 3 = 1) (hv : hexDigitValue byte = some v) :
    parseAddressStep byte k nibble address = (true, (v <<< 4) % 256, address) := by
  unfold hexDigitValue at hv
  unfold parseAddressStep
  rw [if_neg (by omega), if_pos hk]
  split_ifs at hv ⊢ <;> simp at hv <;> rw [hv]

theorem parseAddressStep_low (byte k nibble v : Nat) (address : List Nat)
    (hk : (k + 1) % 3 = 2) (hv : hexDigitValue byte = some v) :
    parseAddressStep byte k nibble address
      = (true, 0, address.set (5 - k / 3) ((nibble ||| v) % 256)) := by
  unfold hexDigitValue at hv
  unfold parseAddressStep
  rw [if_neg (by omega), if_neg (by omega)]
  split_ifs at hv ⊢ <;> simp at hv <;> rw [hv]

theorem hexDigitValue_ne_zero (c v : Nat) (h : hexDigitValue c = some v) : 0 ≠ c := by
  unfold hexDigitValue at h
  split_ifs at h <;> omega

theorem parseAddressLoop_returns (buffer : List Nat) :
    ∀ fuel k nibble address, 0 < fuel → 19 ≤ fuel + k →
      ∃ r, parseAddressLoop buffer fuel k nibble address = some r := by
  intro fuel
  induction fuel with
  | zero => intro k nibble address h; omega
  | succ n ih =>
    intro k nibble address _ hk
    rw [parseAddressLoop]
    split_ifs with h18 h0
    · exact ⟨_, rfl⟩
    · rcases hstep : parseAddressStep (buffer.getD k 0) k nibble address with ⟨b, n1, a1⟩
      cases b
      · exact ⟨_, rfl⟩
      · exact ih (k + 1) n1 a1 (by omega) (by omega)
    · exact ⟨_, rfl⟩

theorem parseAddressLoop_true (buffer : List Nat) :
    ∀ fuel k nibble address n a,
      parseAddressLoop buffer fuel k nibble address = some (true, n, a) →
      k ≤ n ∧ (n < 18 → buffer.getD n 0 = 0) ∧
        ∀ i, k ≤ i → i < n → buffer.getD i 0 ≠ 0 ∧ addressChar i (buffer.getD i 0) := by
  intro fuel
  induction fuel with
  | zero => intro k nibble address n a h; simp [parseAddressLoop] at h
  | succ m ih =>
    intro k nibble address n a h
    rw [parseAddressLoop] at h
    split_ifs at h with h18 h0
    · simp only [Option.some.injEq, Prod.mk.injEq, true_and] at h
      obtain ⟨rfl, _⟩ := h
      exact ⟨le_refl _, fun _ => h0.symm, fun i h1 h2 => by omega⟩
    · rcases hstep : parseAddressStep (buffer.getD k 0) k nibble address with ⟨b, n1, a1⟩
      rw [hstep] at h
      cases b
      · simp at h
      · obtain ⟨hle, hend, hall⟩ := ih (k + 1) n1 a1 n a h
        refine ⟨by omega, hend, ?_⟩
        intro i h1 h2
        by_cases hik : i = k
        · subst hik
          refine ⟨fun e => h0 e.symm, ?_⟩
          apply parseAddressStep_true (buffer.getD i 0) i nibble address
          rw [hstep]
        · exact hall i (by omega) h2
    · simp only [Option.some.injEq, Prod.mk.injEq, true_and] at h
      obtain ⟨rfl, _⟩ := h
      exact ⟨le_refl _, fun hlt => by omega, fun i h1 h2 => by omega⟩

theorem parseAddressLoop_group (buffer : List Nat) (fuel fuel2 k k1 k2 nibble v w : Nat)
    (address : List Nat) (hf : fuel = fuel2 + 2) (h1 : k1 = k + 1) (h2 : k2 = k + 2)
    (hk : k % 3 = 0) (hk18 : k2 < 18)
    (hv : hexDigitValue (buffer.getD k 0) = some v)
    (hw : hexDigitValue (buffer.getD k1 0) = some w) :
    parseAddressLoop buffer fuel k nibble address
      = parseAddressLoop buffer fuel2 k2 0 (address.set (5 - k / 3) (16 * v + w)) := by
  subst hf h1 h2
  rw [parseAddressLoop, if_pos (by omega), if_neg (hexDigitValue_ne_zero _ _ hv),
    parseAddressStep_high _ _ _ v _ (by omega) hv]
  simp only
  rw [parseAddressLoop, if_pos (by omega), if_neg (hexDigitValue_ne_zero _ _ hw),
    parseAddressStep_low _ _ _ w _ (by omega) hw]
  simp only
  rw [nibbles_value v w (hexDigitValue_lt _ _ hv) (hexDigitValue_lt _ _ hw)]
  have hidx : 5 - (k + 1) / 3 = 5 - k / 3 := by omega
  rw [hidx]

theorem parseAddressLoop_colon (buffer : List Nat) (fuel fuel1 k k1 nibble : Nat)
    (address : List Nat) (hf : fuel = fuel1 + 1) (h1 : k1 = k + 1)
    (hk : (k + 1) % 3 = 0) (hk18 : k < 18) (hc : buffer.getD k 0 = 58) :
    parseAddressLoop buffer fuel k nibble address
      = parseAddressLoop buffer fuel1 k1 nibble address := by
  subst hf h1
  rw [parseAddressLoop, if_pos hk18, if_neg (by rw [hc]; decide), hc,
    parseAddressStep_colon _ _ _ hk]

theorem parseAddressLoop_end (buffer : List Nat) (fuel fuel1 k nibble : Nat)
    (address : List Nat) (hf : fuel = fuel1 + 1) (hk18 : k < 18)
    (h0 : buffer.getD k 0 = 0) :
    parseAddressLoop buffer fuel k nibble address = some (true, k, address) := by
  subst hf
  rw [parseAddressLoop, if_pos hk18, if_pos h0.symm]

theorem text_getD_append (text : List Nat) (i : Nat) (hi : i < text.length) :
    (text ++ [0]).getD i 0 = text.getD i 0 := by
  simp [List.getD_eq_getElem?_getD, List.getElem?_append_left hi]

theorem text_getD_end (text : List Nat) : (text ++ [0]).getD text.length 0 = 0 := by
  simp [List.getD_eq_getElem?_getD]

theorem addressForm_digit (text : List Nat) (hform : addressForm text) (i : Nat)
    (hi : i < 17) (hk : (i + 1) % 3 ≠ 0) :
    hexDigitValue ((text ++ [0]).getD i 0)
      = some ((hexDigitValue (text.getD i 0)).getD 0) := by
  rw [text_getD_append text i (by rw [hform.1]; exact hi)]
  have h := hform.2 i hi
  unfold addressChar at h
  rw [if_neg hk] at h
  cases hd : hexDigitValue (text.getD i 0) with
  | none => rw [hd] at h; simp at h
  | some v => rfl

theorem addressForm_colon (text : List Nat) (hform : addressForm text) (i : Nat)
    (hi : i < 17) (hk : (i + 1) % 3 = 0) : (text ++ [0]).getD i 0 = 58 := by
  rw [text_getD_append text i (by rw [hform.1]; exact hi)]
  have h := hform.2 i hi
  unfold addressChar at h
  rw [if_pos hk] at h
  exact h

theorem utl_parseAddress_accepts (text : List Nat) (hform : addressForm text) :
    utl_parseAddress text
      = some (true, [groupValue text 5, groupValue text 4, groupValue text 3,
                     groupValue text 2, groupValue text 1, groupValue text 0]) := by
  have hend : (text ++ [0]).getD 17 0 = 0 := by
    have := text_getD_end text
    rw [hform.1] at this
    exact this
  unfold utl_parseAddress
  rw [parseAddressLoop_group (text ++ [0]) 19 17 0 1 2 _ _ _ _ rfl rfl rfl (by decide)
        (by decide) (addressForm_digit text hform 0 (by decide) (by decide))
        (addressForm_digit text hform 1 (by decide) (by decide)),
    parseAddressLoop_colon (text ++ [0]) 17 16 2 3 _ _ rfl rfl (by decide) (by decide)
        (addressForm_colon text hform 2 (by decide) (by decide)),
    parseAddressLoop_group (text ++ [0]) 16 14 3 4 5 _ _ _ _ rfl rfl rfl (by decide)
        (by decide) (addressForm_digit text hform 3 (by decide) (by decide))
        (addressForm_digit text hform 4 (by decide) (by decide)),
    parseAddressLoop_colon (text ++ [0]) 14 13 5 6 _ _ rfl rfl (by decide) (by decide)
        (addressForm_colon text hform 5 (by decide) (by decide)),
    parseAddressLoop_group (text ++ [0]) 13 11 6 7 8 _ _ _ _ rfl rfl rfl (by decide)
        (by decide) (addressForm_digit text hform 6 (by decide) (by decide))
        (addressForm_digit text hform 7 (by decide) (by decide)),
    parseAddressLoop_colon (text ++ [0]) 11 10 8 9 _ _ rfl rfl (by decide) (by decide)
        (addressForm_colon text hform 8 (by decide) (by decide)),
    parseAddressLoop_group (text ++ [0]) 10 8 9 10 11 _ _ _ _ rfl rfl rfl (by decide)
        (by decide) (addressForm_digit text hform 9 (by decide) (by decide))
        (addressForm_digit text hform 10 (by decide) (by decide)),
    parseAddressLoop_colon (text ++ [0]) 8 7 11 12 _ _ rfl rfl (by decide) (by decide)
        (addressForm_colon text hform 11 (by decide) (by decide)),
    parseAddressLoop_group (text ++ [0]) 7 5 12 13 14 _ _ _ _ rfl rfl rfl (by decide)
        (by decide) (addressForm_digit text hform 12 (by decide) (by decide))
        (addressForm_digit text hform 13 (by decide) (by decide)),
    parseAddressLoop_colon (text ++ [0]) 5 4 14 15 _ _ rfl rfl (by decide) (by decide)
        (addressForm_colon text hform 14 (by decide) (by decide)),
    parseAddressLoop_group (text ++ [0]) 4 2 15 16 17 _ _ _ _ rfl rfl rfl (by decide)
        (by decide) (addressForm_digit text hform 15 (by decide) (by decide))
        (addressForm_digit text hform 16 (by decide) (by decide)),
    parseAddressLoop_end (text ++ [0]) 2 1 17 _ _ rfl (by decide) hend]
  rfl

theorem utl_parseAddress_form (text : List Nat) (hstr : ∀ c ∈ text, c ≠ 0) (a : List Nat)
    (h : utl_parseAddress text = some (true, a)) : addressForm text := by
  unfold utl_parseAddress at h
  cases hloop : parseAddressLoop (text ++ [0]) 19 0 0 (List.replicate 6 0) with
  | none => rw [hloop] at h; simp at h
  | some r =>
    obtain ⟨b, n, a1⟩ := r
    rw [hloop] at h
    cases b
    · simp at h
    · have hn : n = 17 := by
        by_contra hne
        simp [Ne.symm hne] at h
      subst hn
      obtain ⟨_, hend, hall⟩ := parseAddressLoop_true (text ++ [0]) 19 0 0 _ 17 a1 hloop
      have hend17 := hend (by decide)
      have hle : text.length ≤ 17 := by
        by_contra hgt
        have hlt : 17 < text.length := by omega
        rw [text_getD_append text 17 hlt] at hend17
        have hmem : text.getD 17 0 ∈ text := by
          rw [List.getD_eq_getElem text 0 hlt]
          exact List.getElem_mem hlt
        exact hstr _ hmem hend17
      have hge : 17 ≤ text.length := by
        by_contra hlt
        exact (hall text.length (Nat.zero_le _) (by omega)).1 (text_getD_end text)
      have hlen : text.length = 17 := by omega
      refine ⟨hlen, ?_⟩
      intro i hi
      have := (hall i (Nat.zero_le _) hi).2
      rw [text_getD_append text i (by omega)] at this
      exact this

/-- C30: `utl_parseAddress` returns for every 0-terminated string; it returns
true exactly when the string is 17 characters of the form `XX:XX:XX:XX:XX:XX`
with hexadecimal digits of either case (so every shorter and every longer
string is rejected), and then `address[5 - i]` is the value of the `i`-th
two-digit group. -/
theorem utl_parseAddress_spec (text : List Nat) (hstr : ∀ c ∈ text, c ≠ 0) :
    (∃ r, utl_parseAddress text = some r)
      ∧ ((∃ a, utl_parseAddress text = some (true, a)) ↔ addressForm text)
      ∧ (∀ a, utl_parseAddress text = some (true, a) →
          a.length = 6 ∧ ∀ i, i < 6 → a.getD (5 - i) 0 = groupValue text i) := by
  refine ⟨?_, ⟨?_, ?_⟩, ?_⟩
  · obtain ⟨r, hr⟩ := parseAddressLoop_returns (text ++ [0]) 19 0 0 (List.replicate 6 0)
      (by decide) (by decide)
    obtain ⟨b, n, a1⟩ := r
    unfold utl_parseAddress
    rw [hr]
    simp only
    split_ifs <;> exact ⟨_, rfl⟩
  · rintro ⟨a, ha⟩
    exact utl_parseAddress_form text hstr a ha
  · intro hform
    exact ⟨_, utl_parseAddress_accepts text hform⟩
  · intro a ha
    have hform := utl_parseAddress_form text hstr a ha
    rw [utl_parseAddress_accepts text hform] at ha
    simp only [Option.some.injEq, Prod.mk.injEq, true_and] at ha
    subst ha
    refine ⟨rfl, ?_⟩
    intro i hi
    interval_cases i <;> rfl

/-- Witness of C30: `"AA:BB:CC:DD:EE:FF"` gives `FF EE DD CC BB AA`; the
shorter `"AA:BB:CC"` and the longer `"AA:BB:CC:DD:EE:FF:"` and
`"AA:BB:CC:DD:EE:FF0"` are rejected, and so is a text with a letter outside
`a`-`f`. -/
theorem utl_parseAddress_spec_witness :
    (∀ c ∈ textAABBCCDDEEFF, c ≠ 0)
      ∧ ((∃ r, utl_parseAddress textAABBCCDDEEFF = some r)
        ∧ ((∃ a, utl_parseAddress textAABBCCDDEEFF = some (true, a))
            ↔ addressForm textAABBCCDDEEFF)
        ∧ (∀ a, utl_parseAddress textAABBCCDDEEFF = some (true, a) →
            a.length = 6 ∧ ∀ i, i < 6 → a.getD (5 - i) 0 = groupValue textAABBCCDDEEFF i))
      ∧ utl_parseAddress textAABBCCDDEEFF = some (true, [0xFF, 0xEE, 0xDD, 0xCC, 0xBB, 0xAA])
      ∧ (utl_parseAddress [65, 65, 58, 66, 66, 58, 67, 67]).map (fun r => r.1) = some false
      ∧ (utl_parseAddress (textAABBCCDDEEFF ++ [58])).map (fun r => r.1) = some false
      ∧ (utl_parseAddress (textAABBCCDDEEFF ++ [48])).map (fun r => r.1) = some false
      ∧ (utl_parseAddress [65, 71, 58, 66, 66, 58, 67, 67, 58, 68, 68, 58, 69, 69, 58, 70, 70]).map
          (fun r => r.1) = some false :=
  ⟨by decide, utl_parseAddress_spec textAABBCCDDEEFF (by decide), by decide, by decide,
   by decide, by decide, by decide⟩

/-! ## GATT operations: the pending-operation record -/

theorem setDevice_getElem? (s : Host) (dev : Nat) (d new : LB_Device)
    (h : s.shared.device[dev]? = some d) :
    (setDevice s dev new).shared.device[dev]? = some new := by
  have hlt : dev < s.shared.device.length := by
    by_contra hge
    rw [List.getElem?_eq_none (by omega)] at h
    simp at h
  simp [setDevice, List.getElem?_set_self hlt]

theorem setDevice_getElem?_ne (s : Host) (dev j : Nat) (new : LB_Device) (h : j ≠ dev) :
    (setDevice s dev new).shared.device[j]? = s.shared.device[j]? := by
  simp [setDevice, List.getElem?_set_ne (Ne.symm h)]

/-- C21: on a connected device of a session with a resolved adapter, whenever
`lb_startServiceDiscovery`, `lb_writeCharValue` or `lb_readCharValue` returns
(the command rejected, the wait timed out, a completion with an error, or
success), the device's pending-operation record is `{PO_IDLE, 0}`. -/
theorem pending_operation_restored (io : IoThread) (s : Host) (dev : Nat) (device : LB_Device)
    (adapter : Adapter)
    (hdev : s.shared.device[dev]? = some device)
    (hconn : isDeviceConnected device = true)
    (hvend : s.vendorFunctions = some adapter) :
    (∀ s1 status, lb_startServiceDiscovery io s dev = some (s1, status) →
        s1.shared.device[dev]?.map (fun d => d.pendingOperation)
          = some { type := PO_IDLE, attributeHandle := 0 })
      ∧ (∀ attributeHandle attributeValue attributeLength s1 status,
        lb_writeCharValue io s dev attributeHandle attributeValue attributeLength
            = some (s1, status) →
          s1.shared.device[dev]?.map (fun d => d.pendingOperation)
            = some { type := PO_IDLE, attributeHandle := 0 })
      ∧ (∀ attributeHandle attributeValue attributeCapacity attributeLength s1 status value
          outLength,
        lb_readCharValue io s dev attributeHandle attributeValue attributeCapacity
            attributeLength = some (s1, status, value, outLength) →
          s1.shared.device[dev]?.map (fun d => d.pendingOperation)
            = some { type := PO_IDLE, attributeHandle := 0 }) := by
  refine ⟨?_, ?_, ?_⟩
  · intro s1 status h
    unfold lb_startServiceDiscovery at h
    simp only [List.get?_eq_getElem?, hdev, hconn, hvend, Bool.not_true, Bool.false_eq_true,
      if_false] at h
    split_ifs at h with hc hassert
    split at h
    · simp at h
    · split at h
      · simp at h
      · split at h
        · simp at h
        · simp only [Option.some.injEq, Prod.mk.injEq] at h
          rw [← h.1, setDevice_getElem? _ dev _ _ (by assumption)]
          rfl
  · intro attributeHandle attributeValue attributeLength s1 status h
    unfold lb_writeCharValue at h
    simp only [List.get?_eq_getElem?, hdev, hconn, hvend, Bool.not_true, Bool.false_eq_true,
      if_false] at h
    split_ifs at h with hc hassert
    split at h
    · simp at h
    · split at h
      · simp at h
      · split at h
        · simp at h
        · simp only [Option.some.injEq, Prod.mk.injEq] at h
          rw [← h.1, setDevice_getElem? _ dev _ _ (by assumption)]
          rfl
  · intro attributeHandle attributeValue attributeCapacity attributeLength s1 status value
      outLength h
    unfold lb_readCharValue at h
    simp only [List.get?_eq_getElem?, hdev, hconn, hvend, Bool.not_true, Bool.false_eq_true,
      if_false] at h
    split_ifs at h with hc hassert
    split at h
    · simp at h
    · split at h
      · simp at h
      · split at h
        · simp at h
        · simp only [Option.some.injEq, Prod.mk.injEq] at h
          rw [← h.1, setDevice_getElem? _ dev _ _ (by assumption)]
          rfl

/-- Witness of C21: a write to attribute `0x0025` on the connection `0x0040`
of a TI session, on each of the four paths: the command rejected (status
`0x12` in the vendor `CommandStatus` event), no completion within the wait,
`ATT_WriteRsp` with status 1, and `ATT_WriteRsp` with status 0. -/
theorem pending_operation_restored_witness :
    (∃ s1, lb_writeCharValue
          (ioController [eventCommandStatus_TI 0x92 0xFD]
            [(0xFF, [0x13, 0x05, 0x00, 0x40, 0x00, 0x00], 6)])
          (sessionConnected Adapter.TI) 0 0x0025 [1] 1 = some (s1, LB_STATUS.LB_OK)
        ∧ s1.shared.device[0]?.map (fun d => d.pendingOperation)
          = some { type := PO_IDLE, attributeHandle := 0 })
      ∧ (lb_writeCharValue
          (ioController [(0xFF, [0x7F, 0x06, 0x12, 0x92, 0xFD, 0x00], 6)] [])
          (sessionConnected Adapter.TI) 0 0x0025 [1] 1).map
          (fun r => (r.2, r.1.shared.device[0]?.map (fun d => d.pendingOperation)))
        = some (LB_STATUS.LB_FAILURE, some { type := PO_IDLE, attributeHandle := 0 })
      ∧ (lb_writeCharValue (ioController [eventCommandStatus_TI 0x92 0xFD] [])
          (sessionConnected Adapter.TI) 0 0x0025 [1] 1).map
          (fun r => (r.2, r.1.shared.device[0]?.map (fun d => d.pendingOperation)))
        = some (LB_STATUS.LB_FAILURE, some { type := PO_IDLE, attributeHandle := 0 })
      ∧ (lb_writeCharValue
          (ioController [eventCommandStatus_TI 0x92 0xFD]
            [(0xFF, [0x13, 0x05, 0x01, 0x40, 0x00, 0x00], 6)])
          (sessionConnected Adapter.TI) 0 0x0025 [1] 1).map
          (fun r => (r.2, r.1.shared.device[0]?.map (fun d => d.pendingOperation)))
        = some (LB_STATUS.LB_FAILURE, some { type := PO_IDLE, attributeHandle := 0 }) :=
  ⟨⟨_, rfl, (pending_operation_restored
      (ioController [eventCommandStatus_TI 0x92 0xFD]
        [(0xFF, [0x13, 0x05, 0x00, 0x40, 0x00, 0x00], 6)])
      (sessionConnected Adapter.TI) 0
      (connectedDevice 0x0040) Adapter.TI rfl rfl rfl).2.1 0x0025 [1] 1 _ _ rfl⟩,
   by decide, by decide, by decide⟩

/-! ## Connections: closing -/

theorem lb_executeCommand_device (io : IoThread) (s : Host) (command : List Nat)
    (commandLength : Nat) (response : List Nat) (maxResponseLength : Nat) (s1 : Host)
    (status : LB_STATUS) (response1 : List Nat)
    (h : lb_executeCommand io s command commandLength response maxResponseLength
      = some (s1, status, response1)) :
    ∃ h0 sh, io h0 = some sh ∧ h0.shared.device = s.shared.device
      ∧ h0.shared.operationComplete = s.shared.operationComplete
      ∧ s1.shared.device = sh.device ∧ s1.shared.operationComplete = sh.operationComplete := by
  unfold lb_executeCommand at h
  split_ifs at h with hlen
  simp only at h
  split at h
  · simp at h
  · rename_i shared2 hio
    split at h
    · simp at h
    · simp only [Option.some.injEq, Prod.mk.injEq] at h
      rw [← h.1]
      exact ⟨_, shared2, hio, rfl, rfl, rfl, rfl⟩

theorem closeDeviceConnection_device (adapter : Adapter) (io : IoThread) (s : Host)
    (device : LB_Device) (s1 : Host) (status : LB_STATUS)
    (h : closeDeviceConnection adapter io s device = some (s1, status)) :
    ∃ h0 sh, io h0 = some sh ∧ h0.shared.device = s.shared.device
      ∧ s1.shared.device = sh.device := by
  cases adapter
  · simp only [closeDeviceConnection, lb_closeDeviceConnection_TI, Option.map_eq_some'] at h
    obtain ⟨r, hr, hs⟩ := h
    obtain ⟨h0, sh, h1, h2, _, h3, _⟩ := lb_executeCommand_device io s _ _ _ _ r.1 r.2.1 r.2.2 hr
    simp only [Prod.mk.injEq] at hs
    rw [← hs.1]
    exact ⟨h0, sh, h1, h2, h3⟩
  · simp only [closeDeviceConnection, lb_closeDeviceConnection_ST, Option.map_eq_some'] at h
    obtain ⟨r, hr, hs⟩ := h
    obtain ⟨h0, sh, h1, h2, _, h3, _⟩ := lb_executeCommand_device io s _ _ _ _ r.1 r.2.1 r.2.2 hr
    simp only [Prod.mk.injEq] at hs
    rw [← hs.1]
    exact ⟨h0, sh, h1, h2, h3⟩

theorem on_connectedToDevice_first_slot (s : Shared) (address : List Nat) (handle : Nat)
    (d : LB_Device) (h0 : s.device[0]? = some d)
    (hfree : INVALID_CONNECTION_HANDLE = d.connectionHandle) :
    on_connectedToDevice s address handle
      = some { s with
          device := s.device.set 0
            { d with controller := true, connectionHandle := handle,
                     operationComplete := os_createCondition },
          operationComplete := os_signalCondition s.operationComplete (CondStatus.device 0) } := by
  have hloop : freeDeviceLoop s.device (deviceCount + 1) 0 = some 0 := by
    rw [freeDeviceLoop]
    simp [deviceCount, h0, hfree]
  unfold on_connectedToDevice
  rw [hloop]
  simp only [List.get?_eq_getElem?, h0]

/-- C27: whenever `lb_closeDeviceConnection` returns, with `LB_OK` or with
`LB_OPERATION_TIMEOUT`, the entry of the device has `controller` null and
`connectionHandle = INVALID_CONNECTION_HANDLE` (the value the scan for a free
entry looks for), and every other entry of the device table that the event
handlers left alone during the call is as it was before the call. -/
theorem close_connection_frees_slot (io : IoThread) (s : Host) (dev : Nat) (s1 : Host)
    (status : LB_STATUS)
    (hio : ∀ h sh, io h = some sh → ∀ j, j ≠ dev → sh.device[j]? = h.shared.device[j]?)
    (h : lb_closeDeviceConnection io s dev = some (s1, status)) :
    (status = LB_STATUS.LB_OK ∨ status = LB_STATUS.LB_OPERATION_TIMEOUT)
      ∧ s1.shared.device[dev]?.map (fun d => (d.controller, d.connectionHandle))
          = some (false, INVALID_CONNECTION_HANDLE)
      ∧ (∀ j, j ≠ dev → s1.shared.device[j]? = s.shared.device[j]?) := by
  unfold lb_closeDeviceConnection at h
  simp only [List.get?_eq_getElem?] at h
  split at h
  · simp at h
  · rename_i device hdev
    split_ifs at h with hc
    split at h
    · simp at h
    · rename_i sc hcommanded
      have hsc : ∀ j, j ≠ dev → sc.shared.device[j]? = s.shared.device[j]? := by
        intro j hj
        split at hcommanded
        · rename_i adapter hv
          simp only [Option.map_eq_some'] at hcommanded
          obtain ⟨r, hr, hs⟩ := hcommanded
          obtain ⟨h0, sh, h1, h2, h3⟩ :=
            closeDeviceConnection_device adapter io _ device r.1 r.2 hr
          rw [← hs, h3, hio h0 sh h1 j hj, h2]
          rfl
        · simp only [Option.some.injEq] at hcommanded
          rw [← hcommanded]
          rfl
      split at h
      · simp at h
      · rename_i shared2 hwait
        split at h
        · simp at h
        · rename_i d hd
          simp only [Option.some.injEq, Prod.mk.injEq] at h
          refine ⟨?_, ?_, ?_⟩
          · rw [← h.2]
            split
            · exact Or.inr rfl
            · exact Or.inl rfl
          · rw [← h.1, setDevice_getElem? _ dev d _ hd]
            rfl
          · intro j hj
            rw [← h.1, setDevice_getElem?_ne _ dev j _ hj]
            exact (hio sc shared2 hwait j hj).trans (hsc j hj)

/-- Witness of C27: closing the connection `0x0040` of a TI session.  With a
silent controller the call returns `LB_OPERATION_TIMEOUT`; when the controller
acknowledges `GAP_TerminateLinkReq` and sends `GAP_LinkTerminated` (handle
`0x0040`, reason `0x13`) it returns `LB_OK` after the application's
`lb_on_disconnectedFromDevice` was called with reason `0x13`.  The entry is
free again on both paths, and a later `on_connectedToDevice` fills it with the
connection `0x0041`. -/
theorem close_connection_frees_slot_witness :
    (∀ h sh, ioSilent h = some sh → ∀ j, j ≠ 0 → sh.device[j]? = h.shared.device[j]?)
      ∧ (∃ s1, lb_closeDeviceConnection ioSilent (sessionConnected Adapter.TI) 0
            = some (s1, LB_STATUS.LB_OPERATION_TIMEOUT)
          ∧ (LB_STATUS.LB_OPERATION_TIMEOUT = LB_STATUS.LB_OK
              ∨ LB_STATUS.LB_OPERATION_TIMEOUT = LB_STATUS.LB_OPERATION_TIMEOUT)
          ∧ s1.shared.device[0]?.map (fun d => (d.controller, d.connectionHandle))
              = some (false, INVALID_CONNECTION_HANDLE)
          ∧ (∀ j, j ≠ 0 →
              s1.shared.device[j]? = (sessionConnected Adapter.TI).shared.device[j]?))
      ∧ (lb_closeDeviceConnection
          (ioController [eventCommandStatus_TI 0x0A 0xFE]
            [(0xFF, [0x06, 0x06, 0x00, 0x40, 0x00, 0x13], 6)])
          (sessionConnected Adapter.TI) 0).map
          (fun r => (r.2, r.1.shared.device, r.1.shared.callbacks, r.1.wire))
        = some (LB_STATUS.LB_OK, List.replicate 8 freeDevice,
                [AppCallback.disconnectedFromDevice 0 0x13],
                [[0x01, 0x0A, 0xFE, 0x03, 0x40, 0x00, 0x13]])
      ∧ ((lb_closeDeviceConnection ioSilent (sessionConnected Adapter.TI) 0).bind
          (fun r => on_connectedToDevice r.1.shared [1, 2, 3, 4, 5, 6] 0x0041)).map
          (fun s2 => s2.device[0]?.map (fun d => (d.controller, d.connectionHandle)))
        = some (some (true, 0x0041)) :=
  ⟨fun h sh e j _ => by simp only [ioSilent, Option.some.injEq] at e; rw [← e],
   ⟨_, rfl, close_connection_frees_slot ioSilent (sessionConnected Adapter.TI) 0 _ _
      (fun h sh e j _ => by simp only [ioSilent, Option.some.injEq] at e; rw [← e]) rfl⟩,
   by decide, by decide⟩

/-! ## Connections: opening -/

theorem lb_openDeviceConnection_carried (io : IoThread) (s : Host) (address cmd : List Nat)
    (s1 : Host) (status : LB_STATUS) (device : CondStatus)
    (h : lb_openDeviceConnection io s address cmd = some (s1, status, device)) :
    (os_waitForCondition s1.shared.operationComplete = none
        ∧ status = LB_STATUS.LB_OPERATION_TIMEOUT ∧ device = CondStatus.value 0)
      ∨ (os_waitForCondition s1.shared.operationComplete = some device
        ∧ status = LB_STATUS.LB_OK) := by
  unfold lb_openDeviceConnection at h
  simp only at h
  split at h
  · simp at h
  · split at h
    · simp at h
    · split at h
      · rename_i hw
        simp only [Option.some.injEq, Prod.mk.injEq] at h
        left
        rw [← h.1, ← h.2.1, ← h.2.2]
        exact ⟨hw, rfl, rfl⟩
      · rename_i arg hw
        simp only [Option.some.injEq, Prod.mk.injEq] at h
        right
        rw [← h.1, ← h.2.1, ← h.2.2]
        exact ⟨hw, rfl⟩

/-- On a fresh TI session, `lb_openDeviceConnection` answered by the
acknowledgement of `GAP_EstablishLinkReq` and by `GAP_LinkEstablished` with
handle `0x0040` returns `LB_OK` with `*device` the entry 0, whose handle is
`0x0040`; with a silent controller it returns `LB_OPERATION_TIMEOUT` and a null
`*device`. -/
theorem open_connection_fresh_session :
    (lb_openDeviceConnection
        (ioController [eventCommandStatus_TI 0x09 0xFE]
          [(0xFF, [0x05, 0x06, 0, 0, 1, 2, 3, 4, 5, 6, 0x40, 0x00, 0, 0, 0, 0, 0, 0, 0, 0], 20)])
        (sessionResolved Adapter.TI) [1, 2, 3, 4, 5, 6] (List.replicate 13 0)).map
        (fun r => (r.2, r.1.shared.device[0]?.map (fun d => d.connectionHandle), r.1.wire))
      = some ((LB_STATUS.LB_OK, CondStatus.device 0), some 0x0040,
              [[0x01, 0x09, 0xFE, 0x09, 0, 0, 0, 1, 2, 3, 4, 5, 6]])
    ∧ (lb_openDeviceConnection ioSilent (sessionResolved Adapter.TI) [1, 2, 3, 4, 5, 6]
        (List.replicate 13 0)).map (fun r => r.2)
      = some (LB_STATUS.LB_OPERATION_TIMEOUT, CondStatus.value 0) := by
  decide

/-- C26: `lb_openDeviceConnection` stores in `*device` whatever the session
condition carries and returns `LB_OK`, and `on_disconnectedFromDevice` signals
the same condition with the reason code.  Whenever the wait ends with the
condition signalled with a reason code, the call returns `LB_OK` with `*device`
the reason cast to a pointer, which is no device and is the null pointer for
reason 0. -/
theorem open_connection_ok_without_device (io : IoThread) (s : Host) (address cmd : List Nat)
    (s1 : Host) (status : LB_STATUS) (device : CondStatus) (reason : Nat)
    (h : lb_openDeviceConnection io s address cmd = some (s1, status, device))
    (hsig : os_waitForCondition s1.shared.operationComplete
      = some (CondStatus.value reason)) :
    status = LB_STATUS.LB_OK ∧ device = CondStatus.value reason
      ∧ ∀ ii, device ≠ CondStatus.device ii := by
  rcases lb_openDeviceConnection_carried io s address cmd s1 status device h with
    ⟨hnone, _, _⟩ | ⟨hsome, hok⟩
  · rw [hnone] at hsig
    simp at hsig
  · rw [hsome] at hsig
    simp only [Option.some.injEq] at hsig
    refine ⟨hok, hsig, ?_⟩
    intro ii hdev
    rw [hsig] at hdev
    simp at hdev

/-- Witness of C26: a TI session holding the connection `0x0040`; the
controller acknowledges `GAP_EstablishLinkReq` and, during the wait, sends
`GAP_LinkTerminated` for `0x0040`.  With reason 0 the call returns `LB_OK` with
a null `*device`, after the one call of `lb_on_disconnectedFromDevice`; with
reason `0x08` it returns `LB_OK` with the pointer `0x08`. -/
theorem open_connection_ok_without_device_witness :
    (∃ s1, lb_openDeviceConnection
          (ioController [eventCommandStatus_TI 0x09 0xFE]
            [(0xFF, [0x06, 0x06, 0x00, 0x40, 0x00, 0x00], 6)])
          (sessionConnected Adapter.TI) [1, 2, 3, 4, 5, 6] (List.replicate 13 0)
          = some (s1, LB_STATUS.LB_OK, CondStatus.value 0)
        ∧ os_waitForCondition s1.shared.operationComplete = some (CondStatus.value 0)
        ∧ s1.shared.callbacks = [AppCallback.disconnectedFromDevice 0 0]
        ∧ (LB_STATUS.LB_OK = LB_STATUS.LB_OK ∧ CondStatus.value 0 = CondStatus.value 0
          ∧ ∀ ii, CondStatus.value 0 ≠ CondStatus.device ii))
      ∧ (lb_openDeviceConnection
          (ioController [eventCommandStatus_TI 0x09 0xFE]
            [(0xFF, [0x06, 0x06, 0x00, 0x40, 0x00, 0x08], 6)])
          (sessionConnected Adapter.TI) [1, 2, 3, 4, 5, 6] (List.replicate 13 0)).map
          (fun r => r.2)
        = some (LB_STATUS.LB_OK, CondStatus.value 0x08) :=
  ⟨⟨_, rfl, rfl, rfl,
    open_connection_ok_without_device
      (ioController [eventCommandStatus_TI 0x09 0xFE]
        [(0xFF, [0x06, 0x06, 0x00, 0x40, 0x00, 0x00], 6)])
      (sessionConnected Adapter.TI) [1, 2, 3, 4, 5, 6] (List.replicate 13 0) _ _ _ 0 rfl rfl⟩,
   by decide⟩

/-! ## Dispatcher: disconnection -/

theorem on_disconnectedFromDevice_first_slot (s : Shared) (handle reason : Nat) (d : LB_Device)
    (h0 : s.device[0]? = some d) (hh : d.connectionHandle = handle) :
    on_disconnectedFromDevice s handle reason
      = some { s with
          callbacks := s.callbacks ++ [AppCallback.disconnectedFromDevice 0 reason],
          operationComplete :=
            os_signalCondition s.operationComplete (CondStatus.value reason) } := by
  unfold on_disconnectedFromDevice
  rw [getDevice_first s.device handle d h0 hh]

theorem disconnection_first_slot (vendorFunctions : Option Adapter) (s : Shared)
    (status lo hi reason : Nat) (beyond : List Nat) (d : LB_Device)
    (h0 : s.device[0]? = some d) (hh : d.connectionHandle = uint16Value lo hi) :
    processEvent vendorFunctions s 0x05 ([status, lo, hi, reason] ++ beyond) 4
        = some { s with
            callbacks := s.callbacks ++ [AppCallback.disconnectedFromDevice 0 reason],
            operationComplete :=
              os_signalCondition s.operationComplete (CondStatus.value reason) }
      ∧ processEvent (some Adapter.TI) s 0xFF ([0x06, 0x06, status, lo, hi, reason] ++ beyond) 6
        = some { s with
            callbacks := s.callbacks ++ [AppCallback.disconnectedFromDevice 0 reason],
            operationComplete :=
              os_signalCondition s.operationComplete (CondStatus.value reason) } := by
  constructor
  · simp only [processEvent, dispatchEvent, if_true, List.cons_append, List.getD_cons_succ,
      List.getD_cons_zero]
    exact on_disconnectedFromDevice_first_slot s _ reason d h0 hh
  · have hcode : (([0x06, 0x06, status, lo, hi, reason] ++ beyond).getD 0 0
          ||| (([0x06, 0x06, status, lo, hi, reason] ++ beyond).getD 1 0) <<< 8) % 65536
        = 0x0606 := by
      simp only [List.cons_append, List.getD_cons_succ, List.getD_cons_zero]
      decide
    simp only [processEvent, dispatchEvent, on_vendorSpecificEvent,
      lb_on_vendorSpecificEvent_TI, hcode]
    simp only [List.cons_append, List.getD_cons_succ, List.getD_cons_zero]
    simp only [Nat.reduceEqDiff, if_false, if_true, Nat.reduceAdd]
    exact on_disconnectedFromDevice_first_slot s _ reason d h0 hh

/-! ## Command packets of the adapters -/

theorem executed_wire (io : IoThread) (s : Host) (command : List Nat) (commandLength : Nat)
    (s1 : Host) (status : LB_STATUS)
    (h : (lb_executeCommand io s command commandLength [] 0).map (fun r => (r.1, r.2.1))
      = some (s1, status)) :
    s1.wire = s.wire ++ [command.take commandLength] := by
  simp only [Option.map_eq_some'] at h
  obtain ⟨r, hr, hs⟩ := h
  simp only [Prod.mk.injEq] at hs
  rw [← hs.1]
  exact (lb_executeCommand_frame io s command commandLength [] 0 r.1 r.2.1 r.2.2 hr).2.2

theorem openCommand_ST (address cmd : List Nat) (hcmd : cmd.length = 34)
    (haddr : 6 ≤ address.length) :
    (memcpyAt (memcpyAt cmd 0 ACI_OPEN_CONNECTION_CMD) 9 (address.take 6)).take (28 + 6)
      = (ACI_OPEN_CONNECTION_CMD.take 9 ++ address.take 6 ++ ACI_OPEN_CONNECTION_CMD.drop 15)
          ++ cmd.drop 28 := by
  have hlen6 : (address.take 6).length = 6 := by simp [haddr]
  have hd : (cmd.drop 28).length = 6 := by simp [hcmd]
  unfold memcpyAt
  rw [hlen6]
  have h1 : List.take 0 cmd ++ ACI_OPEN_CONNECTION_CMD
      ++ List.drop (0 + ACI_OPEN_CONNECTION_CMD.length) cmd
      = ACI_OPEN_CONNECTION_CMD ++ cmd.drop 28 := by
    simp [ACI_OPEN_CONNECTION_CMD]
  rw [h1]
  have h2 : List.take 9 (ACI_OPEN_CONNECTION_CMD ++ cmd.drop 28)
      = ACI_OPEN_CONNECTION_CMD.take 9 := by
    rw [List.take_append_of_le_length (by decide)]
  have h3 : List.drop (9 + 6) (ACI_OPEN_CONNECTION_CMD ++ cmd.drop 28)
      = ACI_OPEN_CONNECTION_CMD.drop 15 ++ cmd.drop 28 := by
    rw [List.drop_append_of_le_length (by decide)]
  rw [h2, h3]
  have hlen : (List.take 9 ACI_OPEN_CONNECTION_CMD ++ List.take 6 address
      ++ (List.drop 15 ACI_OPEN_CONNECTION_CMD ++ List.drop 28 cmd)).length ≤ 28 + 6 := by
    simp only [List.length_append, hlen6, hd]
    decide
  rw [List.take_of_length_le hlen]
  simp only [List.append_assoc]

/-- C29: `lb_openDeviceConnection_ST` hands `lb_executeCommand` the whole local
array, `sizeof(ACI_OPEN_CONNECTION_CMD) + 6 = 34` bytes, but the address is
copied into the 28 bytes of the template (offset 9), whose length byte is
`0x18`.  The packet sent has first byte 1 and 34 bytes with byte 3 equal to 24,
not 30, and its last 6 bytes are what the array held before the call. -/
theorem open_connection_ST_length_mismatch (io : IoThread) (s : Host) (address cmd : List Nat)
    (s1 : Host) (status : LB_STATUS)
    (hcmd : cmd.length = 34) (haddr : 6 ≤ address.length)
    (h : lb_openDeviceConnection_ST io s address cmd = some (s1, status)) :
    ∃ c, s1.wire = s.wire ++ [c] ∧ c.length = 34 ∧ c.getD 0 0 = 1 ∧ c.getD 3 0 = 24
      ∧ c.drop 28 = cmd.drop 28 ∧ ¬ wellFormedCommand c := by
  have hlen6 : (address.take 6).length = 6 := by simp [haddr]
  have hd : (cmd.drop 28).length = 6 := by simp [hcmd]
  have hw := executed_wire io s _ _ s1 status h
  rw [openCommand_ST address cmd hcmd haddr] at hw
  have hp : (ACI_OPEN_CONNECTION_CMD.take 9 ++ address.take 6
      ++ ACI_OPEN_CONNECTION_CMD.drop 15).length = 28 := by
    simp only [List.length_append, hlen6]
    decide
  have hl : (ACI_OPEN_CONNECTION_CMD.take 9 ++ address.take 6
      ++ ACI_OPEN_CONNECTION_CMD.drop 15 ++ cmd.drop 28).length = 34 := by
    rw [List.length_append, hp, hd]
  have h0 : (ACI_OPEN_CONNECTION_CMD.take 9 ++ address.take 6
      ++ ACI_OPEN_CONNECTION_CMD.drop 15 ++ cmd.drop 28).getD 0 0 = 1 := by
    simp [ACI_OPEN_CONNECTION_CMD, HCI_PACKET_COMMAND]
  have h3 : (ACI_OPEN_CONNECTION_CMD.take 9 ++ address.take 6
      ++ ACI_OPEN_CONNECTION_CMD.drop 15 ++ cmd.drop 28).getD 3 0 = 24 := by
    simp [ACI_OPEN_CONNECTION_CMD]
  refine ⟨_, hw, hl, h0, h3, List.drop_left' hp, ?_⟩
  unfold wellFormedCommand
  rw [hl, h3]
  simp

/-- Witness of C29: an ST session, the address `06:05:04:03:02:01`, and a local
array that held `EE` in every byte before the call. -/
theorem open_connection_ST_length_mismatch_witness :
    (List.replicate 34 0xEE).length = 34
      ∧ 6 ≤ [1, 2, 3, 4, 5, 6].length
      ∧ (∃ s1, lb_openDeviceConnection_ST ioSilent (sessionResolved Adapter.ST)
            [1, 2, 3, 4, 5, 6] (List.replicate 34 0xEE) = some (s1, LB_STATUS.LB_FAILURE)
          ∧ ∃ c, s1.wire = (sessionResolved Adapter.ST).wire ++ [c] ∧ c.length = 34
              ∧ c.getD 0 0 = 1 ∧ c.getD 3 0 = 24
              ∧ c.drop 28 = (List.replicate 34 0xEE).drop 28 ∧ ¬ wellFormedCommand c)
      ∧ (lb_openDeviceConnection_ST ioSilent (sessionResolved Adapter.ST)
            [1, 2, 3, 4, 5, 6] (List.replicate 34 0xEE)).map (fun r => r.1.wire)
          = some [[0x01, 0x9C, 0xFC, 0x18, 0xD0, 0x07, 0xD0, 0x07, 0x00, 1, 2, 3, 4, 5, 6,
                   0x00, 0x14, 0x00, 0x28, 0x00, 0x00, 0x00, 0x64, 0x00, 0x02, 0x00, 0x02, 0x00,
                   0xEE, 0xEE, 0xEE, 0xEE, 0xEE, 0xEE]] :=
  ⟨rfl, by decide,
   ⟨_, rfl, open_connection_ST_length_mismatch ioSilent (sessionResolved Adapter.ST)
      [1, 2, 3, 4, 5, 6] (List.replicate 34 0xEE) _ _ rfl (by decide) rfl⟩,
   by decide⟩

theorem built_well_formed (io : IoThread) (s : Host) (command : List Nat) (commandLength : Nat)
    (s1 : Host) (status : LB_STATUS) (hwf : wellFormedCommand (command.take commandLength))
    (h : (lb_executeCommand io s command commandLength [] 0).map (fun r => (r.1, r.2.1))
      = some (s1, status)) :
    ∃ c, s1.wire = s.wire ++ [c] ∧ wellFormedCommand c :=
  ⟨_, executed_wire io s command commandLength s1 status h, hwf⟩

theorem openCommand_TI (address cmd : List Nat) (haddr : 6 ≤ address.length) :
    (memcpyAt (memcpyAt cmd 0 TI_OPEN_CONNECTION_CMD) 7 (address.take 6)).take (7 + 6)
      = TI_OPEN_CONNECTION_CMD ++ address.take 6 := by
  have hlen6 : (address.take 6).length = 6 := by simp [haddr]
  unfold memcpyAt
  rw [hlen6]
  have h1 : List.take 0 cmd ++ TI_OPEN_CONNECTION_CMD
      ++ List.drop (0 + TI_OPEN_CONNECTION_CMD.length) cmd
      = TI_OPEN_CONNECTION_CMD ++ cmd.drop 7 := by
    simp [TI_OPEN_CONNECTION_CMD]
  rw [h1]
  have h2 : List.take 7 (TI_OPEN_CONNECTION_CMD ++ cmd.drop 7) = TI_OPEN_CONNECTION_CMD := by
    rw [List.take_append_of_le_length (by decide)]
    rfl
  rw [h2]
  have hp : (TI_OPEN_CONNECTION_CMD ++ List.take 6 address).length = 7 + 6 := by
    rw [List.length_append, hlen6]
    rfl
  rw [List.take_append_of_le_length (by rw [hp]), List.take_of_length_le (by rw [hp])]

theorem writeCommand_well_formed (header : List Nat) (n : Nat) (attributeValue : List Nat)
    (attributeLength : Nat) (hn : header.length = n + 4) (hn8 : n ≤ 8)
    (h0 : header.getD 0 0 = HCI_PACKET_COMMAND)
    (h3 : header.getD 3 0 = (n + attributeLength) % 256)
    (hlen : attributeLength ≤ 55) (hval : attributeLength ≤ attributeValue.length) :
    wellFormedCommand
      ((header ++ attributeValue.take attributeLength).take ((n + 4 + attributeLength) % 256)) := by
  have htake : (attributeValue.take attributeLength).length = attributeLength := by
    simp [hval]
  have hmod : (n + 4 + attributeLength) % 256 = n + 4 + attributeLength :=
    Nat.mod_eq_of_lt (by omega)
  have hmod3 : (n + attributeLength) % 256 = n + attributeLength :=
    Nat.mod_eq_of_lt (by omega)
  rw [hmod, List.take_of_length_le (by rw [List.length_append, hn, htake])]
  unfold wellFormedCommand
  have hg0 : (header ++ attributeValue.take attributeLength).getD 0 0 = header.getD 0 0 := by
    simp only [List.getD_eq_getElem?_getD]
    rw [List.getElem?_append_left (by omega)]
  have hg3 : (header ++ attributeValue.take attributeLength).getD 3 0 = header.getD 3 0 := by
    simp only [List.getD_eq_getElem?_getD]
    rw [List.getElem?_append_left (by omega)]
  rw [hg0, hg3, h0, h3, hmod3, List.length_append, hn, htake]
  exact ⟨rfl, by omega⟩

/-- The command packets of all the other builders are well formed: configure,
start and stop discovery, close connection, service discovery, read request and
write (value of at most 55 bytes) of both adapters, and open connection of the
TI adapter. -/
theorem other_builders_well_formed (io : IoThread) (s : Host) (device : LB_Device)
    (address cmd attributeValue : List Nat) (attributeHandle attributeLength : Nat)
    (haddr : 6 ≤ address.length) (hlen : attributeLength ≤ 55)
    (hval : attributeLength ≤ attributeValue.length) (s1 : Host) (status : LB_STATUS) :
    (∀ adapter, configureAsCentral adapter io s = some (s1, status) →
        ∃ c, s1.wire = s.wire ++ [c] ∧ wellFormedCommand c)
      ∧ (∀ adapter, startDeviceDiscovery adapter io s = some (s1, status) →
        ∃ c, s1.wire = s.wire ++ [c] ∧ wellFormedCommand c)
      ∧ (∀ adapter, stopDeviceDiscovery adapter io s = some (s1, status) →
        ∃ c, s1.wire = s.wire ++ [c] ∧ wellFormedCommand c)
      ∧ (lb_openDeviceConnection_TI io s address cmd = some (s1, status) →
        ∃ c, s1.wire = s.wire ++ [c] ∧ wellFormedCommand c)
      ∧ (∀ adapter, closeDeviceConnection adapter io s device = some (s1, status) →
        ∃ c, s1.wire = s.wire ++ [c] ∧ wellFormedCommand c)
      ∧ (∀ adapter, startServiceDiscovery adapter io s device = some (s1, status) →
        ∃ c, s1.wire = s.wire ++ [c] ∧ wellFormedCommand c)
      ∧ (∀ adapter, requestCharValue adapter io s device attributeHandle = some (s1, status) →
        ∃ c, s1.wire = s.wire ++ [c] ∧ wellFormedCommand c)
      ∧ (∀ adapter,
        writeCharValue adapter io s device attributeHandle attributeValue attributeLength
            = some (s1, status) →
        ∃ c, s1.wire = s.wire ++ [c] ∧ wellFormedCommand c) := by
  refine ⟨?_, ?_, ?_, ?_, ?_, ?_, ?_, ?_⟩
  · intro adapter h
    cases adapter
    · exact built_well_formed io s _ _ s1 status (by unfold wellFormedCommand; decide) h
    · exact built_well_formed io s _ _ s1 status (by unfold wellFormedCommand; decide) h
  · intro adapter h
    cases adapter
    · exact built_well_formed io s _ _ s1 status (by unfold wellFormedCommand; decide) h
    · exact built_well_formed io s _ _ s1 status (by unfold wellFormedCommand; decide) h
  · intro adapter h
    cases adapter
    · exact built_well_formed io s _ _ s1 status (by unfold wellFormedCommand; decide) h
    · exact built_well_formed io s _ _ s1 status (by unfold wellFormedCommand; decide) h
  · intro h
    refine built_well_formed io s _ _ s1 status ?_ h
    rw [openCommand_TI address cmd haddr]
    have hlen6 : (address.take 6).length = 6 := by simp [haddr]
    unfold wellFormedCommand
    rw [List.length_append, hlen6]
    simp [TI_OPEN_CONNECTION_CMD, HCI_PACKET_COMMAND]
  · intro adapter h
    cases adapter
    · exact built_well_formed io s _ _ s1 status
        (by simp [wellFormedCommand, HCI_PACKET_COMMAND]) h
    · exact built_well_formed io s _ _ s1 status
        (by simp [wellFormedCommand, HCI_PACKET_COMMAND, ACI_TERMINATE_CONNECTION_CMD]) h
  · intro adapter h
    cases adapter
    · exact built_well_formed io s _ _ s1 status
        (by simp [wellFormedCommand, HCI_PACKET_COMMAND]) h
    · exact built_well_formed io s _ _ s1 status
        (by simp [wellFormedCommand, HCI_PACKET_COMMAND]) h
  · intro adapter h
    cases adapter
    · exact built_well_formed io s _ _ s1 status
        (by simp [wellFormedCommand, HCI_PACKET_COMMAND]) h
    · exact built_well_formed io s _ _ s1 status
        (by simp [wellFormedCommand, HCI_PACKET_COMMAND]) h
  · intro adapter h
    cases adapter
    · simp only [writeCharValue, lb_writeCharValue_TI] at h
      split_ifs at h
      refine built_well_formed io s _ _ s1 status ?_ h
      exact writeCommand_well_formed _ 4 attributeValue attributeLength rfl (by decide) rfl rfl
        hlen hval
    · simp only [writeCharValue, lb_writeCharValue_ST] at h
      split_ifs at h
      refine built_well_formed io s _ _ s1 status ?_ h
      exact writeCommand_well_formed _ 5 attributeValue attributeLength rfl (by decide) rfl rfl
        hlen hval

/-! ## GATT operations: the read response -/

theorem storeReadResponse_max (s : Shared) (ii attributeLength header length : Nat)
    (value : List Nat) (d : LB_Device) (s1 : Shared) (hd : s.device[ii]? = some d)
    (h : storeReadResponse s ii attributeLength header length value = some s1) :
    s1.device[ii]?.map (fun d1 => d1.pendingRead)
      = some { d.pendingRead with
          attributeValue := memcpyAt d.pendingRead.attributeValue 0
            (value.take (max attributeLength d.pendingRead.attributeCapacity)),
          attributeLength := max attributeLength d.pendingRead.attributeCapacity } := by
  have hlt : ii < s.device.length := by
    by_contra hge
    rw [List.getElem?_eq_none (by omega)] at hd
    simp at hd
  unfold storeReadResponse at h
  simp only [List.get?_eq_getElem?, hd] at h
  split_ifs at h with hpend hsize hc
  · simp only [Option.some.injEq] at h
    rw [← h]
    simp only [List.getElem?_set_self hlt, Option.map_some', max_eq_right (le_of_lt hc)]
  · simp only [Option.some.injEq] at h
    rw [← h]
    simp only [List.getElem?_set_self hlt, Option.map_some', max_eq_left (not_lt.mp hc)]

theorem storeReadResponse_stores (s : Shared) (ii w header : Nat) (value : List Nat)
    (d : LB_Device) (hd : s.device[ii]? = some d)
    (hp : d.pendingOperation.attributeHandle ≠ 0) (ht : PO_READ = d.pendingOperation.type) :
    storeReadResponse s ii w header (w + header) value
      = some { s with
          device := s.device.set ii
            { d with
              pendingRead :=
                { d.pendingRead with
                  attributeValue := memcpyAt d.pendingRead.attributeValue 0
                    (value.take (max w d.pendingRead.attributeCapacity)),
                  attributeLength := max w d.pendingRead.attributeCapacity } } } := by
  unfold storeReadResponse
  simp only [List.get?_eq_getElem?, hd, hp, ht, ne_eq, not_false_eq_true, and_self, if_true]
  by_cases hc : w < d.pendingRead.attributeCapacity
  · simp only [if_pos hc, max_eq_right (le_of_lt hc)]
  · simp only [if_neg hc, max_eq_left (not_lt.mp hc)]

theorem take_value_beyond (value beyond : List Nat) (w n : Nat) (hw : value.length = w)
    (hn : w ≤ n) : (value ++ beyond).take n = value ++ beyond.take (n - w) := by
  rw [List.take_append_eq_append_take, hw, List.take_of_length_le (by omega)]

/-- C23: the clamp of the read handlers is inverted
(`if (attributeLength < capacity) attributeLength = capacity`).  For a pending
read on the device of entry 0 with capacity `cap`, a TI `ATT_ReadRsp` and an ST
`EVT_BLUE_ATT_READ_RESP` carrying `w` value bytes store the length
`max w cap`, not `min w cap`, and copy that many bytes: the value and the
`cap - w` bytes that follow it in memory when `w < cap`, and all `w` bytes,
`w - cap` of them past the end of the caller's buffer, when `cap < w`. -/
theorem read_length_clamp_inverted (s : Shared) (d : LB_Device) (status lo hi w : Nat)
    (value beyond : List Nat)
    (h0 : s.device[0]? = some d) (hh : d.connectionHandle = (lo ||| hi <<< 8) % 65536)
    (hc : d.controller = true) (hp : d.pendingOperation.attributeHandle ≠ 0)
    (ht : PO_READ = d.pendingOperation.type) (hw : value.length = w) :
    (lb_on_vendorSpecificEvent_TI s ([0x0B, 0x05, status, lo, hi, w] ++ value ++ beyond)
        (w + 6)).map (fun s1 => s1.device[0]?.map (fun d1 => (d1.pendingRead, d1.operationComplete)))
      = some (some
          ({ d.pendingRead with
              attributeValue := memcpyAt d.pendingRead.attributeValue 0
                (value ++ beyond.take (max w d.pendingRead.attributeCapacity - w)),
              attributeLength := max w d.pendingRead.attributeCapacity },
           { signalled := true, status := CondStatus.value status }))
    ∧ (lb_on_vendorSpecificEvent_ST s ([0x07, 0x0C, lo, hi, w] ++ value ++ beyond)
        (w + 5)).map (fun s1 => s1.device[0]?.map (fun d1 => d1.pendingRead))
      = some (some
          { d.pendingRead with
              attributeValue := memcpyAt d.pendingRead.attributeValue 0
                (value ++ beyond.take (max w d.pendingRead.attributeCapacity - w)),
              attributeLength := max w d.pendingRead.attributeCapacity }) := by
  have hlt : 0 < s.device.length := by
    by_contra hge
    rw [List.getElem?_eq_none (by omega)] at h0
    simp at h0
  have hget : getDevice s.device ((lo ||| hi <<< 8) % 65536) = some 0 :=
    getDevice_first s.device _ d h0 hh
  have htake := take_value_beyond value beyond w (max w d.pendingRead.attributeCapacity) hw
    (le_max_left _ _)
  constructor
  · have hcode : (([0x0B, 0x05, status, lo, hi, w] ++ value ++ beyond).getD 0 0
          ||| (([0x0B, 0x05, status, lo, hi, w] ++ value ++ beyond).getD 1 0) <<< 8) % 65536
        = 0x050B := by
      simp only [List.cons_append, List.getD_cons_succ, List.getD_cons_zero]
      decide
    simp only [lb_on_vendorSpecificEvent_TI, hcode]
    simp only [List.cons_append, List.getD_cons_succ, List.getD_cons_zero, List.drop_succ_cons,
      List.drop_zero, List.nil_append, List.append_assoc]
    simp only [Nat.reduceEqDiff, if_false, if_true, hget,
      storeReadResponse_stores s 0 w 6 (value ++ beyond) d h0 hp ht, htake]
    simp only [signalDevice, List.get?_eq_getElem?, List.getElem?_set_self hlt, hc, if_true,
      Option.map_some', List.set_set, os_signalCondition]
  · have hcode : (([0x07, 0x0C, lo, hi, w] ++ value ++ beyond).getD 0 0
          ||| (([0x07, 0x0C, lo, hi, w] ++ value ++ beyond).getD 1 0) <<< 8) % 65536
        = 0x0C07 := by
      simp only [List.cons_append, List.getD_cons_succ, List.getD_cons_zero]
      decide
    simp only [lb_on_vendorSpecificEvent_ST, hcode]
    simp only [List.cons_append, List.getD_cons_succ, List.getD_cons_zero, List.drop_succ_cons,
      List.drop_zero, List.nil_append, List.append_assoc]
    simp only [Nat.reduceEqDiff, if_false, if_true, hget,
      storeReadResponse_stores s 0 w 5 (value ++ beyond) d h0 hp ht, htake]
    simp only [List.getElem?_set_self hlt, Option.map_some']

/-- Witness of C23: the connection `0x0040` in entry 0 with a pending read of
attribute `0x0025` into a 4-byte buffer, and a response carrying `AA BB`
followed in memory by `11 22`.  The whole `lb_readCharValue` then reports 4
bytes `AA BB 11 22` on both adapters, and for a 6-byte value it reports 6 bytes,
two of them past the end of the buffer. -/
theorem read_length_clamp_inverted_witness :
    ((lb_on_vendorSpecificEvent_TI
          (setDevice (sessionConnected Adapter.TI) 0
            { connectedDevice 0x0040 with
              pendingOperation := { type := PO_READ, attributeHandle := 0x0025 },
              pendingRead := { attributeValue := [0, 0, 0, 0], attributeCapacity := 4,
                               attributeLength := 0 } }).shared
          ([0x0B, 0x05, 0x00, 0x40, 0x00, 2] ++ [0xAA, 0xBB] ++ [0x11, 0x22]) (2 + 6)).map
          (fun s1 => s1.device[0]?.map (fun d1 => (d1.pendingRead, d1.operationComplete)))
        = some (some
            ({ attributeValue := [0xAA, 0xBB, 0x11, 0x22], attributeCapacity := 4,
               attributeLength := 4 },
             { signalled := true, status := CondStatus.value 0 })))
    ∧ (lb_readCharValue
        (ioController [eventCommandStatus_TI 0x8A 0xFD]
          [(0xFF, [0x0B, 0x05, 0x00, 0x40, 0x00, 0x02, 0xAA, 0xBB, 0x11, 0x22], 8)])
        (sessionConnected Adapter.TI) 0 0x0025 [0, 0, 0, 0] 4 0).map (fun r => r.2)
      = some (LB_STATUS.LB_OK, [0xAA, 0xBB, 0x11, 0x22], 4)
    ∧ (lb_readCharValue
        (ioController [eventCommandStatus_TI 0x8A 0xFD]
          [(0xFF, [0x0B, 0x05, 0x00, 0x40, 0x00, 0x06, 1, 2, 3, 4, 5, 6], 12)])
        (sessionConnected Adapter.TI) 0 0x0025 [0, 0, 0, 0] 4 0).map (fun r => r.2)
      = some (LB_STATUS.LB_OK, [1, 2, 3, 4, 5, 6], 6)
    ∧ (lb_readCharValue
        (ioController [eventCommandStatus 0x18 0xFD]
          [(0xFF, [0x07, 0x0C, 0x40, 0x00, 0x02, 0xAA, 0xBB, 0x11, 0x22], 7),
           (0xFF, [0x10, 0x0C, 0x40, 0x00, 0x01, 0x00], 6)])
        (sessionConnected Adapter.ST) 0 0x0025 [0, 0, 0, 0] 4 0).map (fun r => r.2)
      = some (LB_STATUS.LB_OK, [0xAA, 0xBB, 0x11, 0x22], 4)
    ∧ (lb_readCharValue
        (ioController [eventCommandStatus 0x18 0xFD]
          [(0xFF, [0x07, 0x0C, 0x40, 0x00, 0x06, 1, 2, 3, 4, 5, 6], 11),
           (0xFF, [0x10, 0x0C, 0x40, 0x00, 0x01, 0x00], 6)])
        (sessionConnected Adapter.ST) 0 0x0025 [0, 0, 0, 0] 4 0).map (fun r => r.2)
      = some (LB_STATUS.LB_OK, [1, 2, 3, 4, 5, 6], 6) :=
  ⟨(read_length_clamp_inverted
      (setDevice (sessionConnected Adapter.TI) 0
        { connectedDevice 0x0040 with
          pendingOperation := { type := PO_READ, attributeHandle := 0x0025 },
          pendingRead := { attributeValue := [0, 0, 0, 0], attributeCapacity := 4,
                           attributeLength := 0 } }).shared
      _ 0x00 0x40 0x00 2 [0xAA, 0xBB] [0x11, 0x22] rfl (by decide) rfl (by decide) rfl rfl).1,
   by decide, by decide, by decide, by decide⟩

/-! ## GATT operations: what the event handlers see -/

theorem sameRecords_refl (s : Shared) : sameRecords s s :=
  fun _ => rfl

theorem primaryServiceLoop_device (connectionHandle attributeDataLength : Nat)
    (buffer : List Nat) (length : Nat) :
    ∀ fuel pos s s1,
      primaryServiceLoop connectionHandle attributeDataLength buffer length fuel pos s = some s1 →
      s1.device = s.device := by
  intro fuel
  induction fuel with
  | zero => intro pos s s1 h; simp [primaryServiceLoop] at h
  | succ n ih =>
    intro pos s s1 h
    rw [primaryServiceLoop] at h
    split_ifs at h
    · simp only at h
      split at h
      · simp at h
      · exact (ih _ _ _ h).trans rfl
    · simp only [Option.some.injEq] at h
      rw [← h]

theorem recordKept_pendingRecordInvariant (dev : Nat) (h : Host) :
    pendingRecordInvariant dev h
      = match pendingRecord dev h with
        | none => false
        | some p => recordKept p :=
  rfl

theorem length_eq_seventeen (l : List Nat) (h : l.length = 17) :
    ∃ a0 a1 a2 a3 a4 a5 a6 a7 a8 a9 a10 a11 a12 a13 a14 a15 a16, l = [a0, a1, a2, a3, a4, a5, a6, a7, a8, a9, a10, a11, a12, a13, a14, a15, a16] := by
  rcases l with _ | ⟨a0, _ | ⟨a1, _ | ⟨a2, _ | ⟨a3, _ | ⟨a4, _ | ⟨a5, _ | ⟨a6, _ | ⟨a7, _ | ⟨a8, _ | ⟨a9, _ | ⟨a10, _ | ⟨a11, _ | ⟨a12, _ | ⟨a13, _ | ⟨a14, _ | ⟨a15, _ | ⟨a16, _ | ⟨x, rest⟩⟩⟩⟩⟩⟩⟩⟩⟩⟩⟩⟩⟩⟩⟩⟩⟩⟩
  all_goals first
    | exact ⟨_, _, _, _, _, _, _, _, _, _, _, _, _, _, _, _, _, rfl⟩
    | (simp only [List.length_cons, List.length_nil] at h; omega)

theorem length_eq_six (l : List Nat) (h : l.length = 6) :
    ∃ a0 a1 a2 a3 a4 a5, l = [a0, a1, a2, a3, a4, a5] := by
  rcases l with _ | ⟨a0, _ | ⟨a1, _ | ⟨a2, _ | ⟨a3, _ | ⟨a4, _ | ⟨a5, _ | ⟨x, rest⟩⟩⟩⟩⟩⟩⟩
  all_goals first
    | exact ⟨_, _, _, _, _, _, rfl⟩
    | (simp only [List.length_cons, List.length_nil] at h; omega)

theorem hexChar_lower (c v : Nat) (h : hexDigitValue c = some v) : hexChar v = lowerHex c := by
  unfold hexDigitValue at h
  unfold hexChar lowerHex
  split_ifs at h ⊢ <;> simp at h <;> omega

theorem hexDigitValue_hexChar (v : Nat) (hv : v < 16) : hexDigitValue (hexChar v) = some v := by
  interval_cases v <;> rfl

theorem printHex02_digits (c1 c2 v w : Nat) (hv : hexDigitValue c1 = some v)
    (hw : hexDigitValue c2 = some w) :
    printHex02 (16 * v + w) = [lowerHex c1, lowerHex c2] := by
  have h1 := hexDigitValue_lt c1 v hv
  have h2 := hexDigitValue_lt c2 w hw
  have hd : (16 * v + w) / 16 = v := by omega
  have hm : (16 * v + w) % 16 = w := by omega
  unfold printHex02
  rw [hd, hm, hexChar_lower c1 v hv, hexChar_lower c2 w hw]

theorem utl_printAddress_parsed (text a : List Nat) (hstr : ∀ c ∈ text, c ≠ 0)
    (hparse : utl_parseAddress text = some (true, a)) :
    utl_printAddress a = text.map lowerHex := by
  have hform := utl_parseAddress_form text hstr a hparse
  rw [utl_parseAddress_accepts text hform] at hparse
  simp only [Option.some.injEq, Prod.mk.injEq, true_and] at hparse
  subst hparse
  obtain ⟨a0, a1, a2, a3, a4, a5, a6, a7, a8, a9, a10, a11, a12, a13, a14, a15, a16, rfl⟩ := length_eq_seventeen text hform.1
  have c2 : a2 = 58 := by simpa [addressChar] using hform.2 2 (by decide)
  have c5 : a5 = 58 := by simpa [addressChar] using hform.2 5 (by decide)
  have c8 : a8 = 58 := by simpa [addressChar] using hform.2 8 (by decide)
  have c11 : a11 = 58 := by simpa [addressChar] using hform.2 11 (by decide)
  have c14 : a14 = 58 := by simpa [addressChar] using hform.2 14 (by decide)
  obtain ⟨v0, hv0⟩ := Option.isSome_iff_exists.mp
    (by simpa [addressChar] using hform.2 0 (by decide))
  obtain ⟨v1, hv1⟩ := Option.isSome_iff_exists.mp
    (by simpa [addressChar] using hform.2 1 (by decide))
  obtain ⟨v3, hv3⟩ := Option.isSome_iff_exists.mp
    (by simpa [addressChar] using hform.2 3 (by decide))
  obtain ⟨v4, hv4⟩ := Option.isSome_iff_exists.mp
    (by simpa [addressChar] using hform.2 4 (by decide))
  obtain ⟨v6, hv6⟩ := Option.isSome_iff_exists.mp
    (by simpa [addressChar] using hform.2 6 (by decide))
  obtain ⟨v7, hv7⟩ := Option.isSome_iff_exists.mp
    (by simpa [addressChar] using hform.2 7 (by decide))
  obtain ⟨v9, hv9⟩ := Option.isSome_iff_exists.mp
    (by simpa [addressChar] using hform.2 9 (by decide))
  obtain ⟨v10, hv10⟩ := Option.isSome_iff_exists.mp
    (by simpa [addressChar] using hform.2 10 (by decide))
  obtain ⟨v12, hv12⟩ := Option.isSome_iff_exists.mp
    (by simpa [addressChar] using hform.2 12 (by decide))
  obtain ⟨v13, hv13⟩ := Option.isSome_iff_exists.mp
    (by simpa [addressChar] using hform.2 13 (by decide))
  obtain ⟨v15, hv15⟩ := Option.isSome_iff_exists.mp
    (by simpa [addressChar] using hform.2 15 (by decide))
  obtain ⟨v16, hv16⟩ := Option.isSome_iff_exists.mp
    (by simpa [addressChar] using hform.2 16 (by decide))
  subst c2 c5 c8 c11 c14
  simp only [groupValue, Nat.reduceMul, Nat.reduceAdd, List.getD_cons_succ, List.getD_cons_zero,
    hv0, hv1, hv3, hv4, hv6, hv7, hv9, hv10, hv12, hv13, hv15, hv16, Option.getD_some]
  simp only [utl_printAddress, printAddressLoop, Nat.reduceSub, Nat.reduceAdd,
    List.getD_cons_succ, List.getD_cons_zero, ne_eq, not_true_eq_false, if_false,
    OfNat.ofNat_ne_zero, not_false_eq_true, if_true, one_ne_zero,
    printHex02_digits a0 a1 v0 v1 hv0 hv1, printHex02_digits a3 a4 v3 v4 hv3 hv4, printHex02_digits a6 a7 v6 v7 hv6 hv7, printHex02_digits a9 a10 v9 v10 hv9 hv10, printHex02_digits a12 a13 v12 v13 hv12 hv13, printHex02_digits a15 a16 v15 v16 hv15 hv16]
  rfl

theorem utl_parseAddress_printed (b : List Nat) (hlen : b.length = 6)
    (hb : ∀ x ∈ b, x < 256) : utl_parseAddress (utl_printAddress b) = some (true, b) := by
  obtain ⟨b0, b1, b2, b3, b4, b5, rfl⟩ := length_eq_six b hlen
  have h0 : b0 < 256 := hb b0 (by simp)
  have h1 : b1 < 256 := hb b1 (by simp)
  have h2 : b2 < 256 := hb b2 (by simp)
  have h3 : b3 < 256 := hb b3 (by simp)
  have h4 : b4 < 256 := hb b4 (by simp)
  have h5 : b5 < 256 := hb b5 (by simp)
  have eh0 := hexDigitValue_hexChar (b0 / 16) (by omega)
  have el0 := hexDigitValue_hexChar (b0 % 16) (by omega)
  have eh1 := hexDigitValue_hexChar (b1 / 16) (by omega)
  have el1 := hexDigitValue_hexChar (b1 % 16) (by omega)
  have eh2 := hexDigitValue_hexChar (b2 / 16) (by omega)
  have el2 := hexDigitValue_hexChar (b2 % 16) (by omega)
  have eh3 := hexDigitValue_hexChar (b3 / 16) (by omega)
  have el3 := hexDigitValue_hexChar (b3 % 16) (by omega)
  have eh4 := hexDigitValue_hexChar (b4 / 16) (by omega)
  have el4 := hexDigitValue_hexChar (b4 % 16) (by omega)
  have eh5 := hexDigitValue_hexChar (b5 / 16) (by omega)
  have el5 := hexDigitValue_hexChar (b5 % 16) (by omega)
  have hprint : utl_printAddress [b0, b1, b2, b3, b4, b5]
      = [hexChar (b5 / 16), hexChar (b5 % 16), 58, hexChar (b4 / 16), hexChar (b4 % 16), 58, hexChar (b3 / 16), hexChar (b3 % 16), 58, hexChar (b2 / 16), hexChar (b2 % 16), 58, hexChar (b1 / 16), hexChar (b1 % 16), 58, hexChar (b0 / 16), hexChar (b0 % 16)] := rfl
  have hform : addressForm
      [hexChar (b5 / 16), hexChar (b5 % 16), 58, hexChar (b4 / 16), hexChar (b4 % 16), 58, hexChar (b3 / 16), hexChar (b3 % 16), 58, hexChar (b2 / 16), hexChar (b2 % 16), 58, hexChar (b1 / 16), hexChar (b1 % 16), 58, hexChar (b0 / 16), hexChar (b0 % 16)] := by
    refine ⟨rfl, ?_⟩
    intro i hi
    interval_cases i <;> simp [addressChar, eh0, el0, eh1, el1, eh2, el2, eh3, el3, eh4, el4, eh5, el5]
  rw [hprint, utl_parseAddress_accepts _ hform]
  simp only [groupValue, Nat.reduceMul, Nat.reduceAdd, List.getD_cons_succ, List.getD_cons_zero,
    eh0, el0, eh1, el1, eh2, el2, eh3, el3, eh4, el4, eh5, el5, Option.getD_some, Nat.div_add_mod b0 16, Nat.div_add_mod b1 16, Nat.div_add_mod b2 16, Nat.div_add_mod b3 16, Nat.div_add_mod b4 16, Nat.div_add_mod b5 16]

/-- C31: for every 0-terminated string that `utl_parseAddress` accepts, the
text `utl_printAddress` writes for the parsed 6 bytes is the string with its
digits `A`-`F` lower-cased; and for every 6-byte address, parsing the text
printed for it returns true and yields the address. -/
theorem address_round_trip (text a b : List Nat) (hstr : ∀ c ∈ text, c ≠ 0)
    (hparse : utl_parseAddress text = some (true, a)) (hlen : b.length = 6)
    (hb : ∀ x ∈ b, x < 256) :
    utl_printAddress a = text.map lowerHex
      ∧ utl_parseAddress (utl_printAddress b) = some (true, b) :=
  ⟨utl_printAddress_parsed text a hstr hparse, utl_parseAddress_printed b hlen hb⟩

/-- Witness of C31: `"AA:BB:CC:DD:EE:FF"` is parsed to `FF EE DD CC BB AA`, which
is printed as `"aa:bb:cc:dd:ee:ff"`; the address `01 23 45 67 89 AB` is printed
as `"ab:89:67:45:23:01"`, which is parsed to the same 6 bytes. -/
theorem address_round_trip_witness :
    (∀ c ∈ textAABBCCDDEEFF, c ≠ 0)
      ∧ utl_parseAddress textAABBCCDDEEFF = some (true, [0xFF, 0xEE, 0xDD, 0xCC, 0xBB, 0xAA])
      ∧ [0x01, 0x23, 0x45, 0x67, 0x89, 0xAB].length = 6
      ∧ (∀ x ∈ [0x01, 0x23, 0x45, 0x67, 0x89, 0xAB], x < 256)
      ∧ (utl_printAddress [0xFF, 0xEE, 0xDD, 0xCC, 0xBB, 0xAA] = textAABBCCDDEEFF.map lowerHex
        ∧ utl_parseAddress (utl_printAddress [0x01, 0x23, 0x45, 0x67, 0x89, 0xAB])
          = some (true, [0x01, 0x23, 0x45, 0x67, 0x89, 0xAB]))
      ∧ utl_printAddress [0xFF, 0xEE, 0xDD, 0xCC, 0xBB, 0xAA]
          = [97, 97, 58, 98, 98, 58, 99, 99, 58, 100, 100, 58, 101, 101, 58, 102, 102]
      ∧ utl_printAddress [0x01, 0x23, 0x45, 0x67, 0x89, 0xAB]
          = [97, 98, 58, 56, 57, 58, 54, 55, 58, 52, 53, 58, 50, 51, 58, 48, 49] :=
  ⟨by decide, by decide, rfl, by decide,
   address_round_trip textAABBCCDDEEFF [0xFF, 0xEE, 0xDD, 0xCC, 0xBB, 0xAA]
     [0x01, 0x23, 0x45, 0x67, 0x89, 0xAB] (by decide) (by decide) rfl (by decide),
   by decide, by decide⟩

/-! ## Sessions without an adapter -/

/-- C39: on a session with no adapter, `lb_configureAsCentral`,
`lb_startDeviceDiscovery` and `lb_stopDeviceDiscovery` return
`LB_UNKNOWN_VENDOR` and leave the whole session as it is (nothing is sent, the
command table is unchanged), and so do `lb_writeCharValue`, `lb_readCharValue`
and `lb_startServiceDiscovery` on a connected device: no pending operation is
recorded, and the caller's buffer and out-length are untouched. -/
theorem no_adapter_guard (io : IoThread) (s : Host) (dev : Nat) (device : LB_Device)
    (attributeHandle : Nat) (attributeValue : List Nat)
    (attributeLength attributeCapacity outLength : Nat)
    (hvend : s.vendorFunctions = none)
    (hdev : s.shared.device[dev]? = some device)
    (hconn : isDeviceConnected device = true) (hctl : device.controller = true) :
    lb_configureAsCentral io s = some (s, LB_STATUS.LB_UNKNOWN_VENDOR)
      ∧ lb_startDeviceDiscovery io s = some (s, LB_STATUS.LB_UNKNOWN_VENDOR)
      ∧ lb_stopDeviceDiscovery io s = some (s, LB_STATUS.LB_UNKNOWN_VENDOR)
      ∧ lb_writeCharValue io s dev attributeHandle attributeValue attributeLength
        = some (s, LB_STATUS.LB_UNKNOWN_VENDOR)
      ∧ lb_readCharValue io s dev attributeHandle attributeValue attributeCapacity outLength
        = some (s, LB_STATUS.LB_UNKNOWN_VENDOR, attributeValue, outLength)
      ∧ lb_startServiceDiscovery io s dev = some (s, LB_STATUS.LB_UNKNOWN_VENDOR) := by
  refine ⟨?_, ?_, ?_, ?_, ?_, ?_⟩
  · simp only [lb_configureAsCentral, hvend]
  · simp only [lb_startDeviceDiscovery, hvend]
  · simp only [lb_stopDeviceDiscovery, hvend]
  · simp [lb_writeCharValue, hdev, hconn, hctl, hvend]
  · simp [lb_readCharValue, hdev, hconn, hctl, hvend]
  · simp [lb_startServiceDiscovery, hdev, hconn, hctl, hvend]

/-- Witness of C39: the session after `lb_connect` (no adapter) with the
connection `0x0040` in entry 0, and a controller that would acknowledge every
command. -/
theorem no_adapter_guard_witness :
    (setDevice sessionStart 0 (connectedDevice 0x0040)).vendorFunctions = none
      ∧ (setDevice sessionStart 0 (connectedDevice 0x0040)).shared.device[0]?
          = some (connectedDevice 0x0040)
      ∧ isDeviceConnected (connectedDevice 0x0040) = true
      ∧ (connectedDevice 0x0040).controller = true
      ∧ (lb_configureAsCentral (ioAcknowledge []) (setDevice sessionStart 0 (connectedDevice 0x0040))
          = some (setDevice sessionStart 0 (connectedDevice 0x0040), LB_STATUS.LB_UNKNOWN_VENDOR)
        ∧ lb_startDeviceDiscovery (ioAcknowledge [])
            (setDevice sessionStart 0 (connectedDevice 0x0040))
          = some (setDevice sessionStart 0 (connectedDevice 0x0040), LB_STATUS.LB_UNKNOWN_VENDOR)
        ∧ lb_stopDeviceDiscovery (ioAcknowledge [])
            (setDevice sessionStart 0 (connectedDevice 0x0040))
          = some (setDevice sessionStart 0 (connectedDevice 0x0040), LB_STATUS.LB_UNKNOWN_VENDOR)
        ∧ lb_writeCharValue (ioAcknowledge [])
            (setDevice sessionStart 0 (connectedDevice 0x0040)) 0 0x0025 [1, 2] 2
          = some (setDevice sessionStart 0 (connectedDevice 0x0040), LB_STATUS.LB_UNKNOWN_VENDOR)
        ∧ lb_readCharValue (ioAcknowledge [])
            (setDevice sessionStart 0 (connectedDevice 0x0040)) 0 0x0025 [1, 2] 2 7
          = some (setDevice sessionStart 0 (connectedDevice 0x0040),
              LB_STATUS.LB_UNKNOWN_VENDOR, [1, 2], 7)
        ∧ lb_startServiceDiscovery (ioAcknowledge [])
            (setDevice sessionStart 0 (connectedDevice 0x0040)) 0
          = some (setDevice sessionStart 0 (connectedDevice 0x0040),
              LB_STATUS.LB_UNKNOWN_VENDOR)) :=
  ⟨rfl, rfl, rfl, rfl,
   no_adapter_guard (ioAcknowledge []) (setDevice sessionStart 0 (connectedDevice 0x0040)) 0
     (connectedDevice 0x0040) 0x0025 [1, 2] 2 2 7 rfl rfl rfl rfl⟩

/-! ## Initialization: failures and the ST sequence -/

theorem lb_resetHCI_wire (io : IoThread) (s s1 : Host) (status : LB_STATUS)
    (h : lb_resetHCI io s = some (s1, status)) :
    s1.wire = s.wire ++ [[0x01, 0x03, 0x0C, 0x00]] := by
  unfold lb_resetHCI at h
  obtain ⟨r, hr, hr2⟩ := Option.map_eq_some'.mp h
  obtain ⟨r1, r2, r3⟩ := r
  simp only [Prod.mk.injEq] at hr2
  rw [← hr2.1]
  exact (lb_executeCommand_frame io s _ _ _ _ _ _ _ hr).2.2

/-- C38: on a fresh session (no adapter, manufacturer id 0, as `lb_connect`
leaves it) a reset that returns a status other than `LB_OK` makes
`lb_initializeHCI` return `LB_UNKNOWN_VENDOR` with only `01 03 0C 00` sent, and
a version read that returns a status other than `LB_OK` after a successful
reset makes it return `LB_UNKNOWN_VENDOR` with only the reset and
`01 01 10 00` sent; in both cases the session is the one the failed command
left, without an adapter and with manufacturer id 0. -/
theorem failed_identification_unknown_vendor (io : IoThread) (s : Host) (version : List Nat)
    (hfresh : s.vendorFunctions = none) (hid : s.manufacturerId = 0) :
    (∀ s1 status1, lb_resetHCI io s = some (s1, status1) → status1 ≠ LB_STATUS.LB_OK →
        lb_initializeHCI io s version = some (s1, LB_STATUS.LB_UNKNOWN_VENDOR)
          ∧ s1.vendorFunctions = none ∧ s1.manufacturerId = 0
          ∧ s1.wire = s.wire ++ [[0x01, 0x03, 0x0C, 0x00]])
      ∧ (∀ s1 s2 status2 v, lb_resetHCI io s = some (s1, LB_STATUS.LB_OK) →
          lb_readLocalVersionInformation io s1 version = some (s2, status2, v) →
          status2 ≠ LB_STATUS.LB_OK →
          lb_initializeHCI io s version = some (s2, LB_STATUS.LB_UNKNOWN_VENDOR)
            ∧ s2.vendorFunctions = none ∧ s2.manufacturerId = 0
            ∧ s2.wire = s.wire ++ [[0x01, 0x03, 0x0C, 0x00], [0x01, 0x01, 0x10, 0x00]]) := by
  constructor
  · intro s1 status1 hreset hne
    have hf := lb_resetHCI_frame io s s1 status1 hreset
    have hv1 : s1.vendorFunctions = none := by rw [hf.1, hfresh]
    have hm1 : s1.manufacturerId = 0 := by rw [hf.2, hid]
    have hne1 : ¬ LB_STATUS.LB_OK = status1 := fun e => hne e.symm
    refine ⟨?_, hv1, hm1, lb_resetHCI_wire io s s1 status1 hreset⟩
    simp [lb_initializeHCI, hreset, hne1, hm1, hv1]
  · intro s1 s2 status2 v hreset hread hne
    have hf := lb_resetHCI_frame io s s1 _ hreset
    have hg := lb_executeCommand_frame io s1 _ _ _ _ _ _ _ hread
    have hv2 : s2.vendorFunctions = none := by rw [hg.1, hf.1, hfresh]
    have hm2 : s2.manufacturerId = 0 := by rw [hg.2.1, hf.2, hid]
    have hne2 : ¬ LB_STATUS.LB_OK = status2 := fun e => hne e.symm
    refine ⟨?_, hv2, hm2, ?_⟩
    · simp [lb_initializeHCI, hreset, hread, hne2, hm2, hv2]
    · rw [hg.2.2, lb_resetHCI_wire io s s1 _ hreset, List.append_assoc]
      rfl

/-- Witness of C38: the fresh session with a controller that answers nothing
(the reset times out), and with one that acknowledges the reset only (the
version read times out). -/
theorem failed_identification_unknown_vendor_witness :
    sessionStart.vendorFunctions = none ∧ sessionStart.manufacturerId = 0
      ∧ (lb_resetHCI ioSilent sessionStart).map (fun r => r.2) = some LB_STATUS.LB_FAILURE
      ∧ (lb_initializeHCI ioSilent sessionStart (List.replicate 8 0)).map
          (fun r => (r.1.vendorFunctions, r.1.wire, r.2))
        = some (none, [[0x01, 0x03, 0x0C, 0x00]], LB_STATUS.LB_UNKNOWN_VENDOR)
      ∧ (lb_initializeHCI (ioAcknowledgeFirst 1 []) sessionStart (List.replicate 8 0)).map
          (fun r => (r.1.vendorFunctions, r.1.wire, r.2))
        = some (none, [[0x01, 0x03, 0x0C, 0x00], [0x01, 0x01, 0x10, 0x00]],
            LB_STATUS.LB_UNKNOWN_VENDOR) := by
  have h := failed_identification_unknown_vendor ioSilent sessionStart (List.replicate 8 0)
    rfl rfl
  have h1 := h.1 _ _ rfl (by decide)
  have g := failed_identification_unknown_vendor (ioAcknowledgeFirst 1 []) sessionStart
    (List.replicate 8 0) rfl rfl
  have g1 := g.2 _ _ _ _ rfl rfl (by decide)
  refine ⟨rfl, rfl, rfl, ?_, ?_⟩
  · rw [h1.1]
    rfl
  · rw [g1.1]
    rfl

/-- C35 as stated fails: the ST initialization on a session whose controller
acknowledges every command sends three commands, the first of them the HCI
reset `01 03 0C 00`, not only `01 0C FC 03 2D 01 02` and `01 01 FD 00`. -/
theorem st_initialization_sends_reset_first :
    (initializeHCI Adapter.ST (ioAcknowledge []) (sessionResolved Adapter.ST)).map
        (fun r => (r.1.wire, r.2))
      = some ([[0x01, 0x03, 0x0C, 0x00], [0x01, 0x0C, 0xFC, 0x03, 0x2D, 0x01, 0x02],
               [0x01, 0x01, 0xFD, 0x00]], LB_STATUS.LB_OK)
    ∧ (initializeHCI Adapter.ST (ioAcknowledge []) (sessionResolved Adapter.ST)).map
        (fun r => r.1.wire)
      ≠ some ((sessionResolved Adapter.ST).wire
          ++ [[0x01, 0x0C, 0xFC, 0x03, 0x2D, 0x01, 0x02], [0x01, 0x01, 0xFD, 0x00]]) := by
  constructor
  · rfl
  · decide

/-- C35, amended: the TI adapter's `initializeHCI` sends nothing and returns
`LB_OK`; the ST adapter's sends, in this order, the HCI reset `01 03 0C 00`,
`01 0C FC 03 2D 01 02` and `01 01 FD 00`, stopping at the first command whose
status is not `LB_OK` and returning that status, and returning the status of
the last command when the first two succeed. -/
theorem st_initialization_sequence (io : IoThread) (s s1 : Host) (status : LB_STATUS)
    (h : initializeHCI Adapter.ST io s = some (s1, status)) :
    initializeHCI Adapter.TI io s = some (s, LB_STATUS.LB_OK)
      ∧ ∃ sa sta, lb_resetHCI io s = some (sa, sta)
          ∧ sa.wire = s.wire ++ [[0x01, 0x03, 0x0C, 0x00]]
          ∧ (sta ≠ LB_STATUS.LB_OK → s1 = sa ∧ status = sta)
          ∧ (sta = LB_STATUS.LB_OK →
              ∃ sb stb rb, lb_executeCommand io sa CMD_ACI_SET_DATA_MODE 7 [] 0
                  = some (sb, stb, rb)
                ∧ sb.wire = s.wire
                    ++ [[0x01, 0x03, 0x0C, 0x00], [0x01, 0x0C, 0xFC, 0x03, 0x2D, 0x01, 0x02]]
                ∧ (stb ≠ LB_STATUS.LB_OK → s1 = sb ∧ status = stb)
                ∧ (stb = LB_STATUS.LB_OK →
                    ∃ rc, lb_executeCommand io sb CMD_ACI_GATT_INIT 4 [] 0
                        = some (s1, status, rc)
                      ∧ s1.wire = s.wire
                          ++ [[0x01, 0x03, 0x0C, 0x00],
                              [0x01, 0x0C, 0xFC, 0x03, 0x2D, 0x01, 0x02],
                              [0x01, 0x01, 0xFD, 0x00]])) := by
  refine ⟨rfl, ?_⟩
  simp only [initializeHCI] at h
  unfold lb_performVendorSpecificInitialization_ST at h
  split at h
  · simp at h
  · rename_i sa sta hreset
    have hwa := lb_resetHCI_wire io s sa sta hreset
    refine ⟨sa, sta, hreset, hwa, ?_, ?_⟩
    · intro hne
      rw [if_neg (fun e => hne e.symm)] at h
      simp only [Option.some.injEq, Prod.mk.injEq] at h
      exact ⟨h.1.symm, h.2.symm⟩
    · intro hok
      rw [if_pos hok.symm] at h
      split at h
      · simp at h
      · rename_i sb stb rb hb
        have hwb : sb.wire = s.wire
            ++ [[0x01, 0x03, 0x0C, 0x00], [0x01, 0x0C, 0xFC, 0x03, 0x2D, 0x01, 0x02]] := by
          rw [(lb_executeCommand_frame io sa _ _ _ _ _ _ _ hb).2.2, hwa, List.append_assoc]
          rfl
        refine ⟨sb, stb, rb, hb, hwb, ?_, ?_⟩
        · intro hne
          rw [if_neg (fun e => hne e.symm)] at h
          simp only [Option.some.injEq, Prod.mk.injEq] at h
          exact ⟨h.1.symm, h.2.symm⟩
        · intro hok2
          rw [if_pos hok2.symm] at h
          split at h
          · simp at h
          · rename_i sc stc rc hc
            simp only [Option.some.injEq, Prod.mk.injEq] at h
            obtain ⟨h1, h2⟩ := h
            subst h1
            subst h2
            refine ⟨rc, hc, ?_⟩
            rw [(lb_executeCommand_frame io sb _ _ _ _ _ _ _ hc).2.2, hwb, List.append_assoc]
            rfl

/-- Witness of C35 amended: the ST session with a controller that acknowledges
the reset only: the data-mode command times out, its `LB_FAILURE` is returned
and `01 01 FD 00` is not sent. -/
theorem st_initialization_sequence_witness :
    (initializeHCI Adapter.ST (ioAcknowledgeFirst 1 []) (sessionResolved Adapter.ST)).map
        (fun r => (r.1.wire, r.2))
      = some ([[0x01, 0x03, 0x0C, 0x00], [0x01, 0x0C, 0xFC, 0x03, 0x2D, 0x01, 0x02]],
          LB_STATUS.LB_FAILURE)
    ∧ initializeHCI Adapter.TI (ioAcknowledgeFirst 1 []) (sessionResolved Adapter.ST)
      = some (sessionResolved Adapter.ST, LB_STATUS.LB_OK) :=
  ⟨rfl, (st_initialization_sequence (ioAcknowledgeFirst 1 []) (sessionResolved Adapter.ST)
    _ _ rfl).1⟩

/-! ## Opcodes: from the command to the correlator and back -/

theorem lor_shift_bytes (lo hi : Nat) (hlo : lo < 256) : lo ||| (hi <<< 8) = lo + 256 * hi := by
  have h := @Nat.mul_add_lt_is_or 8 lo (by simpa using hlo) hi
  rw [Nat.shiftLeft_eq, Nat.lor_comm, Nat.mul_comm, ← h]
  simp only [Nat.reducePow]
  omega

theorem opcode_serialized (v : Nat) (hv : v < 65536) :
    ((v &&& 0xFF) ||| ((v >>> 8) <<< 8)) % 65536 = v := by
  have h1 : v &&& 0xFF = v % 256 := Nat.and_pow_two_sub_one_eq_mod v 8
  have h2 : v >>> 8 = v / 256 := Nat.shiftRight_eq_div_pow v 8
  rw [h1, h2, lor_shift_bytes _ _ (Nat.mod_lt _ (by omega))]
  omega

theorem lb_executeCommand_signalled (io : IoThread) (s : Host) (command : List Nat)
    (commandLength : Nat) (response : List Nat) (cap status : Nat) (payload : List Nat)
    (n : Nat) (hcmd : 4 ≤ commandLength)
    (hlen : s.shared.pendingCommands.length = pendingCommandsCount)
    (hslot : ∃ c ∈ s.shared.pendingCommands, c.opcode = 0)
    (hstale : ∀ c ∈ s.shared.pendingCommands,
      c.opcode ≠ (((command.getD 2 0) <<< 8) ||| command.getD 1 0) % 65536)
    (hn : n ≤ payload.length)
    (hio : ∀ h : Host, h.vendorFunctions = s.vendorFunctions →
      io h = (signalCondition h.shared.pendingCommands
          ((((command.getD 2 0) <<< 8) ||| command.getD 1 0) % 65536) status payload n).map
        (fun table => { h.shared with pendingCommands := table })) :
    (lb_executeCommand io s command commandLength response cap).map (fun r => r.2)
      = some (if 0 = status then LB_STATUS.LB_OK else LB_STATUS.LB_FAILURE,
          payload.take (min n cap) ++ response.drop (min n cap)) := by
  obtain ⟨c0, hc0, hzero⟩ := hslot
  have hne : scanOpcode 0 s.shared.pendingCommands ≠ s.shared.pendingCommands.length :=
    fun e => scanOpcode_eq_length 0 _ e c0 hc0 hzero
  obtain ⟨c, hget, hop⟩ := scanOpcode_found 0 _ hne
  have hle := scanOpcode_le 0 s.shared.pendingCommands
  have hlt : scanOpcode 0 s.shared.pendingCommands < s.shared.pendingCommands.length := by omega
  have halloc := allocateCondition_at s.shared.pendingCommands
    ((((command.getD 2 0) <<< 8) ||| command.getD 1 0) % 65536) response cap hlen _ c hget hop
    (fun j c1 hj hc1 => scanOpcode_before 0 _ j c1 hj hc1)
  have hsig := signalCondition_at
    (s.shared.pendingCommands.set (scanOpcode 0 s.shared.pendingCommands)
      { handle := false,
        opcode := (((command.getD 2 0) <<< 8) ||| command.getD 1 0) % 65536,
        capacity := cap, buffer := response, status := HCI_CONTROLLER_BUSY, length := 0 })
    ((((command.getD 2 0) <<< 8) ||| command.getD 1 0) % 65536) status payload n
    (by simpa using hlen) hn (scanOpcode 0 s.shared.pendingCommands)
    { handle := false,
      opcode := (((command.getD 2 0) <<< 8) ||| command.getD 1 0) % 65536,
      capacity := cap, buffer := response, status := HCI_CONTROLLER_BUSY, length := 0 }
    (List.getElem?_set_self hlt) rfl
    (by
      intro j c1 hj hc1
      rw [List.getElem?_set_ne (by omega)] at hc1
      exact hstale c1 (List.getElem?_mem hc1))
  unfold lb_executeCommand
  rw [if_pos hcmd]
  simp only [halloc]
  rw [hio]
  · simp only [hsig, Option.map_some']
    simp [waitForCondition, hlt, HCI_STATUS_SUCCESS]
  · rfl

theorem lb_executeCommand_unanswered (s : Host) (command : List Nat) (commandLength : Nat)
    (response : List Nat) (cap numCommands lo hi : Nat)
    (hlen : s.shared.pendingCommands.length = pendingCommandsCount)
    (hslot : ∃ c ∈ s.shared.pendingCommands, c.opcode = 0)
    (hother : uint16Value lo hi
      ≠ (((command.getD 2 0) <<< 8) ||| command.getD 1 0) % 65536)
    (hnone : ∀ c ∈ s.shared.pendingCommands, c.opcode ≠ uint16Value lo hi) :
    lb_executeCommand (ioCommandComplete [numCommands, lo, hi, 0]) s command commandLength
      response cap = none := by
  obtain ⟨c0, hc0, hzero⟩ := hslot
  have hne : scanOpcode 0 s.shared.pendingCommands ≠ s.shared.pendingCommands.length :=
    fun e => scanOpcode_eq_length 0 _ e c0 hc0 hzero
  obtain ⟨c, hget, hop⟩ := scanOpcode_found 0 _ hne
  have halloc := allocateCondition_at s.shared.pendingCommands
    ((((command.getD 2 0) <<< 8) ||| command.getD 1 0) % 65536) response cap hlen _ c hget hop
    (fun j c1 hj hc1 => scanOpcode_before 0 _ j c1 hj hc1)
  have hscan : scanOpcode (uint16Value lo hi)
      ((s.shared.pendingCommands.set (scanOpcode 0 s.shared.pendingCommands)
        { handle := false,
          opcode := (((command.getD 2 0) <<< 8) ||| command.getD 1 0) % 65536,
          capacity := cap, buffer := response, status := HCI_CONTROLLER_BUSY,
          length := 0 }).take pendingCommandsCount)
      = pendingCommandsCount := by
    rw [take_pendingCommands _ (by simpa using hlen), scanOpcode_of_none, List.length_set, hlen]
    intro e he
    rcases List.mem_or_eq_of_mem_set he with h | h
    · exact hnone e h
    · rw [h]
      exact fun e2 => hother e2.symm
  unfold lb_executeCommand
  split_ifs with hcmd
  · simp only [halloc, ioCommandComplete, hci_on_eventCommandComplete, List.getD_cons_succ,
      List.getD_cons_zero, signalCondition, hscan]
    simp
  · rfl

/-- C37: for every command buffer of at least 4 bytes, whenever
`lb_executeCommand` returns, the I/O thread has run on the session in which
the table is the one `allocateCondition` leaves for the opcode
`command[1] | command[2] << 8` and the command is on the wire; on a table with
a free entry that is the first free entry bearing the opcode.  When the two
bytes serialize a 16-bit `v` lo-then-hi (`command[1] = v & 0xFF`,
`command[2] = v >> 8`) the registered opcode is `v` and it is what
`uint16Value` decodes from the same two bytes: a Command Complete event that
carries these two bytes (status 0) completes the command with `LB_OK` and its
return bytes, and one that carries the bytes of an opcode no entry bears finds
no entry (`signalCondition` fails its assertion). -/
theorem opcode_round_trip (s : Host) (command : List Nat)
    (commandLength : Nat) (response : List Nat) (cap v : Nat) (hcmd : 4 ≤ commandLength)
    (hlen : s.shared.pendingCommands.length = pendingCommandsCount)
    (hslot : ∃ c ∈ s.shared.pendingCommands, c.opcode = 0)
    (hstale : ∀ c ∈ s.shared.pendingCommands, c.opcode ≠ v)
    (hv : v < 65536) (hlo : command.getD 1 0 = v &&& 0xFF) (hhi : command.getD 2 0 = v >>> 8) :
    (∀ (io : IoThread) (r : Host × LB_STATUS × List Nat),
        lb_executeCommand io s command commandLength response cap = some r →
        ∃ sh, io { s with
            shared := { s.shared with
              pendingCommands :=
                (allocateCondition s.shared.pendingCommands
                  ((command.getD 1 0 ||| (command.getD 2 0 <<< 8)) % 65536) response cap).1 },
            wire := s.wire ++ [command.take commandLength] } = some sh)
    ∧ (∃ ii c, s.shared.pendingCommands[ii]? = some c ∧ c.opcode = 0
        ∧ (∀ j c1, j < ii → s.shared.pendingCommands[j]? = some c1 → c1.opcode ≠ 0)
        ∧ allocateCondition s.shared.pendingCommands
            ((command.getD 1 0 ||| (command.getD 2 0 <<< 8)) % 65536) response cap
          = (s.shared.pendingCommands.set ii
              { handle := false,
                opcode := (command.getD 1 0 ||| (command.getD 2 0 <<< 8)) % 65536,
                capacity := cap, buffer := response, status := HCI_CONTROLLER_BUSY,
                length := 0 }, some ii))
    ∧ (command.getD 1 0 ||| (command.getD 2 0 <<< 8)) % 65536 = v
    ∧ uint16Value (command.getD 1 0) (command.getD 2 0) = v
    ∧ (∀ (numCommands : Nat) (payload : List Nat), payload.length + 4 < 256 →
        (lb_executeCommand
            (ioCommandComplete ([numCommands, v &&& 0xFF, v >>> 8, 0] ++ payload))
            s command commandLength response cap).map (fun r => r.2)
          = some (LB_STATUS.LB_OK,
              payload.take (min payload.length cap)
                ++ response.drop (min payload.length cap)))
    ∧ (∀ numCommands lo hi : Nat, uint16Value lo hi ≠ v →
        (∀ c ∈ s.shared.pendingCommands, c.opcode ≠ uint16Value lo hi) →
        lb_executeCommand (ioCommandComplete [numCommands, lo, hi, 0]) s command commandLength
          response cap = none) := by
  have hcomm : command.getD 1 0 ||| (command.getD 2 0 <<< 8)
      = (command.getD 2 0 <<< 8) ||| command.getD 1 0 := Nat.lor_comm _ _
  have hop : (command.getD 1 0 ||| (command.getD 2 0 <<< 8)) % 65536 = v := by
    rw [hlo, hhi]
    exact opcode_serialized v hv
  have hop2 : (((command.getD 2 0) <<< 8) ||| command.getD 1 0) % 65536 = v := by
    rw [← hcomm]
    exact hop
  refine ⟨?_, ?_, hop, ?_, ?_, ?_⟩
  · intro io r h
    rw [hcomm]
    unfold lb_executeCommand at h
    rw [if_pos hcmd] at h
    simp only at h
    split at h
    · simp at h
    · rename_i shared2 hio
      exact ⟨shared2, hio⟩
  · obtain ⟨c0, hc0, hzero⟩ := hslot
    have hne : scanOpcode 0 s.shared.pendingCommands ≠ s.shared.pendingCommands.length :=
      fun e => scanOpcode_eq_length 0 _ e c0 hc0 hzero
    obtain ⟨c, hget, hopc⟩ := scanOpcode_found 0 _ hne
    exact ⟨_, c, hget, hopc, fun j c1 hj hc1 => scanOpcode_before 0 _ j c1 hj hc1,
      allocateCondition_at _ _ response cap hlen _ c hget hopc
        (fun j c1 hj hc1 => scanOpcode_before 0 _ j c1 hj hc1)⟩
  · rw [uint16Value, hop2]
  · intro numCommands payload hsize
    have h := lb_executeCommand_acknowledged s command commandLength response cap numCommands
      payload hcmd hlen hslot (by rw [hop2]; exact hstale) hsize
    rw [hlo, hhi] at h
    exact h
  · intro numCommands lo hi hother hnone
    exact lb_executeCommand_unanswered s command commandLength response cap numCommands lo hi
      hlen hslot (by rw [hop2]; exact hother) hnone

/-- Witness of C37: the reset command (`v = 0x0C03`) on the fresh session: the
Command Complete event `01 03 0C 00` completes it with `LB_OK`, the event
`01 01 10 00` of the opcode `0x1001` does not. -/
theorem opcode_round_trip_witness :
    (lb_executeCommand (ioCommandComplete ([1, 0x0C03 &&& 0xFF, 0x0C03 >>> 8, 0] ++ []))
        sessionStart CMD_RESET 4 [] 0).map (fun r => r.2)
      = some (LB_STATUS.LB_OK,
          ([] : List Nat).take (min ([] : List Nat).length 0)
            ++ ([] : List Nat).drop (min ([] : List Nat).length 0))
    ∧ lb_executeCommand (ioCommandComplete [1, 0x01, 0x10, 0]) sessionStart CMD_RESET 4 [] 0
      = none
    ∧ (lb_executeCommand (ioCommandComplete [1, 0x03, 0x0C, 0]) sessionStart CMD_RESET 4
        [] 0).map (fun r => (r.2.1, r.1.wire)) = some (LB_STATUS.LB_OK, [[1, 0x03, 0x0C, 0]])
    ∧ uint16Value (CMD_RESET.getD 1 0) (CMD_RESET.getD 2 0) = 0x0C03 :=
  ⟨(opcode_round_trip sessionStart CMD_RESET 4 [] 0 0x0C03 (by decide) rfl (by decide)
      (by decide) (by decide) rfl rfl).2.2.2.2.1 1 [] (by decide),
   (opcode_round_trip sessionStart CMD_RESET 4 [] 0 0x0C03 (by decide) rfl (by decide)
      (by decide) (by decide) rfl rfl).2.2.2.2.2 1 0x01 0x10 (by decide) (by decide),
   by decide,
   (opcode_round_trip sessionStart CMD_RESET 4 [] 0 0x0C03 (by decide) rfl (by decide)
      (by decide) (by decide) rfl rfl).2.2.2.1⟩

/-! ## TI adapter: the command acknowledgement -/

theorem lb_on_vendorSpecificEvent_TI_CommandStatus (sh : Shared) (event : List Nat)
    (length : Nat)
    (hcode : (event.getD 0 0 ||| (event.getD 1 0 <<< 8)) % 65536 = 0x067F)
    (hsix : 6 ≤ length) :
    lb_on_vendorSpecificEvent_TI sh event length
      = (signalCondition sh.pendingCommands
            ((event.getD 3 0 ||| (event.getD 4 0 <<< 8)) % 65536) (event.getD 2 0)
            (if event.getD 5 0 = 0 then [] else event.drop 6) (event.getD 5 0)).map
          (fun table => { sh with pendingCommands := table }) := by
  have hcomm : event.getD 3 0 ||| (event.getD 4 0 <<< 8)
      = (event.getD 4 0 <<< 8) ||| event.getD 3 0 := Nat.lor_comm _ _
  have h46 : 4 + 2 ≤ length := hsix
  have hz : (0 = event.getD 5 0) = (event.getD 5 0 = 0) := propext eq_comm
  unfold lb_on_vendorSpecificEvent_TI
  simp only [hcode]
  rw [if_neg (by decide), if_neg (by decide), if_neg (by decide), if_neg (by decide),
    if_neg (by decide), if_pos trivial, if_pos h46, hcomm, uint16Value]
  simp only [hz]

/-- C34: for every TI vendor event with event code `0x067F` and at least 6
bytes the handler is `signalCondition` with status `event[2]`, opcode
`event[3] | event[4] << 8`, length `event[5]` and the payload from `event[6]`
on (none when `event[5] = 0`).  A `lb_executeCommand` for that opcode (a free
entry in the table, none bearing the opcode, the event's memory holding the
payload it declares) that gets the event during its wait returns, with `LB_OK`
exactly when `event[2] = 0` and `LB_FAILURE` otherwise, and with the payload
copied into the response up to its capacity. -/
theorem command_status_TI_acknowledges (s : Host) (event : List Nat) (length : Nat)
    (command : List Nat) (commandLength : Nat) (response : List Nat) (cap : Nat)
    (hcode : (event.getD 0 0 ||| (event.getD 1 0 <<< 8)) % 65536 = 0x067F)
    (hsix : 6 ≤ length) (hadapter : s.vendorFunctions = some Adapter.TI)
    (hcmd : 4 ≤ commandLength)
    (hlen : s.shared.pendingCommands.length = pendingCommandsCount)
    (hslot : ∃ c ∈ s.shared.pendingCommands, c.opcode = 0)
    (hstale : ∀ c ∈ s.shared.pendingCommands,
      c.opcode ≠ (event.getD 3 0 ||| (event.getD 4 0 <<< 8)) % 65536)
    (hlo : command.getD 1 0 = event.getD 3 0) (hhi : command.getD 2 0 = event.getD 4 0)
    (hpayload : event.getD 5 0 + 6 ≤ event.length) :
    (∀ sh : Shared, processEvent (some Adapter.TI) sh 0xFF event length
        = (signalCondition sh.pendingCommands
              ((event.getD 3 0 ||| (event.getD 4 0 <<< 8)) % 65536) (event.getD 2 0)
              (if event.getD 5 0 = 0 then [] else event.drop 6) (event.getD 5 0)).map
            (fun table => { sh with pendingCommands := table }))
      ∧ ∃ s1 status response1,
          lb_executeCommand (ioEvent (0xFF, event, length)) s command commandLength response cap
            = some (s1, status, response1)
          ∧ (status = LB_STATUS.LB_OK ↔ event.getD 2 0 = 0)
          ∧ (status = LB_STATUS.LB_FAILURE ↔ event.getD 2 0 ≠ 0)
          ∧ response1
            = (event.drop 6).take (min (event.getD 5 0) cap)
              ++ response.drop (min (event.getD 5 0) cap) := by
  have hcomm : event.getD 3 0 ||| (event.getD 4 0 <<< 8)
      = (event.getD 4 0 <<< 8) ||| event.getD 3 0 := Nat.lor_comm _ _
  have hdispatch : ∀ sh : Shared, processEvent (some Adapter.TI) sh 0xFF event length
      = (signalCondition sh.pendingCommands
            ((event.getD 3 0 ||| (event.getD 4 0 <<< 8)) % 65536) (event.getD 2 0)
            (if event.getD 5 0 = 0 then [] else event.drop 6) (event.getD 5 0)).map
          (fun table => { sh with pendingCommands := table }) := by
    intro sh
    rw [← lb_on_vendorSpecificEvent_TI_CommandStatus sh event length hcode hsix]
    simp [processEvent, dispatchEvent, on_vendorSpecificEvent]
  refine ⟨hdispatch, ?_⟩
  have hn : event.getD 5 0 ≤ (if event.getD 5 0 = 0 then [] else event.drop 6).length := by
    split_ifs with h0
    · omega
    · rw [List.length_drop]
      omega
  have hrun := lb_executeCommand_signalled (ioEvent (0xFF, event, length)) s command
    commandLength response cap (event.getD 2 0)
    (if event.getD 5 0 = 0 then [] else event.drop 6) (event.getD 5 0) hcmd hlen hslot
    (by rw [hlo, hhi, ← hcomm]; exact hstale) hn
    (by
      intro h hv
      rw [hlo, hhi, ← hcomm, ← hdispatch h.shared]
      simp only [ioEvent]
      rw [hv, hadapter])
  obtain ⟨r, hr, hr2⟩ := Option.map_eq_some'.mp hrun
  obtain ⟨s1, status, response1⟩ := r
  simp only [Prod.mk.injEq] at hr2
  obtain ⟨hst, hresp⟩ := hr2
  refine ⟨s1, status, response1, hr, ?_, ?_, ?_⟩
  · rw [hst]
    by_cases h0 : 0 = event.getD 2 0
    · rw [if_pos h0]
      exact ⟨fun _ => h0.symm, fun _ => rfl⟩
    · rw [if_neg h0]
      exact ⟨fun e => (by cases e), fun e => absurd e.symm h0⟩
  · rw [hst]
    by_cases h0 : 0 = event.getD 2 0
    · rw [if_pos h0]
      exact ⟨fun e => (by cases e), fun e => absurd h0.symm e⟩
    · rw [if_neg h0]
      exact ⟨fun _ e => h0 e.symm, fun _ => rfl⟩
  · rw [hresp]
    by_cases h5 : event.getD 5 0 = 0
    · rw [if_pos h5, h5]
      simp
    · rw [if_neg h5]

/-- Witness of C34: the TI session sends the discovery command (opcode
`0xFE04`) and gets `7F 06 00 04 FE 00`: `LB_OK`; with `7F 06 12 04 FE 00` it
gets `LB_FAILURE`. -/
theorem command_status_TI_acknowledges_witness :
    (∃ s1 status response1,
        lb_executeCommand (ioEvent (0xFF, [0x7F, 0x06, 0x00, 0x04, 0xFE, 0x00], 6))
            (sessionResolved Adapter.TI) TI_START_DISCOVERY_CMD 7 [] 0
          = some (s1, status, response1)
        ∧ (status = LB_STATUS.LB_OK ↔ [0x7F, 0x06, 0x00, 0x04, 0xFE, 0x00].getD 2 0 = 0)
        ∧ (status = LB_STATUS.LB_FAILURE ↔ [0x7F, 0x06, 0x00, 0x04, 0xFE, 0x00].getD 2 0 ≠ 0)
        ∧ response1
          = ([0x7F, 0x06, 0x00, 0x04, 0xFE, 0x00].drop 6).take
                (min ([0x7F, 0x06, 0x00, 0x04, 0xFE, 0x00].getD 5 0) 0)
            ++ ([] : List Nat).drop (min ([0x7F, 0x06, 0x00, 0x04, 0xFE, 0x00].getD 5 0) 0))
      ∧ (lb_executeCommand (ioEvent (0xFF, [0x7F, 0x06, 0x00, 0x04, 0xFE, 0x00], 6))
            (sessionResolved Adapter.TI) TI_START_DISCOVERY_CMD 7 [] 0).map (fun r => r.2.1)
          = some LB_STATUS.LB_OK
      ∧ (lb_executeCommand (ioEvent (0xFF, [0x7F, 0x06, 0x12, 0x04, 0xFE, 0x00], 6))
            (sessionResolved Adapter.TI) TI_START_DISCOVERY_CMD 7 [] 0).map (fun r => r.2.1)
          = some LB_STATUS.LB_FAILURE :=
  ⟨(command_status_TI_acknowledges (sessionResolved Adapter.TI)
      [0x7F, 0x06, 0x00, 0x04, 0xFE, 0x00] 6 TI_START_DISCOVERY_CMD 7 [] 0 (by decide)
      (by decide) rfl (by decide) rfl (by decide) (by decide) rfl rfl (by decide)).2,
   by decide, by decide⟩

/-! ## GATT operations: the returned status -/

theorem lb_writeCharValue_result (io : IoThread) (s : Host) (dev : Nat) (device : LB_Device)
    (adapter : Adapter) (attributeHandle : Nat) (attributeValue : List Nat)
    (attributeLength : Nat)
    (hdev : s.shared.device[dev]? = some device)
    (hconn : isDeviceConnected device = true)
    (hvend : s.vendorFunctions = some adapter) (s1 : Host) (status : LB_STATUS)
    (h : lb_writeCharValue io s dev attributeHandle attributeValue attributeLength
      = some (s1, status )) :
    ∃ s2 commandStatus,
      writeCharValue adapter io
          (setDevice s dev
            { device with
              pendingOperation := { type := PO_WRITE, attributeHandle := attributeHandle },
              operationComplete := os_resetCondition device.operationComplete })
          { device with
              pendingOperation := { type := PO_WRITE, attributeHandle := attributeHandle },
              operationComplete := os_resetCondition device.operationComplete }
          attributeHandle attributeValue attributeLength = some (s2, commandStatus)
      ∧ (status = LB_STATUS.LB_OK ∨ status = LB_STATUS.LB_FAILURE)
      ∧ (status = LB_STATUS.LB_OK ↔
          commandStatus = LB_STATUS.LB_OK
            ∧ ∃ shared3 d3, io s2 = some shared3 ∧ shared3.device[dev]? = some d3
              ∧ os_waitForCondition d3.operationComplete = some (CondStatus.value 0)) := by
  unfold lb_writeCharValue at h
  simp only [List.get?_eq_getElem?, hdev, hconn, hvend, Bool.not_true, Bool.false_eq_true,
    if_false] at h
  split_ifs at h with hc hassert
  split at h
  · simp at h
  · rename_i s2 commandStatus hb
    refine ⟨s2, commandStatus, hb, ?_⟩
    by_cases hcs : LB_STATUS.LB_OK = commandStatus
    · subst hcs
      simp only [ne_eq, not_true_eq_false, if_false] at h
      cases hio : io s2 with
      | none => simp [hio] at h
      | some shared3 =>
        simp only [hio] at h
        cases hd3 : shared3.device[dev]? with
        | none => simp [hd3] at h
        | some d3 =>
          simp only [hd3] at h
          cases hw : os_waitForCondition d3.operationComplete with
          | none =>
            simp only [hw, hd3, Option.some.injEq, Prod.mk.injEq] at h
            have hF : status = LB_STATUS.LB_FAILURE := by
              rw [← h.2]
              rfl
            refine ⟨Or.inr hF, ?_, ?_⟩
            · intro e
              rw [hF] at e
              cases e
            · rintro ⟨_, sh, d, hsh, hd, hwd⟩
              cases hsh
              rw [hd3] at hd
              cases hd
              rw [hw] at hwd
              cases hwd
          | some operationStatus =>
            simp only [hw, hd3, Option.some.injEq, Prod.mk.injEq] at h
            by_cases hst0 : operationStatus = CondStatus.value 0
            · have hOK : status = LB_STATUS.LB_OK := by
                rw [← h.2, if_pos hst0]
                rfl
              rw [hst0] at hw
              exact ⟨Or.inl hOK, fun _ => ⟨rfl, shared3, d3, rfl, hd3, hw⟩, fun _ => hOK⟩
            · have hF : status = LB_STATUS.LB_FAILURE := by
                rw [← h.2, if_neg hst0]
                rfl
              refine ⟨Or.inr hF, ?_, ?_⟩
              · intro e
                rw [hF] at e
                cases e
              · rintro ⟨_, sh, d, hsh, hd, hwd⟩
                cases hsh
                rw [hd3] at hd
                cases hd
                rw [hw] at hwd
                simp only [Option.some.injEq] at hwd
                exact absurd hwd hst0
    · have hne : LB_STATUS.LB_OK ≠ commandStatus := hcs
      rw [if_pos hne] at h
      simp only at h
      split at h
      · simp at h
      · simp only [Option.some.injEq, Prod.mk.injEq] at h
        have hF : status = LB_STATUS.LB_FAILURE := by
          rw [← h.2]
          rfl
        refine ⟨Or.inr hF, ?_, ?_⟩
        · intro e
          rw [hF] at e
          cases e
        · rintro ⟨e, _⟩
          exact absurd e.symm hcs

theorem lb_writeCharValue_returns (io : IoThread) (s : Host) (dev : Nat) (device : LB_Device)
    (adapter : Adapter) (attributeHandle : Nat) (attributeValue : List Nat)
    (attributeLength : Nat)
    (hdev : s.shared.device[dev]? = some device)
    (hconn : isDeviceConnected device = true) (hctl : device.controller = true)
    (hvend : s.vendorFunctions = some adapter)
    (hidle : device.pendingOperation = { type := PO_IDLE, attributeHandle := 0 })
    (s2 : Host) (commandStatus : LB_STATUS)
    (hb : writeCharValue adapter io
          (setDevice s dev
            { device with
              pendingOperation := { type := PO_WRITE, attributeHandle := attributeHandle },
              operationComplete := os_resetCondition device.operationComplete })
          { device with
              pendingOperation := { type := PO_WRITE, attributeHandle := attributeHandle },
              operationComplete := os_resetCondition device.operationComplete }
          attributeHandle attributeValue attributeLength = some (s2, commandStatus)) :
    (commandStatus ≠ LB_STATUS.LB_OK → (∃ d, s2.shared.device[dev]? = some d) →
        (lb_writeCharValue io s dev attributeHandle attributeValue attributeLength).map
            (fun r => r.2) = some LB_STATUS.LB_FAILURE)
      ∧ (commandStatus = LB_STATUS.LB_OK → ∀ shared3 d3, io s2 = some shared3 →
          shared3.device[dev]? = some d3 →
          (lb_writeCharValue io s dev attributeHandle attributeValue attributeLength).map
              (fun r => r.2)
            = some (if os_waitForCondition d3.operationComplete = some (CondStatus.value 0)
                then LB_STATUS.LB_OK else LB_STATUS.LB_FAILURE)) := by
  have hassert : 0 = device.pendingOperation.attributeHandle
      ∧ PO_IDLE = device.pendingOperation.type := by
    rw [hidle]
    exact ⟨rfl, rfl⟩
  have hnc : (!device.controller) = false := by
    rw [hctl]
    rfl
  constructor
  · intro hne hd
    obtain ⟨d, hd⟩ := hd
    have hne1 : LB_STATUS.LB_OK ≠ commandStatus := fun e => hne e.symm
    unfold lb_writeCharValue
    simp only [List.get?_eq_getElem?, hdev, hconn, hnc, hvend, Bool.not_true,
      Bool.false_eq_true, if_false]
    rw [if_pos hassert]
    simp only [hb]
    rw [if_pos hne1]
    simp only [hd, Option.map_some']
    rfl
  · intro hok shared3 d3 hio hd3
    subst hok
    unfold lb_writeCharValue
    simp only [List.get?_eq_getElem?, hdev, hconn, hnc, hvend, Bool.not_true,
      Bool.false_eq_true, if_false]
    rw [if_pos hassert]
    simp only [hb, ne_eq, not_true_eq_false, if_false, hio, hd3]
    cases hw : os_waitForCondition d3.operationComplete with
    | none => simp [hd3, HCI_STATUS_SUCCESS, HCI_HOST_TIMEOUT]
    | some operationStatus =>
      by_cases hst0 : operationStatus = CondStatus.value 0
      · simp [hd3, hst0]
      · simp [hd3, hst0, HCI_STATUS_SUCCESS, HCI_HOST_TIMEOUT]

theorem lb_readCharValue_result (io : IoThread) (s : Host) (dev : Nat) (device : LB_Device)
    (adapter : Adapter) (attributeHandle : Nat) (attributeValue : List Nat)
    (attributeCapacity attributeLength : Nat)
    (hdev : s.shared.device[dev]? = some device)
    (hconn : isDeviceConnected device = true)
    (hvend : s.vendorFunctions = some adapter) (s1 : Host) (status : LB_STATUS) (value : List Nat)
    (outLength : Nat)
    (h : lb_readCharValue io s dev attributeHandle attributeValue attributeCapacity attributeLength
      = some (s1, status , value, outLength)) :
    ∃ s2 commandStatus,
      requestCharValue adapter io
          (setDevice s dev
            { device with
              pendingOperation := { type := PO_READ, attributeHandle := attributeHandle },
              pendingRead := { attributeValue := attributeValue, attributeLength := 0,
                               attributeCapacity := attributeCapacity },
              operationComplete := os_resetCondition device.operationComplete })
          { device with
              pendingOperation := { type := PO_READ, attributeHandle := attributeHandle },
              pendingRead := { attributeValue := attributeValue, attributeLength := 0,
                               attributeCapacity := attributeCapacity },
              operationComplete := os_resetCondition device.operationComplete }
          attributeHandle = some (s2, commandStatus)
      ∧ (status = LB_STATUS.LB_OK ∨ status = LB_STATUS.LB_FAILURE)
      ∧ (status = LB_STATUS.LB_OK ↔
          commandStatus = LB_STATUS.LB_OK
            ∧ ∃ shared3 d3, io s2 = some shared3 ∧ shared3.device[dev]? = some d3
              ∧ os_waitForCondition d3.operationComplete = some (CondStatus.value 0)) := by
  unfold lb_readCharValue at h
  simp only [List.get?_eq_getElem?, hdev, hconn, hvend, Bool.not_true, Bool.false_eq_true,
    if_false] at h
  split_ifs at h with hc hassert
  split at h
  · simp at h
  · rename_i s2 commandStatus hb
    refine ⟨s2, commandStatus, hb, ?_⟩
    by_cases hcs : LB_STATUS.LB_OK = commandStatus
    · subst hcs
      simp only [ne_eq, not_true_eq_false, if_false] at h
      cases hio : io s2 with
      | none => simp [hio] at h
      | some shared3 =>
        simp only [hio] at h
        cases hd3 : shared3.device[dev]? with
        | none => simp [hd3] at h
        | some d3 =>
          simp only [hd3] at h
          cases hw : os_waitForCondition d3.operationComplete with
          | none =>
            simp only [hw, hd3, Option.some.injEq, Prod.mk.injEq] at h
            have hF : status = LB_STATUS.LB_FAILURE := by
              rw [← h.2.1]
              rfl
            refine ⟨Or.inr hF, ?_, ?_⟩
            · intro e
              rw [hF] at e
              cases e
            · rintro ⟨_, sh, d, hsh, hd, hwd⟩
              cases hsh
              rw [hd3] at hd
              cases hd
              rw [hw] at hwd
              cases hwd
          | some operationStatus =>
            simp only [hw, hd3, Option.some.injEq, Prod.mk.injEq] at h
            by_cases hst0 : operationStatus = CondStatus.value 0
            · have hOK : status = LB_STATUS.LB_OK := by
                rw [← h.2.1, if_pos hst0]
                rfl
              rw [hst0] at hw
              exact ⟨Or.inl hOK, fun _ => ⟨rfl, shared3, d3, rfl, hd3, hw⟩, fun _ => hOK⟩
            · have hF : status = LB_STATUS.LB_FAILURE := by
                rw [← h.2.1, if_neg hst0]
                rfl
              refine ⟨Or.inr hF, ?_, ?_⟩
              · intro e
                rw [hF] at e
                cases e
              · rintro ⟨_, sh, d, hsh, hd, hwd⟩
                cases hsh
                rw [hd3] at hd
                cases hd
                rw [hw] at hwd
                simp only [Option.some.injEq] at hwd
                exact absurd hwd hst0
    · have hne : LB_STATUS.LB_OK ≠ commandStatus := hcs
      rw [if_pos hne] at h
      simp only at h
      split at h
      · simp at h
      · simp only [Option.some.injEq, Prod.mk.injEq] at h
        have hF : status = LB_STATUS.LB_FAILURE := by
          rw [← h.2.1]
          rfl
        refine ⟨Or.inr hF, ?_, ?_⟩
        · intro e
          rw [hF] at e
          cases e
        · rintro ⟨e, _⟩
          exact absurd e.symm hcs

theorem lb_readCharValue_returns (io : IoThread) (s : Host) (dev : Nat) (device : LB_Device)
    (adapter : Adapter) (attributeHandle : Nat) (attributeValue : List Nat)
    (attributeCapacity attributeLength : Nat)
    (hdev : s.shared.device[dev]? = some device)
    (hconn : isDeviceConnected device = true) (hctl : device.controller = true)
    (hvend : s.vendorFunctions = some adapter)
    (hidle : device.pendingOperation = { type := PO_IDLE, attributeHandle := 0 })
    (s2 : Host) (commandStatus : LB_STATUS)
    (hb : requestCharValue adapter io
          (setDevice s dev
            { device with
              pendingOperation := { type := PO_READ, attributeHandle := attributeHandle },
              pendingRead := { attributeValue := attributeValue, attributeLength := 0,
                               attributeCapacity := attributeCapacity },
              operationComplete := os_resetCondition device.operationComplete })
          { device with
              pendingOperation := { type := PO_READ, attributeHandle := attributeHandle },
              pendingRead := { attributeValue := attributeValue, attributeLength := 0,
                               attributeCapacity := attributeCapacity },
              operationComplete := os_resetCondition device.operationComplete }
          attributeHandle = some (s2, commandStatus)) :
    (commandStatus ≠ LB_STATUS.LB_OK → (∃ d, s2.shared.device[dev]? = some d) →
        (lb_readCharValue io s dev attributeHandle attributeValue attributeCapacity attributeLength).map
            (fun r => r.2.1) = some LB_STATUS.LB_FAILURE)
      ∧ (commandStatus = LB_STATUS.LB_OK → ∀ shared3 d3, io s2 = some shared3 →
          shared3.device[dev]? = some d3 →
          (lb_readCharValue io s dev attributeHandle attributeValue attributeCapacity attributeLength).map
              (fun r => r.2.1)
            = some (if os_waitForCondition d3.operationComplete = some (CondStatus.value 0)
                then LB_STATUS.LB_OK else LB_STATUS.LB_FAILURE)) := by
  have hassert : 0 = device.pendingOperation.attributeHandle
      ∧ PO_IDLE = device.pendingOperation.type := by
    rw [hidle]
    exact ⟨rfl, rfl⟩
  have hnc : (!device.controller) = false := by
    rw [hctl]
    rfl
  constructor
  · intro hne hd
    obtain ⟨d, hd⟩ := hd
    have hne1 : LB_STATUS.LB_OK ≠ commandStatus := fun e => hne e.symm
    unfold lb_readCharValue
    simp only [List.get?_eq_getElem?, hdev, hconn, hnc, hvend, Bool.not_true,
      Bool.false_eq_true, if_false]
    rw [if_pos hassert]
    simp only [hb]
    rw [if_pos hne1]
    simp only [hd, Option.map_some']
    rfl
  · intro hok shared3 d3 hio hd3
    subst hok
    unfold lb_readCharValue
    simp only [List.get?_eq_getElem?, hdev, hconn, hnc, hvend, Bool.not_true,
      Bool.false_eq_true, if_false]
    rw [if_pos hassert]
    simp only [hb, ne_eq, not_true_eq_false, if_false, hio, hd3]
    cases hw : os_waitForCondition d3.operationComplete with
    | none => simp [hd3, HCI_STATUS_SUCCESS, HCI_HOST_TIMEOUT]
    | some operationStatus =>
      by_cases hst0 : operationStatus = CondStatus.value 0
      · simp [hd3, hst0]
      · simp [hd3, hst0, HCI_STATUS_SUCCESS, HCI_HOST_TIMEOUT]

theorem lb_startServiceDiscovery_result (io : IoThread) (s : Host) (dev : Nat) (device : LB_Device)
    (adapter : Adapter)
    (hdev : s.shared.device[dev]? = some device)
    (hconn : isDeviceConnected device = true)
    (hvend : s.vendorFunctions = some adapter) (s1 : Host) (status : LB_STATUS)
    (h : lb_startServiceDiscovery io s dev
      = some (s1, status )) :
    ∃ s2 commandStatus,
      startServiceDiscovery adapter io
          (setDevice s dev
            { device with
              pendingOperation := { device.pendingOperation with type := PO_DISCOVER },
              operationComplete := os_resetCondition device.operationComplete })
          { device with
              pendingOperation := { device.pendingOperation with type := PO_DISCOVER },
              operationComplete := os_resetCondition device.operationComplete }
           = some (s2, commandStatus)
      ∧ (status = LB_STATUS.LB_OK ∨ status = LB_STATUS.LB_FAILURE)
      ∧ (status = LB_STATUS.LB_OK ↔
          commandStatus = LB_STATUS.LB_OK
            ∧ ∃ shared3 d3, io s2 = some shared3 ∧ shared3.device[dev]? = some d3
              ∧ os_waitForCondition d3.operationComplete = some (CondStatus.value 0)) := by
  unfold lb_startServiceDiscovery at h
  simp only [List.get?_eq_getElem?, hdev, hconn, hvend, Bool.not_true, Bool.false_eq_true,
    if_false] at h
  split_ifs at h with hc hassert
  split at h
  · simp at h
  · rename_i s2 commandStatus hb
    refine ⟨s2, commandStatus, hb, ?_⟩
    by_cases hcs : LB_STATUS.LB_OK = commandStatus
    · subst hcs
      simp only [ne_eq, not_true_eq_false, if_false] at h
      cases hio : io s2 with
      | none => simp [hio] at h
      | some shared3 =>
        simp only [hio] at h
        cases hd3 : shared3.device[dev]? with
        | none => simp [hd3] at h
        | some d3 =>
          simp only [hd3] at h
          cases hw : os_waitForCondition d3.operationComplete with
          | none =>
            simp only [hw, hd3, Option.some.injEq, Prod.mk.injEq] at h
            have hF : status = LB_STATUS.LB_FAILURE := by
              rw [← h.2]
              rfl
            refine ⟨Or.inr hF, ?_, ?_⟩
            · intro e
              rw [hF] at e
              cases e
            · rintro ⟨_, sh, d, hsh, hd, hwd⟩
              cases hsh
              rw [hd3] at hd
              cases hd
              rw [hw] at hwd
              cases hwd
          | some operationStatus =>
            simp only [hw, hd3, Option.some.injEq, Prod.mk.injEq] at h
            by_cases hst0 : operationStatus = CondStatus.value 0
            · have hOK : status = LB_STATUS.LB_OK := by
                rw [← h.2, if_pos hst0]
                rfl
              rw [hst0] at hw
              exact ⟨Or.inl hOK, fun _ => ⟨rfl, shared3, d3, rfl, hd3, hw⟩, fun _ => hOK⟩
            · have hF : status = LB_STATUS.LB_FAILURE := by
                rw [← h.2, if_neg hst0]
                rfl
              refine ⟨Or.inr hF, ?_, ?_⟩
              · intro e
                rw [hF] at e
                cases e
              · rintro ⟨_, sh, d, hsh, hd, hwd⟩
                cases hsh
                rw [hd3] at hd
                cases hd
                rw [hw] at hwd
                simp only [Option.some.injEq] at hwd
                exact absurd hwd hst0
    · have hne : LB_STATUS.LB_OK ≠ commandStatus := hcs
      rw [if_pos hne] at h
      simp only at h
      split at h
      · simp at h
      · simp only [Option.some.injEq, Prod.mk.injEq] at h
        have hF : status = LB_STATUS.LB_FAILURE := by
          rw [← h.2]
          rfl
        refine ⟨Or.inr hF, ?_, ?_⟩
        · intro e
          rw [hF] at e
          cases e
        · rintro ⟨e, _⟩
          exact absurd e.symm hcs

theorem lb_startServiceDiscovery_returns (io : IoThread) (s : Host) (dev : Nat) (device : LB_Device)
    (adapter : Adapter)
    (hdev : s.shared.device[dev]? = some device)
    (hconn : isDeviceConnected device = true) (hctl : device.controller = true)
    (hvend : s.vendorFunctions = some adapter)
    (hidle : device.pendingOperation = { type := PO_IDLE, attributeHandle := 0 })
    (s2 : Host) (commandStatus : LB_STATUS)
    (hb : startServiceDiscovery adapter io
          (setDevice s dev
            { device with
              pendingOperation := { device.pendingOperation with type := PO_DISCOVER },
              operationComplete := os_resetCondition device.operationComplete })
          { device with
              pendingOperation := { device.pendingOperation with type := PO_DISCOVER },
              operationComplete := os_resetCondition device.operationComplete }
           = some (s2, commandStatus)) :
    (commandStatus ≠ LB_STATUS.LB_OK → (∃ d, s2.shared.device[dev]? = some d) →
        (lb_startServiceDiscovery io s dev).map
            (fun r => r.2) = some LB_STATUS.LB_FAILURE)
      ∧ (commandStatus = LB_STATUS.LB_OK → ∀ shared3 d3, io s2 = some shared3 →
          shared3.device[dev]? = some d3 →
          (lb_startServiceDiscovery io s dev).map
              (fun r => r.2)
            = some (if os_waitForCondition d3.operationComplete = some (CondStatus.value 0)
                then LB_STATUS.LB_OK else LB_STATUS.LB_FAILURE)) := by
  have hassert : 0 = device.pendingOperation.attributeHandle
      ∧ PO_IDLE = device.pendingOperation.type := by
    rw [hidle]
    exact ⟨rfl, rfl⟩
  have hnc : (!device.controller) = false := by
    rw [hctl]
    rfl
  constructor
  · intro hne hd
    obtain ⟨d, hd⟩ := hd
    have hne1 : LB_STATUS.LB_OK ≠ commandStatus := fun e => hne e.symm
    unfold lb_startServiceDiscovery
    simp only [List.get?_eq_getElem?, hdev, hconn, hnc, hvend, Bool.not_true,
      Bool.false_eq_true, if_false]
    rw [if_pos hassert]
    simp only [hb]
    rw [if_pos hne1]
    simp only [hd, Option.map_some']
    rfl
  · intro hok shared3 d3 hio hd3
    subst hok
    unfold lb_startServiceDiscovery
    simp only [List.get?_eq_getElem?, hdev, hconn, hnc, hvend, Bool.not_true,
      Bool.false_eq_true, if_false]
    rw [if_pos hassert]
    simp only [hb, ne_eq, not_true_eq_false, if_false, hio, hd3]
    cases hw : os_waitForCondition d3.operationComplete with
    | none => simp [hd3, HCI_STATUS_SUCCESS, HCI_HOST_TIMEOUT]
    | some operationStatus =>
      by_cases hst0 : operationStatus = CondStatus.value 0
      · simp [hd3, hst0]
      · simp [hd3, hst0, HCI_STATUS_SUCCESS, HCI_HOST_TIMEOUT]

/-- C32: on a connected device (its record idle, as the three functions assert)
of a session with a resolved adapter, each of `lb_writeCharValue`,
`lb_readCharValue` and `lb_startServiceDiscovery` returns only `LB_OK` or
`LB_FAILURE`, and `LB_OK` exactly when the adapter's command was accepted (the
builder returned `LB_OK`) and the wait on the device's condition ended with the
condition signalled and the null status.  Each returns when its builder does:
`LB_FAILURE` for a rejected command, and for an accepted one `LB_FAILURE` when
the wait times out or the signalled status is not null, `LB_OK` otherwise. -/
theorem gatt_operation_status (io : IoThread) (s : Host) (dev : Nat) (device : LB_Device)
    (adapter : Adapter) (attributeHandle : Nat) (attributeValue : List Nat)
    (attributeLength attributeCapacity outLength : Nat)
    (hdev : s.shared.device[dev]? = some device)
    (hconn : isDeviceConnected device = true) (hctl : device.controller = true)
    (hvend : s.vendorFunctions = some adapter)
    (hidle : device.pendingOperation = { type := PO_IDLE, attributeHandle := 0 }) :
    (∀ s1 status, lb_writeCharValue io s dev attributeHandle attributeValue attributeLength
          = some (s1, status) →
        ∃ s2 commandStatus,
          writeCharValue adapter io
              (setDevice s dev (writeRecorded device attributeHandle))
              (writeRecorded device attributeHandle)
              attributeHandle attributeValue attributeLength
            = some (s2, commandStatus)
          ∧ (status = LB_STATUS.LB_OK ∨ status = LB_STATUS.LB_FAILURE)
          ∧ (status = LB_STATUS.LB_OK ↔
              commandStatus = LB_STATUS.LB_OK
                ∧ ∃ shared3 d3, io s2 = some shared3 ∧ shared3.device[dev]? = some d3
                  ∧ os_waitForCondition d3.operationComplete = some (CondStatus.value 0)))
      ∧ (∀ s2 commandStatus,
          writeCharValue adapter io
              (setDevice s dev (writeRecorded device attributeHandle))
              (writeRecorded device attributeHandle)
              attributeHandle attributeValue attributeLength
            = some (s2, commandStatus) →
          (commandStatus ≠ LB_STATUS.LB_OK → (∃ d, s2.shared.device[dev]? = some d) →
            (lb_writeCharValue io s dev attributeHandle attributeValue attributeLength).map
                (fun r => r.2) = some LB_STATUS.LB_FAILURE)
          ∧ (commandStatus = LB_STATUS.LB_OK → ∀ shared3 d3, io s2 = some shared3 →
              shared3.device[dev]? = some d3 →
              (lb_writeCharValue io s dev attributeHandle attributeValue attributeLength).map
                  (fun r => r.2)
                = some (if os_waitForCondition d3.operationComplete = some (CondStatus.value 0)
                    then LB_STATUS.LB_OK else LB_STATUS.LB_FAILURE)))
      ∧ (∀ s1 status value outLength1,
        lb_readCharValue io s dev attributeHandle attributeValue attributeCapacity outLength
          = some (s1, status, value, outLength1) →
        ∃ s2 commandStatus,
          requestCharValue adapter io
              (setDevice s dev (readRecorded device attributeHandle attributeValue attributeCapacity))
              (readRecorded device attributeHandle attributeValue attributeCapacity)
              attributeHandle
            = some (s2, commandStatus)
          ∧ (status = LB_STATUS.LB_OK ∨ status = LB_STATUS.LB_FAILURE)
          ∧ (status = LB_STATUS.LB_OK ↔
              commandStatus = LB_STATUS.LB_OK
                ∧ ∃ shared3 d3, io s2 = some shared3 ∧ shared3.device[dev]? = some d3
                  ∧ os_waitForCondition d3.operationComplete = some (CondStatus.value 0)))
      ∧ (∀ s2 commandStatus,
          requestCharValue adapter io
              (setDevice s dev (readRecorded device attributeHandle attributeValue attributeCapacity))
              (readRecorded device attributeHandle attributeValue attributeCapacity)
              attributeHandle
            = some (s2, commandStatus) →
          (commandStatus ≠ LB_STATUS.LB_OK → (∃ d, s2.shared.device[dev]? = some d) →
            (lb_readCharValue io s dev attributeHandle attributeValue attributeCapacity
                outLength).map
                (fun r => r.2.1) = some LB_STATUS.LB_FAILURE)
          ∧ (commandStatus = LB_STATUS.LB_OK → ∀ shared3 d3, io s2 = some shared3 →
              shared3.device[dev]? = some d3 →
              (lb_readCharValue io s dev attributeHandle attributeValue attributeCapacity
                outLength).map
                  (fun r => r.2.1)
                = some (if os_waitForCondition d3.operationComplete = some (CondStatus.value 0)
                    then LB_STATUS.LB_OK else LB_STATUS.LB_FAILURE)))
      ∧ (∀ s1 status, lb_startServiceDiscovery io s dev
          = some (s1, status) →
        ∃ s2 commandStatus,
          startServiceDiscovery adapter io
              (setDevice s dev (discoveryRecorded device))
              (discoveryRecorded device)
            = some (s2, commandStatus)
          ∧ (status = LB_STATUS.LB_OK ∨ status = LB_STATUS.LB_FAILURE)
          ∧ (status = LB_STATUS.LB_OK ↔
              commandStatus = LB_STATUS.LB_OK
                ∧ ∃ shared3 d3, io s2 = some shared3 ∧ shared3.device[dev]? = some d3
                  ∧ os_waitForCondition d3.operationComplete = some (CondStatus.value 0)))
      ∧ (∀ s2 commandStatus,
          startServiceDiscovery adapter io
              (setDevice s dev (discoveryRecorded device))
              (discoveryRecorded device)
            = some (s2, commandStatus) →
          (commandStatus ≠ LB_STATUS.LB_OK → (∃ d, s2.shared.device[dev]? = some d) →
            (lb_startServiceDiscovery io s dev).map
                (fun r => r.2) = some LB_STATUS.LB_FAILURE)
          ∧ (commandStatus = LB_STATUS.LB_OK → ∀ shared3 d3, io s2 = some shared3 →
              shared3.device[dev]? = some d3 →
              (lb_startServiceDiscovery io s dev).map
                  (fun r => r.2)
                = some (if os_waitForCondition d3.operationComplete = some (CondStatus.value 0)
                    then LB_STATUS.LB_OK else LB_STATUS.LB_FAILURE))) := by
  refine ⟨?_, ?_, ?_, ?_, ?_, ?_⟩
  · intro s1 status h
    exact lb_writeCharValue_result io s dev device adapter attributeHandle attributeValue
      attributeLength hdev hconn hvend s1 status h
  · intro s2 commandStatus hb
    exact lb_writeCharValue_returns io s dev device adapter attributeHandle attributeValue
      attributeLength hdev hconn hctl hvend hidle s2 commandStatus hb
  · intro s1 status value outLength1 h
    exact lb_readCharValue_result io s dev device adapter attributeHandle attributeValue
      attributeCapacity outLength hdev hconn hvend s1 status value outLength1 h
  · intro s2 commandStatus hb
    exact lb_readCharValue_returns io s dev device adapter attributeHandle attributeValue
      attributeCapacity outLength hdev hconn hctl hvend hidle s2 commandStatus hb
  · intro s1 status h
    exact lb_startServiceDiscovery_result io s dev device adapter hdev hconn hvend s1 status h
  · intro s2 commandStatus hb
    exact lb_startServiceDiscovery_returns io s dev device adapter hdev hconn hctl hvend hidle
      s2 commandStatus hb

/-- Witness of C32: a write to attribute `0x0025` on the connection `0x0040` of
a TI session, on each of the four paths: accepted and completed with status 0
(`LB_OK`); rejected (status `0x12` in the vendor `CommandStatus` event); no
completion within the wait; `ATT_WriteRsp` with status 1. -/
theorem gatt_operation_status_witness :
    (lb_writeCharValue
        (ioController [eventCommandStatus_TI 0x92 0xFD]
          [(0xFF, [0x13, 0x05, 0x00, 0x40, 0x00, 0x00], 6)])
        (sessionConnected Adapter.TI) 0 0x0025 [1] 1).map (fun r => r.2)
      = some LB_STATUS.LB_OK
    ∧ (lb_writeCharValue
        (ioController [(0xFF, [0x7F, 0x06, 0x12, 0x92, 0xFD, 0x00], 6)] [])
        (sessionConnected Adapter.TI) 0 0x0025 [1] 1).map (fun r => r.2)
      = some LB_STATUS.LB_FAILURE
    ∧ (lb_writeCharValue (ioController [eventCommandStatus_TI 0x92 0xFD] [])
        (sessionConnected Adapter.TI) 0 0x0025 [1] 1).map (fun r => r.2)
      = some LB_STATUS.LB_FAILURE
    ∧ (lb_writeCharValue
        (ioController [eventCommandStatus_TI 0x92 0xFD]
          [(0xFF, [0x13, 0x05, 0x01, 0x40, 0x00, 0x00], 6)])
        (sessionConnected Adapter.TI) 0 0x0025 [1] 1).map (fun r => r.2)
      = some LB_STATUS.LB_FAILURE
    ∧ ∃ s2 commandStatus,
        writeCharValue Adapter.TI
            (ioController [eventCommandStatus_TI 0x92 0xFD]
              [(0xFF, [0x13, 0x05, 0x00, 0x40, 0x00, 0x00], 6)])
            (setDevice (sessionConnected Adapter.TI) 0
              (writeRecorded (connectedDevice 0x0040) 0x0025))
            (writeRecorded (connectedDevice 0x0040) 0x0025) 0x0025 [1] 1
          = some (s2, commandStatus)
        ∧ (LB_STATUS.LB_OK = LB_STATUS.LB_OK ∨ LB_STATUS.LB_OK = LB_STATUS.LB_FAILURE)
        ∧ (LB_STATUS.LB_OK = LB_STATUS.LB_OK ↔
            commandStatus = LB_STATUS.LB_OK
              ∧ ∃ shared3 d3,
                  ioController [eventCommandStatus_TI 0x92 0xFD]
                    [(0xFF, [0x13, 0x05, 0x00, 0x40, 0x00, 0x00], 6)] s2 = some shared3
                  ∧ shared3.device[0]? = some d3
                  ∧ os_waitForCondition d3.operationComplete = some (CondStatus.value 0)) :=
  ⟨by decide, by decide, by decide, by decide,
   (gatt_operation_status
      (ioController [eventCommandStatus_TI 0x92 0xFD]
        [(0xFF, [0x13, 0x05, 0x00, 0x40, 0x00, 0x00], 6)])
      (sessionConnected Adapter.TI) 0 (connectedDevice 0x0040) Adapter.TI 0x0025 [1] 1 1 0
      rfl rfl rfl rfl rfl).1 _ LB_STATUS.LB_OK rfl⟩

/-! ## ST adapter: the procedure-complete event -/

theorem signalDevice_at (s : Shared) (ii : Nat) (d : LB_Device) (status : CondStatus)
    (hd : s.device[ii]? = some d) (hctl : d.controller = true) :
    signalDevice s ii status
      = some { s with
          device := s.device.set ii
            { d with operationComplete := { signalled := true, status := status } } } := by
  simp [signalDevice, hd, hctl, os_signalCondition]

/-- C33: on `EVT_BLUE_GATT_PROCEDURE_COMPLETE` (`0x0C10`) for a connected device
(the entry `getDevice` returns for the event's handle, its condition existing):
if the pending operation is discover the handler signals the device's condition
with the null status (service-discovery completion); if it is read or write
with a non-zero attribute handle it signals the condition with the status byte
`event[5]`; if the device is idle the handler fails its assertion, so nothing
is signalled.  Nothing else of the session changes. -/
theorem procedure_complete_ST (s : Shared) (event : List Nat) (length ii : Nat)
    (d : LB_Device)
    (hcode : (event.getD 0 0 ||| (event.getD 1 0 <<< 8)) % 65536 = 0x0C10)
    (hfound : getDevice s.device ((event.getD 2 0 ||| (event.getD 3 0 <<< 8)) % 65536)
      = some ii)
    (hd : s.device[ii]? = some d) (hctl : d.controller = true) :
    (d.pendingOperation.type = PO_DISCOVER →
        lb_on_vendorSpecificEvent_ST s event length
          = some { s with
              device := s.device.set ii
                { d with
                  operationComplete := { signalled := true, status := CondStatus.value 0 } } })
      ∧ (d.pendingOperation.type = PO_READ ∨ d.pendingOperation.type = PO_WRITE →
          d.pendingOperation.attributeHandle ≠ 0 →
          lb_on_vendorSpecificEvent_ST s event length
            = some { s with
                device := s.device.set ii
                  { d with
                    operationComplete :=
                      { signalled := true, status := CondStatus.value (event.getD 5 0) } } })
      ∧ (d.pendingOperation.type = PO_IDLE →
          lb_on_vendorSpecificEvent_ST s event length = none) := by
  have hrun : lb_on_vendorSpecificEvent_ST s event length
      = if PO_DISCOVER = d.pendingOperation.type then
          on_serviceDiscoveryComplete s
            ((event.getD 2 0 ||| (event.getD 3 0 <<< 8)) % 65536)
        else if (PO_READ = d.pendingOperation.type ∨ PO_WRITE = d.pendingOperation.type)
            ∧ d.pendingOperation.attributeHandle ≠ 0 then
          signalDevice s ii (CondStatus.value (event.getD 5 0))
        else
          none := by
    unfold lb_on_vendorSpecificEvent_ST
    simp only [hcode]
    rw [if_neg (by decide), if_neg (by decide), if_neg (by decide), if_neg (by decide),
      if_neg (by decide), if_pos trivial]
    simp only [hfound, List.get?_eq_getElem?, hd]
  refine ⟨?_, ?_, ?_⟩
  · intro htype
    rw [hrun, if_pos htype.symm, on_serviceDiscoveryComplete]
    simp only [hfound]
    exact signalDevice_at s ii d _ hd hctl
  · intro htype hhandle
    have hnd : ¬ PO_DISCOVER = d.pendingOperation.type := by
      intro e
      rcases htype with h | h
      · rw [h] at e
        exact absurd e (by decide)
      · rw [h] at e
        exact absurd e (by decide)
    have hrw : (PO_READ = d.pendingOperation.type ∨ PO_WRITE = d.pendingOperation.type)
        ∧ d.pendingOperation.attributeHandle ≠ 0 :=
      ⟨htype.imp Eq.symm Eq.symm, hhandle⟩
    rw [hrun, if_neg hnd, if_pos hrw]
    exact signalDevice_at s ii d _ hd hctl
  · intro htype
    have hnd : ¬ PO_DISCOVER = d.pendingOperation.type := by
      rw [htype]
      decide
    have hnrw : ¬ ((PO_READ = d.pendingOperation.type ∨ PO_WRITE = d.pendingOperation.type)
        ∧ d.pendingOperation.attributeHandle ≠ 0) := by
      rw [htype]
      rintro ⟨h | h, _⟩
      · exact absurd h (by decide)
      · exact absurd h (by decide)
    rw [hrun, if_neg hnd, if_neg hnrw]

/-- Witness of C33: the ST session with the connection `0x0040`, a discovery
recorded, and the event `10 0C 40 00 00 00`; the same event with status `0x05`
while a write to attribute `0x0025` is recorded; and the event on the idle
device. -/
theorem procedure_complete_ST_witness :
    lb_on_vendorSpecificEvent_ST
        (setDevice (sessionConnected Adapter.ST) 0
          (discoveryRecorded (connectedDevice 0x0040))).shared
        [0x10, 0x0C, 0x40, 0x00, 0x00, 0x00] 6
      = some { (setDevice (sessionConnected Adapter.ST) 0
                (discoveryRecorded (connectedDevice 0x0040))).shared with
          device := (setDevice (sessionConnected Adapter.ST) 0
                (discoveryRecorded (connectedDevice 0x0040))).shared.device.set 0
            { discoveryRecorded (connectedDevice 0x0040) with
              operationComplete := { signalled := true, status := CondStatus.value 0 } } }
    ∧ (lb_on_vendorSpecificEvent_ST
        (setDevice (sessionConnected Adapter.ST) 0
          (writeRecorded (connectedDevice 0x0040) 0x0025)).shared
        [0x10, 0x0C, 0x40, 0x00, 0x00, 0x05] 6).map
          (fun sh => sh.device[0]?.map (fun d => d.operationComplete))
      = some (some { signalled := true, status := CondStatus.value 0x05 })
    ∧ lb_on_vendorSpecificEvent_ST (sessionConnected Adapter.ST).shared
        [0x10, 0x0C, 0x40, 0x00, 0x00, 0x00] 6 = none
    ∧ (lb_startServiceDiscovery
        (ioController [eventCommandStatus 0x12 0xFD]
          [(0xFF, [0x10, 0x0C, 0x40, 0x00, 0x00, 0x00], 6)])
        (sessionConnected Adapter.ST) 0).map (fun r => r.2) = some LB_STATUS.LB_OK :=
  ⟨(procedure_complete_ST
      (setDevice (sessionConnected Adapter.ST) 0
        (discoveryRecorded (connectedDevice 0x0040))).shared
      [0x10, 0x0C, 0x40, 0x00, 0x00, 0x00] 6 0 (discoveryRecorded (connectedDevice 0x0040))
      (by decide) (by decide) rfl rfl).1 rfl,
   by decide, by decide, by decide⟩

/-! ## Primary services: decoding the Read-By-Group-Type response -/

/-- C13: the claim does not hold of the code.  A wait that times out leaves
its entry allocated (`waitForCondition` clears the opcode only when the
condition is signalled, and nothing calls `releaseCondition`), and
`allocateCondition` never looks for an entry that already bears the opcode.
So for every command with a non-zero opcode, `allocateCondition`,
`waitForCondition` (timeout), `allocateCondition` from `hci_initialize` leaves
two entries bearing the opcode; through the API: `lb_executeCommand` on the
session `lb_connect` leaves with a controller that does not answer returns
`LB_FAILURE`, and the same command issued again returns `LB_FAILURE` with the
entries 0 and 1 both bearing its opcode. -/
theorem duplicate_opcode_after_timeout (command : List Nat) (commandLength : Nat)
    (hcmd : 4 ≤ commandLength)
    (hop : (((command.getD 2 0) <<< 8) ||| command.getD 1 0) % 65536 ≠ 0) :
    (runCalls hci_initialize
          [CorrelatorCall.allocate
              ((((command.getD 2 0) <<< 8) ||| command.getD 1 0) % 65536) [] 0,
            CorrelatorCall.wait 0,
            CorrelatorCall.allocate
              ((((command.getD 2 0) <<< 8) ||| command.getD 1 0) % 65536) [] 0]).map
          (fun table => (table.map (fun e => e.opcode), decide (distinctOpcodes table)))
        = some ([(((command.getD 2 0) <<< 8) ||| command.getD 1 0) % 65536,
            (((command.getD 2 0) <<< 8) ||| command.getD 1 0) % 65536, 0, 0], false)
      ∧ (lb_executeCommand ioSilent sessionStart command commandLength [] 0).bind
          (fun r => (lb_executeCommand ioSilent r.1 command commandLength [] 0).map
            (fun r2 => (r.2.1, r2.2.1, r2.1.shared.pendingCommands.map (fun e => e.opcode),
              decide (distinctOpcodes r2.1.shared.pendingCommands))))
        = some (LB_STATUS.LB_FAILURE, LB_STATUS.LB_FAILURE,
            [(((command.getD 2 0) <<< 8) ||| command.getD 1 0) % 65536,
             (((command.getD 2 0) <<< 8) ||| command.getD 1 0) % 65536, 0, 0], false) := by
  simp only [List.getD_eq_getElem?_getD] at hop
  have hne : ¬ 0 = (((command[2]?.getD 0) <<< 8) ||| command[1]?.getD 0) % 65536 :=
    fun e => hop e.symm
  constructor
  · simp [runCalls, runCall, hci_initialize, allocateCondition, scanOpcode,
      pendingCommandsCount, waitForCondition, hne, distinctOpcodes, hop]
  · simp [lb_executeCommand, hcmd, ioSilent, sessionStart, hci_initialize, allocateCondition,
      scanOpcode, pendingCommandsCount, waitForCondition, hne, distinctOpcodes, hop,
      HCI_STATUS_SUCCESS, HCI_CONTROLLER_BUSY]

/-- Witness of C13: the HCI reset (`0x0C03`) sent twice to a controller that
does not answer. -/
theorem duplicate_opcode_after_timeout_witness :
    ((lb_resetHCI ioSilent sessionStart).bind
        (fun r => (lb_resetHCI ioSilent r.1).map
          (fun r2 => (r.2, r2.2, r2.1.shared.pendingCommands.map (fun e => e.opcode)))))
      = some (LB_STATUS.LB_FAILURE, LB_STATUS.LB_FAILURE, [0x0C03, 0x0C03, 0, 0])
    ∧ (lb_executeCommand ioSilent sessionStart CMD_RESET 4 [] 0).bind
        (fun r => (lb_executeCommand ioSilent r.1 CMD_RESET 4 [] 0).map
          (fun r2 => (r.2.1, r2.2.1, r2.1.shared.pendingCommands.map (fun e => e.opcode),
            decide (distinctOpcodes r2.1.shared.pendingCommands))))
      = some (LB_STATUS.LB_FAILURE, LB_STATUS.LB_FAILURE,
          [(((CMD_RESET.getD 2 0) <<< 8) ||| CMD_RESET.getD 1 0) % 65536,
           (((CMD_RESET.getD 2 0) <<< 8) ||| CMD_RESET.getD 1 0) % 65536, 0, 0], false) :=
  ⟨by decide, (duplicate_opcode_after_timeout CMD_RESET 4 (by decide) (by decide)).2⟩

/-! ## Connections: only entry 0 ever bears a handle -/

theorem laterSlotsFree_iff (device : List LB_Device) :
    laterSlotsFree device
      ↔ ∀ j d, 0 < j → device[j]? = some d →
          d.connectionHandle = INVALID_CONNECTION_HANDLE := by
  unfold laterSlotsFree
  constructor
  · intro h j d hj hd
    apply h d
    rw [List.mem_iff_getElem?]
    refine ⟨j - 1, ?_⟩
    rw [List.getElem?_drop, ← hd]
    congr 1
    omega
  · intro h d hd
    rw [List.mem_iff_getElem?] at hd
    obtain ⟨k, hk⟩ := hd
    rw [List.getElem?_drop] at hk
    exact h (1 + k) d (by omega) hk

theorem sameLaterHandles_refl (s : Shared) : sameLaterHandles s s :=
  fun _ _ => rfl

theorem sameLaterHandles_of_device (s s1 : Shared) (h : s1.device = s.device) :
    sameLaterHandles s s1 := by
  intro j _
  rw [h]

theorem sameLaterHandles_trans (s s1 s2 : Shared) (h1 : sameLaterHandles s s1)
    (h2 : sameLaterHandles s1 s2) : sameLaterHandles s s2 :=
  fun j hj => (h2 j hj).trans (h1 j hj)

theorem sameLaterHandles_set (s : Shared) (ii : Nat) (d new : LB_Device) (s1 : Shared)
    (hd : s.device.get? ii = some d) (h1 : s1.device = s.device.set ii new)
    (hp : new.connectionHandle = d.connectionHandle) : sameLaterHandles s s1 := by
  intro j _
  rw [h1]
  simp only [List.get?_eq_getElem?] at hd ⊢
  by_cases hj : j = ii
  · subst hj
    have hlt : j < s.device.length := by
      by_contra hge
      rw [List.getElem?_eq_none (by omega)] at hd
      simp at hd
    rw [List.getElem?_set_self hlt, hd]
    simp [hp]
  · rw [List.getElem?_set_ne (Ne.symm hj)]

theorem sameLaterHandles_free (s s1 : Shared) (hfree : laterSlotsFree s.device)
    (h : sameLaterHandles s s1) : laterSlotsFree s1.device := by
  rw [laterSlotsFree_iff] at hfree ⊢
  intro j d hj hd
  have hk := h j hj
  simp only [List.get?_eq_getElem?, hd, Option.map_some'] at hk
  cases hs : s.device[j]? with
  | none =>
    rw [hs] at hk
    simp at hk
  | some d0 =>
    rw [hs] at hk
    simp only [Option.map_some', Option.some.injEq] at hk
    rw [hk]
    exact hfree j d0 hj hs

theorem freeDeviceLoop_zero (device : List LB_Device) (ii : Nat) :
    ∀ fuel, freeDeviceLoop device fuel 0 = some ii → ii = 0 := by
  intro fuel
  induction fuel with
  | zero =>
    intro h
    simp [freeDeviceLoop] at h
  | succ n ih =>
    intro h
    rw [freeDeviceLoop] at h
    split_ifs at h
    split at h
    · simp at h
    · split_ifs at h
      · simp only [Option.some.injEq] at h
        exact h.symm
      · exact ih h

theorem on_connectedToDevice_handles (s : Shared) (address : List Nat) (handle : Nat)
    (s1 : Shared) (h : on_connectedToDevice s address handle = some s1) :
    sameLaterHandles s s1 := by
  unfold on_connectedToDevice at h
  split at h
  · simp at h
  · rename_i ii hloop
    have hii := freeDeviceLoop_zero s.device ii _ hloop
    subst hii
    split at h
    · simp at h
    · simp only [Option.some.injEq] at h
      subst h
      intro j hj
      simp only [List.get?_eq_getElem?]
      rw [List.getElem?_set_ne (by omega)]

theorem signalDevice_handles (s : Shared) (ii : Nat) (status : CondStatus) (s1 : Shared)
    (h : signalDevice s ii status = some s1) : sameLaterHandles s s1 := by
  unfold signalDevice at h
  split at h
  · simp at h
  · rename_i d hd
    split_ifs at h
    simp only [Option.some.injEq] at h
    subst h
    exact sameLaterHandles_set s ii d _ _ hd rfl rfl

theorem on_disconnectedFromDevice_handles (s : Shared) (handle reason : Nat) (s1 : Shared)
    (h : on_disconnectedFromDevice s handle reason = some s1) : sameLaterHandles s s1 := by
  unfold on_disconnectedFromDevice at h
  split at h
  · simp at h
  · simp only [Option.some.injEq] at h
    exact sameLaterHandles_of_device s s1 (by rw [← h])

theorem on_serviceDiscoveryComplete_handles (s : Shared) (handle : Nat) (s1 : Shared)
    (h : on_serviceDiscoveryComplete s handle = some s1) : sameLaterHandles s s1 := by
  unfold on_serviceDiscoveryComplete at h
  split at h
  · simp at h
  · exact signalDevice_handles s _ _ s1 h

theorem storeReadResponse_handles (s : Shared) (ii attributeLength header length : Nat)
    (value : List Nat) (s1 : Shared)
    (h : storeReadResponse s ii attributeLength header length value = some s1) :
    sameLaterHandles s s1 := by
  unfold storeReadResponse at h
  split at h
  · simp at h
  · rename_i d hd
    split_ifs at h <;>
    · simp only [Option.some.injEq] at h
      subst h
      exact sameLaterHandles_set s ii d _ _ hd rfl rfl

theorem hci_on_ATT_READ_BY_GROUP_TYPE_RESP_EVENT_handles (s : Shared) (buffer : List Nat)
    (length : Nat) (s1 : Shared)
    (h : hci_on_ATT_READ_BY_GROUP_TYPE_RESP_EVENT s buffer length = some s1) :
    sameLaterHandles s s1 := by
  unfold hci_on_ATT_READ_BY_GROUP_TYPE_RESP_EVENT at h
  simp only at h
  split_ifs at h
  exact sameLaterHandles_of_device s s1 (primaryServiceLoop_device _ _ _ _ _ _ _ _ h)

theorem lb_on_vendorSpecificEvent_TI_handles (s : Shared) (event : List Nat) (length : Nat)
    (s1 : Shared) (h : lb_on_vendorSpecificEvent_TI s event length = some s1) :
    sameLaterHandles s s1 := by
  unfold lb_on_vendorSpecificEvent_TI at h
  simp only at h
  generalize (event.getD 0 0 ||| (event.getD 1 0) <<< 8) % 65536 = code at h
  by_cases c1 : code = 0x0600
  · rw [if_pos c1] at h
    split_ifs at h
    simp only [Option.some.injEq] at h
    exact sameLaterHandles_of_device s s1 (by rw [← h])
  rw [if_neg c1] at h
  by_cases c2 : code = 0x0605
  · rw [if_pos c2] at h
    split_ifs at h
    exact on_connectedToDevice_handles s _ _ s1 h
  rw [if_neg c2] at h
  by_cases c3 : code = 0x0606
  · rw [if_pos c3] at h
    split_ifs at h
    exact on_disconnectedFromDevice_handles s _ _ s1 h
  rw [if_neg c3] at h
  by_cases c4 : code = 0x060D
  · rw [if_pos c4] at h
    split_ifs at h
    simp only [Option.some.injEq] at h
    exact sameLaterHandles_of_device s s1 (by rw [← h])
  rw [if_neg c4] at h
  by_cases c5 : code = 0x0601
  · rw [if_pos c5] at h
    split_ifs at h
    simp only [Option.some.injEq] at h
    exact sameLaterHandles_of_device s s1 (by rw [← h])
  rw [if_neg c5] at h
  by_cases c6 : code = 0x067F
  · rw [if_pos c6] at h
    by_cases hl : 4 + 2 ≤ length
    · rw [if_pos hl] at h
      simp only [Option.map_eq_some'] at h
      obtain ⟨t, _, ht⟩ := h
      exact sameLaterHandles_of_device s s1 (by rw [← ht])
    · rw [if_neg hl] at h
      simp at h
  rw [if_neg c6] at h
  by_cases c7 : code = 0x0511
  · rw [if_pos c7] at h
    split_ifs at h
    · exact hci_on_ATT_READ_BY_GROUP_TYPE_RESP_EVENT_handles s _ _ s1 h
    · exact on_serviceDiscoveryComplete_handles s _ s1 h
  rw [if_neg c7] at h
  by_cases c8 : code = 0x0501
  · rw [if_pos c8] at h
    split at h
    · simp at h
    · split at h
      · simp at h
      · split_ifs at h
        · exact signalDevice_handles s _ _ s1 h
        · simp only [Option.some.injEq] at h
          exact sameLaterHandles_of_device s s1 (by rw [← h])
  rw [if_neg c8] at h
  by_cases c9 : code = 0x0513
  · rw [if_pos c9] at h
    split at h
    · simp at h
    · split at h
      · simp at h
      · split_ifs at h
        exact signalDevice_handles s _ _ s1 h
  rw [if_neg c9] at h
  by_cases c10 : code = 0x050B
  · rw [if_pos c10] at h
    split at h
    · simp at h
    · split at h
      · simp at h
      · rename_i s2 hs2
        exact sameLaterHandles_trans s s2 s1 (storeReadResponse_handles s _ _ _ _ _ s2 hs2)
          (signalDevice_handles s2 _ _ s1 h)
  rw [if_neg c10] at h
  by_cases c11 : code = 0x051B
  · rw [if_pos c11] at h
    split at h
    · simp at h
    · simp only [Option.some.injEq] at h
      exact sameLaterHandles_of_device s s1 (by rw [← h])
  rw [if_neg c11] at h
  simp only [Option.some.injEq] at h
  exact sameLaterHandles_of_device s s1 (by rw [← h])

theorem lb_on_vendorSpecificEvent_ST_handles (s : Shared) (event : List Nat) (length : Nat)
    (s1 : Shared) (h : lb_on_vendorSpecificEvent_ST s event length = some s1) :
    sameLaterHandles s s1 := by
  unfold lb_on_vendorSpecificEvent_ST at h
  simp only at h
  generalize (event.getD 0 0 ||| (event.getD 1 0) <<< 8) % 65536 = code at h
  by_cases c1 : code = 0x0001
  · rw [if_pos c1] at h
    simp only [Option.some.injEq] at h
    exact sameLaterHandles_of_device s s1 (by rw [← h])
  rw [if_neg c1] at h
  by_cases c2 : code = 0x0406
  · rw [if_pos c2] at h
    split_ifs at h
    simp only [Option.some.injEq] at h
    exact sameLaterHandles_of_device s s1 (by rw [← h])
  rw [if_neg c2] at h
  by_cases c3 : code = 0x0407
  · rw [if_pos c3] at h
    split_ifs at h
    · simp only [Option.some.injEq] at h
      exact sameLaterHandles_of_device s s1 (by rw [← h])
    · simp only [Option.some.injEq] at h
      exact sameLaterHandles_of_device s s1 (by rw [← h])
  rw [if_neg c3] at h
  by_cases c4 : code = 0x0C0A
  · rw [if_pos c4] at h
    exact hci_on_ATT_READ_BY_GROUP_TYPE_RESP_EVENT_handles s _ _ s1 h
  rw [if_neg c4] at h
  by_cases c5 : code = 0x0C0F
  · rw [if_pos c5] at h
    split at h
    · simp at h
    · simp only [Option.some.injEq] at h
      exact sameLaterHandles_of_device s s1 (by rw [← h])
  rw [if_neg c5] at h
  by_cases c6 : code = 0x0C10
  · rw [if_pos c6] at h
    split at h
    · simp at h
    · split at h
      · simp at h
      · split_ifs at h
        · exact on_serviceDiscoveryComplete_handles s _ s1 h
        · exact signalDevice_handles s _ _ s1 h
  rw [if_neg c6] at h
  by_cases c7 : code = 0x0C07
  · rw [if_pos c7] at h
    split at h
    · simp at h
    · exact storeReadResponse_handles s _ _ _ _ _ s1 h
  rw [if_neg c7] at h
  split_ifs at h <;>
  · simp only [Option.some.injEq] at h
    exact sameLaterHandles_of_device s s1 (by rw [← h])

theorem lb_on_metaEvent_ST_handles (s : Shared) (event : List Nat) (length : Nat)
    (s1 : Shared) (h : lb_on_metaEvent_ST s event length = some s1) : sameLaterHandles s s1 := by
  unfold lb_on_metaEvent_ST at h
  split_ifs at h
  · exact on_connectedToDevice_handles s _ _ s1 h
  · simp only [Option.some.injEq] at h
    exact sameLaterHandles_of_device s s1 (by rw [← h])

theorem processEvent_handles (vendorFunctions : Option Adapter) (s : Shared) (opcode : Nat)
    (ptr : List Nat) (len : Nat) (s1 : Shared)
    (h : processEvent vendorFunctions s opcode ptr len = some s1) : sameLaterHandles s s1 := by
  unfold processEvent dispatchEvent at h
  split_ifs at h
  · exact on_disconnectedFromDevice_handles s _ _ s1 h
  · simp only [Option.map_eq_some'] at h
    obtain ⟨t, _, ht⟩ := h
    exact sameLaterHandles_of_device s s1 (by rw [← ht])
  · simp only [Option.map_eq_some'] at h
    obtain ⟨t, _, ht⟩ := h
    exact sameLaterHandles_of_device s s1 (by rw [← ht])
  · split at h
    · simp only [Option.some.injEq] at h
      exact sameLaterHandles_of_device s s1 (by rw [← h])
    · rename_i adapter
      cases adapter
      · simp [on_metaEvent] at h
      · exact lb_on_metaEvent_ST_handles s _ _ s1 h
  · split at h
    · rename_i adapter
      cases adapter
      · exact lb_on_vendorSpecificEvent_TI_handles s _ _ s1 h
      · exact lb_on_vendorSpecificEvent_ST_handles s _ _ s1 h
    · simp only [hci_on_vendorSpecificEvent, Option.some.injEq] at h
      exact sameLaterHandles_of_device s s1 (by rw [← h])
  · simp only [Option.some.injEq] at h
    exact sameLaterHandles_of_device s s1 (by rw [← h])

theorem deliverEvents_handles (vendorFunctions : Option Adapter) :
    ∀ (events : List Event) (s s1 : Shared),
      deliverEvents vendorFunctions s events = some s1 → sameLaterHandles s s1 := by
  intro events
  induction events with
  | nil =>
    intro s s1 h
    simp only [deliverEvents, Option.some.injEq] at h
    exact sameLaterHandles_of_device s s1 (by rw [← h])
  | cons e rest ih =>
    intro s s1 h
    obtain ⟨opcode, ptr, len⟩ := e
    simp only [deliverEvents] at h
    split at h
    · simp at h
    · rename_i s2 hs2
      exact sameLaterHandles_trans s s2 s1 (processEvent_handles vendorFunctions s _ _ _ s2 hs2)
        (ih s2 s1 h)

theorem deliverEvents_free (vendorFunctions : Option Adapter) (events : List Event)
    (s s1 : Shared) (hfree : laterSlotsFree s.device)
    (h : deliverEvents vendorFunctions s events = some s1) : laterSlotsFree s1.device :=
  sameLaterHandles_free s s1 hfree (deliverEvents_handles vendorFunctions events s s1 h)

theorem laterSlotsFree_set (device : List LB_Device) (ii : Nat) (d new : LB_Device)
    (hfree : laterSlotsFree device) (hd : device[ii]? = some d)
    (hp : new.connectionHandle = d.connectionHandle
      ∨ new.connectionHandle = INVALID_CONNECTION_HANDLE) :
    laterSlotsFree (device.set ii new) := by
  rw [laterSlotsFree_iff] at hfree ⊢
  intro j e hj he
  by_cases hji : j = ii
  · subst hji
    have hlt : j < device.length := by
      by_contra hge
      rw [List.getElem?_eq_none (by omega)] at hd
      simp at hd
    rw [List.getElem?_set_self hlt] at he
    simp only [Option.some.injEq] at he
    subst he
    rcases hp with hp | hp
    · rw [hp]
      exact hfree j d hj hd
    · exact hp
  · rw [List.getElem?_set_ne (Ne.symm hji)] at he
    exact hfree j e hj he

/-- C28: in a session whose device table has the form the library keeps (only
entry 0 can bear a connection, `laterSlotsFree`: true of the table `lb_connect`
leaves, kept by every event handler and by every store of a handle the API
functions make), for every Disconnection Complete event (`0x05`, parameters
`{status, handle lo, handle hi, reason}`) and every TI `GAP_LinkTerminated`
vendor event whose handle is held by a connected device entry the handler
returns with one call of `lb_on_disconnectedFromDevice` for that device and
the event's reason byte appended, and with the session-wide condition
signalled carrying that reason; nothing else changes.  The form of the table is
kept by any sequence of events. -/
theorem disconnection_event (vendorFunctions : Option Adapter) (s : Shared)
    (status lo hi reason : Nat) (beyond : List Nat) (ii : Nat) (d : LB_Device)
    (hreach : laterSlotsFree s.device)
    (hheld : s.device[ii]? = some d) (hh : d.connectionHandle = uint16Value lo hi)
    (hconn : isDeviceConnected d = true) :
    processEvent vendorFunctions s 0x05 ([status, lo, hi, reason] ++ beyond) 4
        = some { s with
            callbacks := s.callbacks ++ [AppCallback.disconnectedFromDevice ii reason],
            operationComplete :=
              os_signalCondition s.operationComplete (CondStatus.value reason) }
      ∧ processEvent (some Adapter.TI) s 0xFF ([0x06, 0x06, status, lo, hi, reason] ++ beyond) 6
        = some { s with
            callbacks := s.callbacks ++ [AppCallback.disconnectedFromDevice ii reason],
            operationComplete :=
              os_signalCondition s.operationComplete (CondStatus.value reason) }
      ∧ (∀ (adapter : Option Adapter) (events : List Event) (s1 : Shared),
          deliverEvents adapter s events = some s1 → laterSlotsFree s1.device) := by
  have hii : ii = 0 := by
    by_contra hne
    have hinv := (laterSlotsFree_iff s.device).mp hreach ii d (by omega) hheld
    simp [isDeviceConnected, hinv] at hconn
  subst hii
  have h := disconnection_first_slot vendorFunctions s status lo hi reason beyond d hheld hh
  exact ⟨h.1, h.2, fun adapter events s1 hrun => deliverEvents_free adapter events s s1 hreach hrun⟩

/-- Witness of C28: the session with the connection `0x0040`, reason `0x13`:
one call with device 0 and reason `0x13`, the session condition signalled
carrying `0x13`, for both events. -/
theorem disconnection_event_witness :
    laterSlotsFree sessionStart.shared.device
      ∧ laterSlotsFree (sessionConnected Adapter.TI).shared.device
      ∧ (processEvent (some Adapter.TI) (sessionConnected Adapter.TI).shared 0x05
          ([0x00, 0x40, 0x00, 0x13] ++ []) 4).map (fun s => (s.callbacks, s.operationComplete))
        = some ([AppCallback.disconnectedFromDevice 0 0x13],
                { signalled := true, status := CondStatus.value 0x13 })
      ∧ (processEvent (some Adapter.TI) (sessionConnected Adapter.TI).shared 0xFF
          ([0x06, 0x06, 0x00, 0x40, 0x00, 0x13] ++ []) 6).map
            (fun s => (s.callbacks, s.operationComplete))
        = some ([AppCallback.disconnectedFromDevice 0 0x13],
                { signalled := true, status := CondStatus.value 0x13 }) := by
  have h := disconnection_event (some Adapter.TI) (sessionConnected Adapter.TI).shared
    0x00 0x40 0x00 0x13 [] 0 (connectedDevice 0x0040) (by decide) rfl rfl rfl
  refine ⟨by decide, by decide, ?_, ?_⟩
  · rw [h.1]
    rfl
  · rw [h.2.1]
    rfl

end LightBlue
